import Mathlib

/-!
Verification development for the BrainDrive-Protocol repository.

The Python sources are shallowly embedded: dictionaries and JSON payloads
become the inductive type `J`, stateful modules become explicit state
records with pure transition functions, and fallible code returns
`Option` or `Except`.  Machine-level concerns that the claims do not
touch (float latency EWMA, wall-clock timestamps, UUID generation) are
abstracted by fixed placeholder values; every branch that the source
takes on its inputs is reproduced.
-/

set_option maxRecDepth 4096

namespace BrainDrive

/-- JSON-like values, the shallow embedding of Python dict/list/str/int/bool/None
payloads exchanged by the runtime.  Numbers are integers: every number the
routing and worker code path manipulates (priorities, attempts, depths) is an
int in the source; float-valued health latency is outside the embedding. -/
inductive J where
  | null : J
  | bool : Bool → J
  | num : Int → J
  | str : String → J
  | arr : List J → J
  | obj : List (String × J) → J
  deriving Inhabited

mutual

/-- Boolean equality on JSON values (structural). -/
def beqJ : J → J → Bool
  | .null, .null => true
  | .bool a, .bool b => a == b
  | .num a, .num b => a == b
  | .str a, .str b => a == b
  | .arr xs, .arr ys => beqListJ xs ys
  | .obj xs, .obj ys => beqEntriesJ xs ys
  | _, _ => false

/-- Boolean equality on lists of JSON values. -/
def beqListJ : List J → List J → Bool
  | [], [] => true
  | x :: xs, y :: ys => beqJ x y && beqListJ xs ys
  | _, _ => false

/-- Boolean equality on association lists of JSON values. -/
def beqEntriesJ : List (String × J) → List (String × J) → Bool
  | [], [] => true
  | (k, v) :: xs, (k2, w) :: ys => k == k2 && beqJ v w && beqEntriesJ xs ys
  | _, _ => false

end

instance : BEq J := ⟨beqJ⟩

mutual

theorem beqJ_iff : (a b : J) → (beqJ a b = true ↔ a = b)
  | .null, .null => by simp [beqJ]
  | .null, .bool _ | .null, .num _ | .null, .str _ | .null, .arr _ | .null, .obj _ => by
      simp [beqJ]
  | .bool _, .null | .bool _, .num _ | .bool _, .str _ | .bool _, .arr _ | .bool _, .obj _ => by
      simp [beqJ]
  | .bool a, .bool b => by simp [beqJ]
  | .num _, .null | .num _, .bool _ | .num _, .str _ | .num _, .arr _ | .num _, .obj _ => by
      simp [beqJ]
  | .num a, .num b => by simp [beqJ]
  | .str _, .null | .str _, .bool _ | .str _, .num _ | .str _, .arr _ | .str _, .obj _ => by
      simp [beqJ]
  | .str a, .str b => by simp [beqJ]
  | .arr _, .null | .arr _, .bool _ | .arr _, .num _ | .arr _, .str _ | .arr _, .obj _ => by
      simp [beqJ]
  | .arr xs, .arr ys => by simp [beqJ, beqListJ_iff xs ys]
  | .obj _, .null | .obj _, .bool _ | .obj _, .num _ | .obj _, .str _ | .obj _, .arr _ => by
      simp [beqJ]
  | .obj xs, .obj ys => by simp [beqJ, beqEntriesJ_iff xs ys]

theorem beqListJ_iff : (xs ys : List J) → (beqListJ xs ys = true ↔ xs = ys)
  | [], [] => by simp [beqListJ]
  | [], _ :: _ => by simp [beqListJ]
  | _ :: _, [] => by simp [beqListJ]
  | x :: xs, y :: ys => by
      simp [beqListJ, beqJ_iff x y, beqListJ_iff xs ys]

theorem beqEntriesJ_iff : (xs ys : List (String × J)) → (beqEntriesJ xs ys = true ↔ xs = ys)
  | [], [] => by simp [beqEntriesJ]
  | [], _ :: _ => by simp [beqEntriesJ]
  | _ :: _, [] => by simp [beqEntriesJ]
  | (k, v) :: xs, (k2, w) :: ys => by
      have h1 := beqJ_iff v w
      have h2 := beqEntriesJ_iff xs ys
      constructor
      · intro h
        simp [beqEntriesJ] at h
        obtain ⟨⟨hk, hv⟩, hr⟩ := h
        simp [hk, h1.mp hv, h2.mp hr]
      · intro h
        injection h with hhead htail
        injection hhead with hk hv
        subst hk
        subst hv
        subst htail
        simp [beqEntriesJ, h1, h2]

end

instance : LawfulBEq J := by
  constructor
  · intro a b h
    exact (beqJ_iff a b).mp h
  · intro a
    exact (beqJ_iff a a).mpr rfl

instance : DecidableEq J := fun a b =>
  decidable_of_iff (beqJ a b = true) (beqJ_iff a b)

namespace J

/-- Python dict lookup `d.get(k)`: first binding of the key, if any. -/
def lookup (v : J) (k : String) : Option J :=
  match v with
  | .obj kvs => (kvs.find? (fun kv => kv.1 == k)).map (fun kv => kv.2)
  | _ => none

/-- Python `k in d` membership test for dictionaries. -/
def hasKey (v : J) (k : String) : Bool :=
  (v.lookup k).isSome

/-- Python dict lookup with default, `d.get(k, d0)`. -/
def getD (v : J) (k : String) (d0 : J) : J :=
  (v.lookup k).getD d0

/-- Replace the first binding of a key in an association list, or append a new
binding at the end: the update semantics of Python dict assignment, which keeps
insertion order for existing keys. -/
def setEntries (kvs : List (String × J)) (k : String) (x : J) : List (String × J) :=
  match kvs with
  | [] => [(k, x)]
  | (k0, v0) :: rest =>
      if k0 == k then (k0, x) :: rest else (k0, v0) :: setEntries rest k x

/-- Python dict assignment `d[k] = x` on an object (identity on non-objects,
which in the source would raise and never occurs on the modelled paths). -/
def set (v : J) (k : String) (x : J) : J :=
  match v with
  | .obj kvs => .obj (setEntries kvs k x)
  | v => v

/-- Python truthiness of a JSON value (`bool(v)`). -/
def truthy (v : J) : Bool :=
  match v with
  | .null => false
  | .bool b => b
  | .num n => n != 0
  | .str s => s != ""
  | .arr xs => !xs.isEmpty
  | .obj kvs => !kvs.isEmpty

/-- The string payload of a `str` value, if the value is a string. -/
def asString (v : J) : Option String :=
  match v with
  | .str s => some s
  | _ => none

/-- Whether the value is a Python dict. -/
def isObj (v : J) : Bool :=
  match v with
  | .obj _ => true
  | _ => false

/-- Whether the value is a Python str. -/
def isStr (v : J) : Bool :=
  match v with
  | .str _ => true
  | _ => false

/-- Python `str(v)` on the scalar values the modelled code applies it to. -/
def pyStr (v : J) : String :=
  match v with
  | .null => "None"
  | .bool b => if b then "True" else "False"
  | .num n => toString n
  | .str s => s
  | .arr _ => "<list>"
  | .obj _ => "<dict>"

end J

/-! ## String primitives

List-based implementations of the Python string operations the sources use
(`lower`, `strip`, `startswith`, `split`, substring containment, ordering).
The core library versions are defined by well-founded recursion and do not
reduce inside the kernel, so concrete witnesses could not be checked with
them. -/

/-- Python `s.lower()` (the keys and statuses involved are ASCII). -/
def sLower (s : String) : String :=
  ⟨s.data.map Char.toLower⟩

/-- Characters removed by Python `str.strip()`. -/
def isPySpace (c : Char) : Bool :=
  c = ' ' || c = '\t' || c = '\n' || c = '\r' || c = '\x0b' || c = '\x0c'

/-- Python `s.strip()`. -/
def sTrim (s : String) : String :=
  ⟨((s.data.dropWhile isPySpace).reverse.dropWhile isPySpace).reverse⟩

/-- Python `s.startswith(pre)`. -/
def sStartsWith (s pre : String) : Bool :=
  pre.data.isPrefixOf s.data

/-- Python `s.split(sep)` for a one-character separator. -/
def sSplitOnChar (sep : Char) (s : String) : List String :=
  let rec go (acc : List Char) : List Char → List String
    | [] => [⟨acc.reverse⟩]
    | c :: rest => if c = sep then (⟨acc.reverse⟩ : String) :: go [] rest else go (c :: acc) rest
  go [] s.data

/-- Explicit three-way comparison on naturals. -/
def cmpN (a b : Nat) : Ordering :=
  if a < b then Ordering.lt else if a = b then Ordering.eq else Ordering.gt

/-- Explicit three-way comparison on integers. -/
def cmpI (a b : Int) : Ordering :=
  if a < b then Ordering.lt else if a = b then Ordering.eq else Ordering.gt

/-- Lexicographic comparison of character lists by code point, Python string
comparison. -/
def charsCmp : List Char → List Char → Ordering
  | [], [] => Ordering.eq
  | [], _ :: _ => Ordering.lt
  | _ :: _, [] => Ordering.gt
  | a :: as_, b :: bs =>
      (cmpN a.toNat b.toNat).then (charsCmp as_ bs)

/-- String comparison by code points. -/
def sCmp (a b : String) : Ordering :=
  charsCmp a.data b.data

/-- Non-strict string order. -/
def sLe (a b : String) : Bool :=
  sCmp a b ≠ Ordering.gt

/-! ## Persistence (src/BrainDrive-MVP/braindrive_runtime/persistence.py) -/

/-- `SENSITIVE_KEYS` from persistence.py. -/
def SENSITIVE_KEYS : List String :=
  ["api_key", "authorization", "token", "secret"]

/-- Substring containment on character lists, the Python `needle in hay` test. -/
def charsContain (needle hay : List Char) : Bool :=
  match hay with
  | [] => needle.isEmpty
  | _ :: t => needle.isPrefixOf hay || charsContain needle t

/-- A key is sensitive when its lowercased name contains one of the
sensitive markers as a substring (`any(token in lowered ...)`). -/
def sensitiveKey (k : String) : Bool :=
  SENSITIVE_KEYS.any (fun t => charsContain t.data (sLower k).data)

mutual

/-- `_scrub_sensitive` from persistence.py: replace the value of every
sensitive mapping key by the literal string, recurse through dicts and lists,
leave all other values untouched. -/
def scrubSensitive : J → J
  | .obj kvs => .obj (scrubEntries kvs)
  | .arr xs => .arr (scrubList xs)
  | v => v

/-- Scrub every element of a list (`[_scrub_sensitive(item) for item in value]`). -/
def scrubList : List J → List J
  | [] => []
  | x :: xs => scrubSensitive x :: scrubList xs

/-- Scrub an association list of dict entries key by key. -/
def scrubEntries : List (String × J) → List (String × J)
  | [] => []
  | (k, v) :: rest =>
      (k, if sensitiveKey k then J.str "<redacted>" else scrubSensitive v) :: scrubEntries rest

end

mutual

/-- No raw secret anywhere: every sensitive mapping key, at any nesting depth
including inside lists, has exactly the redaction literal as its value. -/
def noRawSecret : J → Bool
  | .obj kvs => noRawSecretEntries kvs
  | .arr xs => noRawSecretList xs
  | _ => true

/-- List version of `noRawSecret`. -/
def noRawSecretList : List J → Bool
  | [] => true
  | x :: xs => noRawSecret x && noRawSecretList xs

/-- Entry version of `noRawSecret`. -/
def noRawSecretEntries : List (String × J) → Bool
  | [] => true
  | (k, v) :: rest =>
      (if sensitiveKey k then v == J.str "<redacted>" else noRawSecret v) && noRawSecretEntries rest

end

mutual

/-- Modelled from the spec sentence for the scrubber, for comparison with the
source function: the output keeps every key in place, redacts exactly the
sensitive ones, recurses through lists, and preserves every other
(non-mapping) value unchanged. -/
def specScrubRel : J → J → Bool
  | .obj kvs, .obj kvs2 => specScrubRelEntries kvs kvs2
  | .arr xs, .arr xs2 => specScrubRelList xs xs2
  | v, w => v == w

/-- List version of `specScrubRel`. -/
def specScrubRelList : List J → List J → Bool
  | [], [] => true
  | x :: xs, y :: ys => specScrubRel x y && specScrubRelList xs ys
  | _, _ => false

/-- Entry version of `specScrubRel`: keys preserved in order, sensitive values
replaced by the redaction literal, other values related recursively. -/
def specScrubRelEntries : List (String × J) → List (String × J) → Bool
  | [], [] => true
  | (k, v) :: rest, (k2, w) :: rest2 =>
      k == k2 &&
      (if sensitiveKey k then w == J.str "<redacted>" else specScrubRel v w) &&
      specScrubRelEntries rest rest2
  | _, _ => false

end

/-- Fixed placeholder for the wall-clock timestamps (`now_iso()`); the claims
never inspect timestamp values. -/
def NOW_ISO : String := "1970-01-01T00:00:00+00:00"

/-- State of the Persistence component: the append-only log lines per channel
and the JSON state snapshots, in write order. -/
structure PersistState where
  logs : List (String × J)
  states : List (String × J)
  deriving DecidableEq

/-- The empty data root. -/
def PersistState.empty : PersistState :=
  { logs := [], states := [] }

/-- The write operations Persistence offers. -/
inductive PersistOp where
  | appendLog (name : String) (item : J)
  | saveState (name : String) (value : J)
  | emitEvent (channel eventType : String) (payload : J)
  deriving DecidableEq

/-- `Persistence.append_log`: scrub, then append one JSON line. -/
def appendLog (st : PersistState) (name : String) (item : J) : PersistState :=
  { st with logs := st.logs ++ [(name, scrubSensitive item)] }

/-- `Persistence.save_state`: scrub, then atomically replace the snapshot. -/
def saveState (st : PersistState) (name : String) (value : J) : PersistState :=
  { st with states := J.setEntries st.states name (scrubSensitive value) }

/-- `Persistence.emit_event`: wrap the payload and append through `append_log`. -/
def emitEvent (st : PersistState) (channel eventType : String) (payload : J) : PersistState :=
  appendLog st channel
    (J.obj [("ts", J.str NOW_ISO), ("event_type", J.str eventType), ("payload", payload)])

/-- Apply one Persistence operation. -/
def applyPersistOp (st : PersistState) (op : PersistOp) : PersistState :=
  match op with
  | .appendLog name item => appendLog st name item
  | .saveState name value => saveState st name value
  | .emitEvent channel eventType payload => emitEvent st channel eventType payload

/-- Run a sequence of Persistence operations from a starting state. -/
def runPersistOps (st : PersistState) (ops : List PersistOp) : PersistState :=
  ops.foldl applyPersistOp st

mutual

theorem noRawSecret_scrub : (v : J) → noRawSecret (scrubSensitive v) = true
  | .null => rfl
  | .bool _ => rfl
  | .num _ => rfl
  | .str _ => rfl
  | .arr xs => by
      simp only [scrubSensitive, noRawSecret]
      exact noRawSecretList_scrub xs
  | .obj kvs => by
      simp only [scrubSensitive, noRawSecret]
      exact noRawSecretEntries_scrub kvs

theorem noRawSecretList_scrub : (xs : List J) → noRawSecretList (scrubList xs) = true
  | [] => rfl
  | x :: xs => by
      simp only [scrubList, noRawSecretList, Bool.and_eq_true]
      exact ⟨noRawSecret_scrub x, noRawSecretList_scrub xs⟩

theorem noRawSecretEntries_scrub :
    (kvs : List (String × J)) → noRawSecretEntries (scrubEntries kvs) = true
  | [] => rfl
  | (k, v) :: rest => by
      simp only [scrubEntries, noRawSecretEntries, Bool.and_eq_true]
      refine ⟨?_, noRawSecretEntries_scrub rest⟩
      by_cases hk : sensitiveKey k = true
      · simp [hk]
      · simp only [Bool.not_eq_true] at hk
        simp [hk, noRawSecret_scrub v]

end

mutual

theorem specScrubRel_scrub : (v : J) → specScrubRel v (scrubSensitive v) = true
  | .null => rfl
  | .bool _ => by simp [scrubSensitive, specScrubRel]
  | .num _ => by simp [scrubSensitive, specScrubRel]
  | .str _ => by simp [scrubSensitive, specScrubRel]
  | .arr xs => by
      simp only [scrubSensitive, specScrubRel]
      exact specScrubRelList_scrub xs
  | .obj kvs => by
      simp only [scrubSensitive, specScrubRel]
      exact specScrubRelEntries_scrub kvs

theorem specScrubRelList_scrub : (xs : List J) → specScrubRelList xs (scrubList xs) = true
  | [] => rfl
  | x :: xs => by
      simp only [scrubList, specScrubRelList, Bool.and_eq_true]
      exact ⟨specScrubRel_scrub x, specScrubRelList_scrub xs⟩

theorem specScrubRelEntries_scrub :
    (kvs : List (String × J)) → specScrubRelEntries kvs (scrubEntries kvs) = true
  | [] => rfl
  | (k, v) :: rest => by
      simp only [scrubEntries, specScrubRelEntries, Bool.and_eq_true]
      refine ⟨⟨by simp, ?_⟩, specScrubRelEntries_scrub rest⟩
      by_cases hk : sensitiveKey k = true
      · simp [hk]
      · simp only [Bool.not_eq_true] at hk
        simp [hk, specScrubRel_scrub v]

end

/-- Every binding in the output of `J.setEntries` is either an old binding or
the newly written one. -/
theorem mem_setEntries {kvs : List (String × J)} {k : String} {x : J} {p : String × J}
    (h : p ∈ J.setEntries kvs k x) : p ∈ kvs ∨ p = (k, x) := by
  induction kvs with
  | nil =>
      simp [J.setEntries] at h
      exact Or.inr h
  | cons hd tl ih =>
      by_cases hk : (hd.1 == k) = true
      · have hk2 : hd.1 = k := by simpa using hk
        simp only [J.setEntries, hk] at h
        rcases List.mem_cons.mp h with h1 | h1
        · exact Or.inr (hk2 ▸ h1)
        · exact Or.inl (List.mem_cons_of_mem _ h1)
      · simp only [J.setEntries, hk] at h
        rcases List.mem_cons.mp h with h1 | h1
        · exact Or.inl (h1 ▸ List.mem_cons_self _ _)
        · rcases ih h1 with h2 | h2
          · exact Or.inl (List.mem_cons_of_mem _ h2)
          · exact Or.inr h2

/-- Invariant: every persisted value in the state is free of raw secrets. -/
def PersistOk (st : PersistState) : Prop :=
  (∀ p ∈ st.logs, noRawSecret p.2 = true) ∧ (∀ p ∈ st.states, noRawSecret p.2 = true)

theorem persistOk_apply {st : PersistState} (h : PersistOk st) (op : PersistOp) :
    PersistOk (applyPersistOp st op) := by
  obtain ⟨hlogs, hstates⟩ := h
  cases op with
  | appendLog name item =>
      refine ⟨?_, hstates⟩
      intro p hp
      rcases List.mem_append.mp hp with h1 | h1
      · exact hlogs p h1
      · simp at h1
        subst h1
        exact noRawSecret_scrub item
  | saveState name value =>
      refine ⟨hlogs, ?_⟩
      intro p hp
      rcases mem_setEntries hp with h1 | h1
      · exact hstates p h1
      · subst h1
        exact noRawSecret_scrub value
  | emitEvent channel eventType payload =>
      refine ⟨?_, hstates⟩
      intro p hp
      rcases List.mem_append.mp hp with h1 | h1
      · exact hlogs p h1
      · simp at h1
        subst h1
        exact noRawSecret_scrub
          (J.obj [("ts", J.str NOW_ISO), ("event_type", J.str eventType), ("payload", payload)])

theorem persistOk_run {st : PersistState} (h : PersistOk st) (ops : List PersistOp) :
    PersistOk (runPersistOps st ops) := by
  induction ops generalizing st with
  | nil => exact h
  | cons op ops ih => exact ih (persistOk_apply h op)

/-! ## Protocol primitives (src/BrainDrive-MVP/braindrive_runtime/protocol.py)

The literal constants live in the repository's `constants.py`, which is not
under src/; their values are modelled from the spec's closed error-code set and
the identical literals in Proof-of-Concept-3's shared/bdp.py. -/

def PROTOCOL_VERSION : String := "0.1"

def E_BAD_MESSAGE : String := "E_BAD_MESSAGE"

def E_UNSUPPORTED_PROTOCOL : String := "E_UNSUPPORTED_PROTOCOL"

def E_NO_ROUTE : String := "E_NO_ROUTE"

def E_REQUIRED_EXTENSION_MISSING : String := "E_REQUIRED_EXTENSION_MISSING"

def E_CONFIRMATION_REQUIRED : String := "E_CONFIRMATION_REQUIRED"

def E_NODE_UNAVAILABLE : String := "E_NODE_UNAVAILABLE"

def E_NODE_TIMEOUT : String := "E_NODE_TIMEOUT"

def E_NODE_ERROR : String := "E_NODE_ERROR"

def E_NODE_NOT_REGISTERED : String := "E_NODE_NOT_REGISTERED"

def E_NODE_REG_INVALID : String := "E_NODE_REG_INVALID"

def E_NODE_UNTRUSTED : String := "E_NODE_UNTRUSTED"

def E_INTERNAL : String := "E_INTERNAL"

/-- Model providers, from the usage in config.py and metadata.py (the constant
module itself is not under src/). -/
def MODEL_PROVIDER_OPENROUTER : String := "openrouter"

/-- The ollama provider tag. -/
def MODEL_PROVIDER_OLLAMA : String := "ollama"

/-- The set of recognised model providers. -/
def MODEL_PROVIDERS : List String := [ MODEL_PROVIDER_OPENROUTER, MODEL_PROVIDER_OLLAMA ]

/-- Fixed placeholder for `new_uuid()`; the claims never depend on the
freshness of generated message ids. -/
def NEW_UUID : String := "00000000-0000-0000-0000-000000000000"

/-- Python `int(v)` on the values trace handling can meet: ints pass through,
bools map to 0/1, numeric strings parse (with optional sign and surrounding
whitespace), anything else raises. -/
def pyInt (v : J) : Option Int :=
  match v with
  | .num n => some n
  | .bool b => some (if b then 1 else 0)
  | .str s =>
      let t := (sTrim s).data
      let core : List Char :=
        match t with
        | c :: rest => if c = '-' || c = '+' then rest else t
        | [] => t
      if !core.isEmpty && core.all Char.isDigit then
        let mag : Int := Int.ofNat (core.foldl (fun acc c => acc * 10 + (c.toNat - 48)) 0)
        some (match t with
          | c :: _ => if c = '-' then -mag else mag
          | [] => mag)
      else none
  | _ => none

/-- `ensure_extensions`: add an empty extensions dict when the key is missing
or bound to None. -/
def ensureExtensions (m : J) : J :=
  match m.lookup "extensions" with
  | none => m.set "extensions" (J.obj [])
  | some .null => m.set "extensions" (J.obj [])
  | some _ => m

/-- Python `d.setdefault(k, d0)`: return the existing binding and the
unchanged dict, or insert the default and return it. -/
def setdefaultJ (o : J) (k : String) (d0 : J) : J × J :=
  match o.lookup k with
  | some v => (v, o)
  | none => (d0, o.set k d0)

/-- The falsy-coalescing `a or b` of Python applied to a J value. -/
def pyOr (a : J) (b : J) : J :=
  if a.truthy then a else b

/-- `ensure_trace(message, parent_message_id, hop)`: create-or-increment the
trace block and append the hop to the path when provided.  Returns an error
when the message carries a malformed trace (non-dict trace, non-integer depth,
non-list path), where the source would raise. -/
def ensureTrace (m : J) (parent : Option J) (hop : Option String) : Except String J :=
  let m1 := ensureExtensions m
  match m1.lookup "extensions" with
  | some (J.obj extKvs) =>
      let ext := J.obj extKvs
      let parentDefault := pyOr (parent.getD J.null) (m1.getD "message_id" J.null)
      let newTrace : J := J.obj
        [("parent_message_id", parentDefault), ("depth", J.num 0), ("path", J.arr [])]
      let td := setdefaultJ ext "trace" newTrace
      match td.1 with
      | J.obj traceKvs =>
          let t0 := J.obj traceKvs
          let t1 := (setdefaultJ t0 "parent_message_id" parentDefault).2
          let t2 := (setdefaultJ t1 "depth" (J.num 0)).2
          let t3 := (setdefaultJ t2 "path" (J.arr [])).2
          match pyInt (t3.getD "depth" J.null) with
          | none => Except.error "ValueError: invalid depth"
          | some d =>
              let t4 := t3.set "depth" (J.num (d + 1))
              match hop with
              | some h =>
                  if h ≠ "" then
                    match t4.lookup "path" with
                    | some (J.arr xs) =>
                        Except.ok (m1.set "extensions"
                          (td.2.set "trace" (t4.set "path" (J.arr (xs ++ [J.str h])))))
                    | _ => Except.error "AttributeError: path append"
                  else
                    Except.ok (m1.set "extensions" (td.2.set "trace" t4))
              | none => Except.ok (m1.set "extensions" (td.2.set "trace" t4))
      | _ => Except.error "AttributeError: trace not a dict"
  | _ => Except.error "AttributeError: extensions not a dict"

/-- `make_error`: the protocol error envelope, with the trace block
`ensure_trace` would add for a truthy parent id. -/
def makeError (code message : String) (parent : Option J) (retryable : Bool)
    (details : Option J) : J :=
  let payload : J := J.obj [("error", J.obj
    [("code", J.str code), ("message", J.str message), ("retryable", J.bool retryable),
     ("details", details.getD (J.obj []))])]
  let parentVal := parent.getD J.null
  let extensions : J :=
    if parentVal.truthy then
      J.obj [("trace", J.obj
        [("parent_message_id", parentVal), ("depth", J.num 1), ("path", J.arr [])])]
    else
      J.obj []
  J.obj [("protocol_version", J.str PROTOCOL_VERSION), ("message_id", J.str NEW_UUID),
         ("intent", J.str "error"), ("payload", payload), ("extensions", extensions)]

/-- `make_response`: a fresh response message; the optional extensions are
attached before the trace pass, exactly as in the source. -/
def makeResponse (intent : String) (payload : J) (parent : Option J)
    (extensions : Option J) : Except String J :=
  let base : J := J.obj [("protocol_version", J.str PROTOCOL_VERSION),
    ("message_id", J.str NEW_UUID), ("intent", J.str intent), ("payload", payload)]
  let base2 :=
    match extensions with
    | some ext => if ext.truthy then base.set "extensions" ext else base
    | none => base
  match parent with
  | some p => if p.truthy then ensureTrace base2 (some p) none else Except.ok base2
  | none => Except.ok base2

/-- `validate_core`: either None (valid) or the protocol error envelope. -/
def validateCore (m : J) : Option J :=
  if !m.isObj then
    some (makeError E_BAD_MESSAGE "Message must be an object" none false none)
  else
    let msgId := m.lookup "message_id"
    if !m.hasKey "protocol_version" then
      some (makeError E_BAD_MESSAGE "Missing required field: protocol_version" msgId false none)
    else if !m.hasKey "message_id" then
      some (makeError E_BAD_MESSAGE "Missing required field: message_id" msgId false none)
    else if !m.hasKey "intent" then
      some (makeError E_BAD_MESSAGE "Missing required field: intent" msgId false none)
    else if !m.hasKey "payload" then
      some (makeError E_BAD_MESSAGE "Missing required field: payload" msgId false none)
    else if !(m.getD "protocol_version" J.null).isStr then
      some (makeError E_BAD_MESSAGE "protocol_version must be string" msgId false none)
    else if !(m.getD "message_id" J.null).isStr then
      some (makeError E_BAD_MESSAGE "message_id must be string" msgId false none)
    else if !(m.getD "intent" J.null).isStr then
      some (makeError E_BAD_MESSAGE "intent must be string" msgId false none)
    else if !(m.getD "payload" J.null).isObj then
      some (makeError E_BAD_MESSAGE "payload must be object" msgId false none)
    else if m.hasKey "extensions" && m.getD "extensions" J.null != J.null
        && !(m.getD "extensions" J.null).isObj then
      some (makeError E_BAD_MESSAGE "extensions must be object if present" msgId false none)
    else
      none

/-- `looks_like_bdp`. -/
def looksLikeBdp (m : J) : Bool :=
  (validateCore m).isNone

/-! ## Metadata (src/BrainDrive-MVP/braindrive_runtime/metadata.py) -/

/-- `parse_version`: split on dots, parse up to three numeric components with
0 for unparsable tokens, pad with zeros. -/
def parseVersion (version : String) : Int × Int × Int :=
  let parts := (sSplitOnChar '.' version).take 3
  let values := parts.map (fun t => (pyInt (J.str t)).getD 0)
  (values.getD 0 0, values.getD 1 0, values.getD 2 0)

/-- `CapabilityMetadata`. -/
structure CapabilityMetadata where
  name : String
  description : String
  input_schema : J
  risk_class : String
  required_extensions : List String
  approval_required : Bool
  examples : List String
  idempotency : String
  side_effect_scope : String
  capability_version : String
  provider : Option String
  deriving DecidableEq

/-- `NodeDescriptor`. -/
structure NodeDescriptor where
  node_id : String
  node_version : String
  endpoint_url : String
  supported_protocol_versions : List String
  capabilities : List CapabilityMetadata
  requires : List String
  priority : Int
  auth : List (String × J)
  deriving DecidableEq

/-! ## Library fingerprint model

`RouterCore._fingerprint_library` walks the library root and produces the
sorted list of `(relpath, size, mtime_ns)` triples, or None when no library
root exists.  The filesystem is abstracted by exactly the data this function
reads: the embedding carries the current fingerprint of the library root
(`none` when the root is absent), and node handlers transform it. -/

/-- A filesystem fingerprint: sorted `(relpath, size, mtime_ns)` triples. -/
abbrev Fp : Type := List (String × Int × Int)

/-- The library state seen by the router: the fingerprint its root currently
denotes, `none` when the root does not exist. -/
abbrev Lib : Type := Option Fp

/-- `RouterCore._fingerprint_library`. -/
def fingerprintLibrary (lib : Lib) : Option Fp := lib

/-- A node handler: a `Message → Message` function that may also act on the
library root and may raise (the `Except.error` case). -/
abbrev Handler : Type := J → Lib → Except String J × Lib

/-- `NodeRecord` from registry.py (the float epoch is embedded as an integer;
only comparisons against `now` matter). -/
structure NodeRecord where
  descriptor : NodeDescriptor
  handler : Option Handler
  lease_token : String
  expires_at_epoch : Int
  registered_at : String
  last_heartbeat_at : String

/-! ## Registry (src/BrainDrive-MVP/braindrive_runtime/registry.py) -/

/-- The registry's record table, keyed by `node_id` in insertion order. -/
abbrev RegistryRecords : Type := List NodeRecord

/-- Find a record by node id (`self.records.get(node_id)`). -/
def findRecord (records : RegistryRecords) (node_id : String) : Option NodeRecord :=
  records.find? (fun r => r.descriptor.node_id == node_id)

/-- `NodeRegistry.heartbeat`: exact lease match refreshes the expiry; a missing
record or a wrong token produce the corresponding error dicts.  `heartbeat`
does not prune. -/
def heartbeat (records : RegistryRecords) (now ttl : Int) (node_id lease_token : String) :
    J × RegistryRecords :=
  match findRecord records node_id with
  | none =>
      (J.obj [("ok", J.bool false), ("error", J.str "node not registered"),
              ("code", J.str E_NODE_NOT_REGISTERED)], records)
  | some record =>
      if record.lease_token ≠ lease_token then
        (J.obj [("ok", J.bool false), ("error", J.str "invalid lease token"),
                ("code", J.str E_NODE_UNTRUSTED)], records)
      else
        let updated := records.map (fun r =>
          if r.descriptor.node_id == node_id then
            { r with last_heartbeat_at := NOW_ISO, expires_at_epoch := now + ttl }
          else r)
        (J.obj [("ok", J.bool true), ("node_id", J.str node_id)], updated)

/-- `NodeRegistry.prune_stale`: drop every record whose lease has expired
(`expires_at_epoch ≤ now`). -/
def pruneStale (records : RegistryRecords) (now : Int) : RegistryRecords :=
  records.filter (fun r => !(r.expires_at_epoch ≤ now))

/-- `NodeRegistry.active_records`: prune, then hand out the records. -/
def activeRecords (records : RegistryRecords) (now : Int) : RegistryRecords :=
  pruneStale records now

/-- The sort key `(-priority, -major, -minor, -patch, node_id)` shared by
`RouterCore._node_sort_key` and `NodeRegistry.capability_metadata`. -/
def nodeSortKey (priority : Int) (version : String) (node_id : String) :
    Int × Int × Int × Int × String :=
  let v := parseVersion version
  (-priority, -v.1, -v.2.1, -v.2.2, node_id)

/-- Lexicographic comparison of sort keys, Python tuple comparison. -/
def sortKeyCmp (a b : Int × Int × Int × Int × String) : Ordering :=
  (cmpI a.1 b.1).then ((cmpI a.2.1 b.2.1).then ((cmpI a.2.2.1 b.2.2.1).then
    ((cmpI a.2.2.2.1 b.2.2.2.1).then (sCmp a.2.2.2.2 b.2.2.2.2))))

/-- Non-strict key order used by the stable sorts. -/
def sortKeyLe (a b : Int × Int × Int × Int × String) : Bool :=
  sortKeyCmp a b ≠ Ordering.gt

/-- Stable insertion of an element into a sorted list: the element goes before
the first entry it is `le`-below-or-tied-with, so that ties keep the earlier
element first, as in Python's stable sort. -/
def insertSorted (le : α → α → Bool) (x : α) : List α → List α
  | [] => [x]
  | y :: ys => if le x y then x :: y :: ys else y :: insertSorted le x ys

/-- Stable sort modelling Python's `sorted` / `list.sort`. -/
def sortStable (le : α → α → Bool) : List α → List α
  | [] => []
  | x :: xs => insertSorted le x (sortStable le xs)

/-- `NodeRegistry.capability_metadata`: prune, gather each record's capability
named `intent` with the record's sort data, sort by
`(-priority, -version, node_id)`, return the winner's metadata. -/
def capabilityMetadata (records : RegistryRecords) (now : Int) (intent : String) :
    Option CapabilityMetadata :=
  let pruned := pruneStale records now
  let candidates := pruned.flatMap (fun rec =>
    (rec.descriptor.capabilities.filter (fun cap => cap.name == intent)).map
      (fun cap => (nodeSortKey rec.descriptor.priority rec.descriptor.node_version
        rec.descriptor.node_id, cap)))
  match sortStable (fun a b => sortKeyLe a.1 b.1) candidates with
  | [] => none
  | c :: _ => some c.2

/-! ## Config resolver (src/BrainDrive-MVP/braindrive_runtime/config.py) -/

/-- `ProviderDefaults`. -/
structure ProviderDefaults where
  base_url : String
  default_model : String
  deriving DecidableEq

/-- `LLMSelection`. -/
structure LLMSelection where
  provider : String
  model : String
  provider_source : String
  model_source : String
  deriving DecidableEq

/-- `ConfigResolver` state: the environment mapping and the parsed user
config file. -/
structure ConfigResolver where
  env : List (String × String)
  user_config : J

/-- `self.env.get(name, default)`. -/
def envGet (env : List (String × String)) (name default : String) : String :=
  match env.find? (fun kv => kv.1 == name) with
  | some kv => kv.2
  | none => default

/-- The `llm` section of the user config when it is a mapping, else empty. -/
def llmCfg (c : ConfigResolver) : J :=
  match c.user_config.lookup "llm" with
  | some (J.obj kvs) => J.obj kvs
  | _ => J.obj []

/-- `ConfigResolver.default_provider`. -/
def defaultProvider (c : ConfigResolver) : String × String :=
  let cfg_provider := (llmCfg c).lookup "default_provider"
  match cfg_provider with
  | some (J.str s) =>
      if s ∈ MODEL_PROVIDERS then (s, "user config")
      else
        let env_provider := sLower (sTrim (envGet c.env "BRAINDRIVE_DEFAULT_PROVIDER" "openrouter"))
        if env_provider ∈ MODEL_PROVIDERS then (env_provider, ".env")
        else (MODEL_PROVIDER_OPENROUTER, "fallback")
  | _ =>
      let env_provider := sLower (sTrim (envGet c.env "BRAINDRIVE_DEFAULT_PROVIDER" "openrouter"))
      if env_provider ∈ MODEL_PROVIDERS then (env_provider, ".env")
      else (MODEL_PROVIDER_OPENROUTER, "fallback")

/-- The user config section for one provider when it is a mapping. -/
def providerCfg (c : ConfigResolver) (provider : String) : J :=
  match (llmCfg c).lookup provider with
  | some (J.obj kvs) => J.obj kvs
  | _ => J.obj []

/-- `ConfigResolver.provider_defaults`. -/
def providerDefaults (c : ConfigResolver) (provider : String) : ProviderDefaults :=
  let cfg := providerCfg c provider
  if provider == MODEL_PROVIDER_OPENROUTER then
    { base_url := J.pyStr (pyOr (cfg.getD "base_url" J.null)
        (J.str (envGet c.env "BRAINDRIVE_OPENROUTER_BASE_URL" "https://openrouter.ai/api/v1"))),
      default_model := sTrim (J.pyStr (pyOr (cfg.getD "default_model" J.null)
        (J.str (envGet c.env "BRAINDRIVE_OPENROUTER_DEFAULT_MODEL" "")))) }
  else
    { base_url := sTrim (J.pyStr (pyOr (cfg.getD "base_url" J.null)
        (J.str (envGet c.env "BRAINDRIVE_OLLAMA_BASE_URL" "")))),
      default_model := sTrim (J.pyStr (pyOr (cfg.getD "default_model" J.null)
        (J.str (envGet c.env "BRAINDRIVE_OLLAMA_DEFAULT_MODEL" "")))) }

/-- `ConfigResolver.select_llm`. -/
def selectLlm (c : ConfigResolver) (llm_extension : Option J) : LLMSelection :=
  let ext : J :=
    match llm_extension with
    | some (J.obj kvs) => J.obj kvs
    | _ => J.obj []
  let providerPair : String × String :=
    match ext.lookup "provider" with
    | some (J.str p) =>
        if p ∈ MODEL_PROVIDERS then (p, "request override") else defaultProvider c
    | _ => defaultProvider c
  let provider := providerPair.1
  let provider_cfg := providerDefaults c provider
  let modelPair : String × String :=
    match ext.lookup "model" with
    | some (J.str m) =>
        if sTrim m ≠ "" then (sTrim m, "request override")
        else
          match (providerCfg c provider).lookup "default_model" with
          | some (J.str dm) =>
              if sTrim dm ≠ "" then (sTrim dm, "user config")
              else (provider_cfg.default_model, ".env")
          | _ => (provider_cfg.default_model, ".env")
    | _ =>
        match (providerCfg c provider).lookup "default_model" with
        | some (J.str dm) =>
            if sTrim dm ≠ "" then (sTrim dm, "user config")
            else (provider_cfg.default_model, ".env")
        | _ => (provider_cfg.default_model, ".env")
  { provider := provider, model := modelPair.1,
    provider_source := providerPair.2, model_source := modelPair.2 }

/-- `ConfigResolver.validate_provider_requirements`. -/
def validateProviderRequirements (c : ConfigResolver) (selection : LLMSelection) :
    Option String :=
  if selection.provider == MODEL_PROVIDER_OPENROUTER then
    if sTrim (envGet c.env "BRAINDRIVE_OPENROUTER_API_KEY" "") = "" then
      some "BRAINDRIVE_OPENROUTER_API_KEY is required for provider openrouter"
    else if selection.model = "" then
      some "Default model is required for provider openrouter"
    else none
  else
    if (providerDefaults c MODEL_PROVIDER_OLLAMA).base_url = "" then
      some "BRAINDRIVE_OLLAMA_BASE_URL is required for provider ollama"
    else if selection.model = "" then
      some "Default model is required for provider ollama"
    else none

/-! ## Router core (src/BrainDrive-MVP/braindrive_runtime/router.py)

`route` is embedded as a pure function over the registry records, the config
resolver, the current time and the library state.  Alongside the response it
returns an instrumentation record (`RouteLog`) collecting every observable
effect the source performs: emitted router events, health updates, handler
invocations with the library state around them, the attempted/retryable
bookkeeping and which node served the returned response.  An uncaught Python
exception (a malformed trace block met outside the try body) is the
`Except.error` case. -/

/-- One handler (or remote) invocation performed by the route loop, with the
before-fingerprint the router took for a read/none capability (when any). -/
structure Invocation where
  node_id : String
  outbound : J
  beforeFp : Option Fp
  libPre : Lib
  libPost : Lib
  deriving DecidableEq

/-- Observable effects of one `route` call. -/
structure RouteLog where
  events : List (String × J)
  healthUpdates : List (String × Bool)
  invocations : List Invocation
  attempted : List J
  retryables : List J
  served : Option String
  lib : Lib
  deriving DecidableEq

/-- The empty effect log over a starting library state. -/
def RouteLog.start (lib : Lib) : RouteLog :=
  { events := [], healthUpdates := [], invocations := [], attempted := [],
    retryables := [], served := none, lib := lib }

/-- `RouterCore._eligible_nodes`: active records supporting the protocol and
claiming a capability named `intent`. -/
def eligibleNodes (records : RegistryRecords) (now : Int) (intent pv : String) :
    List NodeRecord :=
  (activeRecords records now).filter (fun rec =>
    rec.descriptor.supported_protocol_versions.contains pv &&
    rec.descriptor.capabilities.any (fun cap => cap.name == intent))

/-- `RouterCore._required_extensions_for`. -/
def requiredExtensionsFor (rec : NodeRecord) (intent : String) : List String :=
  match rec.descriptor.capabilities.find? (fun cap => cap.name == intent) with
  | some cap => cap.required_extensions
  | none => []

/-- `RouterCore._metadata_for`. -/
def metadataFor (rec : NodeRecord) (intent : String) : Option CapabilityMetadata :=
  rec.descriptor.capabilities.find? (fun cap => cap.name == intent)

/-- The `extensions` mapping of a message (`message.get("extensions", {}) or {}`). -/
def messageExtensions (message : J) : J :=
  pyOr (message.getD "extensions" (J.obj [])) (J.obj [])

/-- The lowercased stringified `extensions.confirmation.status` of a message,
as `RouterCore._check_confirmation` extracts it. -/
def confirmationStatusLower (message : J) : String :=
  let extensions := messageExtensions message
  let confirmation : J :=
    match extensions.lookup "confirmation" with
    | some (J.obj kvs) => J.obj kvs
    | _ => J.obj []
  sLower (J.pyStr (confirmation.getD "status" (J.str "")))

/-- `RouterCore._check_confirmation`: for a guarded capability, anything whose
lowercased stringified status is not "approved" produces the confirmation
error. -/
def checkConfirmation (message : J) (approval_required : Bool) : Option J :=
  if !approval_required then none
  else
    if confirmationStatusLower message ≠ "approved" then
      some (makeError E_CONFIRMATION_REQUIRED "Approval required before applying changes."
        (message.lookup "message_id") false none)
    else none

/-- `RouterCore._filter_for_provider`: for `model.*` intents resolve the
provider/model selection, validate it, and keep only nodes whose capability
provider tag equals the resolved provider. -/
def filterForProvider (c : ConfigResolver) (nodes : List NodeRecord) (intent : String)
    (message : J) : List NodeRecord × Option J × Option LLMSelection :=
  if !sStartsWith intent "model." then (nodes, none, none)
  else
    let extensions := messageExtensions message
    let msgId := message.lookup "message_id"
    let selection := selectLlm c (extensions.lookup "llm")
    if selection.provider ∉ MODEL_PROVIDERS then
      ([], some (makeError E_BAD_MESSAGE "Invalid model provider" msgId false none), none)
    else if selection.model = "" then
      ([], some (makeError E_BAD_MESSAGE "Model is required for model intent" msgId false none),
        none)
    else
      match validateProviderRequirements c selection with
      | some requirement_error =>
          ([], some (makeError E_NODE_UNAVAILABLE requirement_error msgId false none), none)
      | none =>
          let filtered := nodes.filter (fun rec =>
            match metadataFor rec intent with
            | some cap => cap.provider == some selection.provider
            | none => false)
          if filtered.isEmpty then
            ([], some (makeError E_NODE_UNAVAILABLE
              "Model provider unavailable. Check provider status and config." msgId false
              (some (J.obj [("provider", J.str selection.provider),
                            ("intent", J.str intent)]))), none)
          else
            (filtered, none, some selection)

/-- Candidate order for the route loop (`sorted(eligible, key=_node_sort_key)`). -/
def sortNodes (recs : List NodeRecord) : List NodeRecord :=
  sortStable (fun a b =>
    sortKeyLe
      (nodeSortKey a.descriptor.priority a.descriptor.node_version a.descriptor.node_id)
      (nodeSortKey b.descriptor.priority b.descriptor.node_version b.descriptor.node_id)) recs

/-- Stamp the provider disclosure onto the outbound message's `extensions.llm`
block (the source's setdefault-and-assign chain); errors when the existing
`llm` value is not a dict, where the source would raise. -/
def stampLlm (outbound : J) (sel : LLMSelection) : Except String J :=
  let outExtPair := setdefaultJ outbound "extensions" (J.obj [])
  match outExtPair.1 with
  | J.obj extKvs =>
      let ext := J.obj extKvs
      let llmPair := setdefaultJ ext "llm" (J.obj [])
      match llmPair.1 with
      | J.obj llmKvs =>
          let llm := (((J.obj llmKvs).set "provider" (J.str sel.provider)).set
            "model" (J.str sel.model)).set "provider_source" (J.str sel.provider_source)
            |>.set "model_source" (J.str sel.model_source)
          Except.ok (outExtPair.2.set "extensions" (llmPair.2.set "llm" llm))
      | _ => Except.error "TypeError: llm extension is not a dict"
  | _ => Except.error "TypeError: extensions is not a dict"

/-- The error payload block of an error response
(`response.get("payload", {}).get("error", {})`), or an exception marker when
the `error` value is not a dict (`err.get` would raise inside the try body). -/
def errorBlock (response : J) : Except String J :=
  match (response.getD "payload" (J.obj [])).lookup "error" with
  | some (J.obj kvs) => Except.ok (J.obj kvs)
  | some _ => Except.error "AttributeError: error block is not a dict"
  | none => Except.ok (J.obj [])

/-- Outcome classification of one node call, computed from the response, the
before-fingerprint and the library state after the call: either a reason to
continue with the next candidate (with the bookkeeping the source appends) or
the returned response.  This is the body of the source's try block after the
invocation. -/
inductive CallOutcome where
  | skip (healthDown : Bool) (attemptedEntry : J) (retryableEntry : Option J)
  | serve (response : J)

/-- Classify the node call exactly as the loop body does: exceptions, invalid
responses, fingerprint divergence, retryable upstream errors, and the two
return paths. -/
def classifyCall (nid : String) (beforeFp : Option Fp) (callResult : Except String J)
    (libAfter : Lib) : CallOutcome :=
  match callResult with
  | Except.error exc =>
      .skip true (J.obj [("node_id", J.str nid), ("result", J.str "exception"),
        ("error", J.str exc)]) none
  | Except.ok response =>
      if !looksLikeBdp response then
        .skip true (J.obj [("node_id", J.str nid), ("result", J.str "invalid_response")]) none
      else
        let diverged :=
          match beforeFp with
          | some bfp =>
              let afterFp := fingerprintLibrary libAfter
              afterFp ≠ none && afterFp ≠ some bfp
          | none => false
        if diverged then
          .skip true
            (J.obj [("node_id", J.str nid), ("result", J.str "undeclared_side_effect")]) none
        else if response.getD "intent" J.null == J.str "error" then
          match errorBlock response with
          | Except.error exc =>
              .skip true (J.obj [("node_id", J.str nid), ("result", J.str "exception"),
                ("error", J.str exc)]) none
          | Except.ok err =>
              if (err.getD "retryable" (J.bool false)).truthy then
                .skip true
                  (J.obj [("node_id", J.str nid), ("result", J.str "retryable_error"),
                    ("code", err.getD "code" J.null)])
                  (some (J.obj [("code", err.getD "code" J.null),
                    ("message", err.getD "message" J.null),
                    ("details", err.getD "details" (J.obj []))]))
              else .serve response
        else .serve response

/-- One pass of the route candidate loop (`for rec in eligible`), threading the
effect log; produces the returned response when a candidate serves it. -/
def tryCandidates (httpPost : String → J → Lib → Except String J × Lib) (message : J)
    (msgId : Option J) (intent : String) (disclosure : Option LLMSelection) :
    List NodeRecord → RouteLog → Except String (Option J × RouteLog)
  | [], log => Except.ok (none, log)
  | rec :: rest, log =>
      let nid := rec.descriptor.node_id
      match ensureTrace message msgId (some "router.core") with
      | Except.error e => Except.error e
      | Except.ok traced =>
          let stamped : Except String J :=
            match disclosure with
            | none => Except.ok traced
            | some sel => stampLlm traced sel
          match stamped with
          | Except.error e => Except.error e
          | Except.ok outbound =>
              let log1 := { log with events := log.events ++
                [("router.route_dispatched",
                  J.obj [("selected_node_id", J.str nid), ("intent", J.str intent)])] }
              let capMeta := metadataFor rec intent
              let beforeFp : Option Fp :=
                match capMeta with
                | some cap =>
                    if cap.risk_class = "read" && cap.side_effect_scope = "none" then
                      fingerprintLibrary log1.lib
                    else none
                | none => none
              match rec.handler with
              | none =>
                  if !sStartsWith rec.descriptor.endpoint_url "http" then
                    tryCandidates httpPost message msgId intent disclosure rest
                      { log1 with attempted := log1.attempted ++
                        [J.obj [("node_id", J.str nid), ("result", J.str "handler_missing")]] }
                  else
                    let call := httpPost rec.descriptor.endpoint_url outbound log1.lib
                    let log2 := { log1 with
                      invocations := log1.invocations ++
                        [({ node_id := nid, outbound := outbound, beforeFp := beforeFp,
                            libPre := log1.lib, libPost := call.2 } : Invocation)],
                      lib := call.2 }
                    match classifyCall nid beforeFp call.1 call.2 with
                    | .skip down entry retry =>
                        tryCandidates httpPost message msgId intent disclosure rest
                          { log2 with
                            healthUpdates := log2.healthUpdates ++
                              (if down then [(nid, false)] else []),
                            attempted := log2.attempted ++ [entry],
                            retryables := log2.retryables ++ retry.toList }
                    | .serve response =>
                        Except.ok (some response,
                          { log2 with
                            healthUpdates := log2.healthUpdates ++ [(nid, true)],
                            served := some nid })
              | some h =>
                  let call := h outbound log1.lib
                  let log2 := { log1 with
                    invocations := log1.invocations ++
                      [({ node_id := nid, outbound := outbound, beforeFp := beforeFp,
                          libPre := log1.lib, libPost := call.2 } : Invocation)],
                    lib := call.2 }
                  match classifyCall nid beforeFp call.1 call.2 with
                  | .skip down entry retry =>
                      tryCandidates httpPost message msgId intent disclosure rest
                        { log2 with
                          healthUpdates := log2.healthUpdates ++
                            (if down then [(nid, false)] else []),
                          attempted := log2.attempted ++ [entry],
                          retryables := log2.retryables ++ retry.toList }
                  | .serve response =>
                      Except.ok (some response,
                        { log2 with
                          healthUpdates := log2.healthUpdates ++ [(nid, true)],
                          served := some nid })

/-- Sorted deduplication of the missing-extension union (`sorted(set(...))`). -/
def sortedDedup (xs : List String) : List String :=
  sortStable sLe xs.eraseDups

/-- The main body of `RouterCore.route` after core validation, with the
protocol version and intent already extracted as strings. -/
def routeValidated (cfg : ConfigResolver)
    (httpPost : String → J → Lib → Except String J × Lib)
    (records : RegistryRecords) (now : Int) (lib : Lib) (message : J)
    (pv intent : String) : Except String (J × RouteLog) :=
  let log0 := RouteLog.start lib
  let msgId := message.lookup "message_id"
  let extensions := messageExtensions message
  if pv ≠ PROTOCOL_VERSION then
    Except.ok (makeError E_UNSUPPORTED_PROTOCOL
      ("Protocol version unsupported in this build: " ++ pv) msgId false none, log0)
  else
    let candidates := eligibleNodes records now intent pv
    if candidates.isEmpty then
      Except.ok (makeError E_NO_ROUTE ("No matching capability for intent: " ++ intent)
        msgId false none, log0)
    else
      let missingOf := fun (rec : NodeRecord) =>
        (requiredExtensionsFor rec intent).filter (fun req => !extensions.hasKey req)
      let eligible := candidates.filter (fun rec => (missingOf rec).isEmpty)
      if eligible.isEmpty then
        let missingUnion := sortedDedup (candidates.flatMap missingOf)
        Except.ok (makeError E_REQUIRED_EXTENSION_MISSING
          "Required protocol extension is missing for this request." msgId false
          (some (J.obj [("missing", J.arr (missingUnion.map J.str))])), log0)
      else
        let protectedMeta := capabilityMetadata records now intent
        let approvalRequired :=
          match protectedMeta with
          | some meta => meta.approval_required
          | none => false
        match checkConfirmation message approvalRequired with
        | some approvalError => Except.ok (approvalError, log0)
        | none =>
            match filterForProvider cfg eligible intent message with
            | (_, some providerError, _) => Except.ok (providerError, log0)
            | (filtered, none, disclosure) =>
                let ordered := sortNodes filtered
                match tryCandidates httpPost message msgId intent disclosure ordered log0 with
                | Except.error e => Except.error e
                | Except.ok (some response, log) => Except.ok (response, log)
                | Except.ok (none, log) =>
                    match log.retryables with
                    | first :: _ =>
                        Except.ok (makeError
                          (J.pyStr (first.getD "code" (J.str E_NODE_UNAVAILABLE)))
                          (J.pyStr (first.getD "message"
                            (J.str "Request failed. You can retry.")))
                          msgId true
                          (some (J.obj [("attempted", J.arr log.attempted),
                            ("upstream", first.getD "details" (J.obj []))])), log)
                    | [] =>
                        if !log.attempted.isEmpty then
                          if log.attempted.any (fun a =>
                              a.getD "result" J.null == J.str "undeclared_side_effect") then
                            Except.ok (makeError E_NODE_ERROR
                              "Execution failed due to undeclared side effects in read-only capability."
                              msgId false
                              (some (J.obj [("attempted", J.arr log.attempted)])), log)
                          else
                            Except.ok (makeError E_NODE_UNAVAILABLE
                              "No eligible nodes could successfully process the request"
                              msgId true
                              (some (J.obj [("attempted", J.arr log.attempted)])), log)
                        else
                          Except.ok (makeError E_INTERNAL
                            "Unexpected internal error. Please retry." msgId true none, log0)

/-- `RouterCore.route`: validate, then run the pipeline.  The fallback branch
for a message whose validated fields fail to extract is unreachable (see
`validateCore_fields`). -/
def route (cfg : ConfigResolver) (httpPost : String → J → Lib → Except String J × Lib)
    (records : RegistryRecords) (now : Int) (lib : Lib) (message : J) :
    Except String (J × RouteLog) :=
  match validateCore message with
  | some validationError => Except.ok (validationError, RouteLog.start lib)
  | none =>
      match message.lookup "protocol_version", message.lookup "intent" with
      | some (J.str pv), some (J.str intent) =>
          routeValidated cfg httpPost records now lib message pv intent
      | _, _ => Except.error "unreachable: validate_core guarantees string fields"

/-! ## Approval gate node
(src/BrainDrive-MVP/braindrive_runtime/nodes/approval_gate.py) -/

/-- `ApprovalGateNode._get_request`. -/
def getApprovalRequest (state : J) (request_id : String) : Option J :=
  match state.getD "requests" (J.obj []) with
  | J.obj kvs =>
      match (J.obj kvs).lookup request_id with
      | some (J.obj item) => some (J.obj item)
      | _ => none
  | _ => none

/-- `ApprovalGateNode.handle`, returning the response and the new node state
(the `approvals` dict persisted by `_save`). -/
def approvalHandle (state : J) (message : J) : Except String (J × J) :=
  let intent := message.lookup "intent"
  let payload := message.getD "payload" (J.obj [])
  let msgId := message.lookup "message_id"
  if intent == some (J.str "approval.request") then
    if !payload.isObj then
      Except.ok (makeError E_BAD_MESSAGE "payload must be object" msgId false none, state)
    else
      let guarded := sTrim (J.pyStr (payload.getD "intent_being_guarded" (J.str "")))
      let changes := payload.getD "changes" (J.arr [])
      if guarded = "" then
        Except.ok (makeError E_BAD_MESSAGE "intent_being_guarded is required" msgId false none,
          state)
      else
        match changes with
        | J.arr changeItems =>
            if changeItems.isEmpty then
              Except.ok (makeError E_BAD_MESSAGE "changes must be non-empty list" msgId false
                none, state)
            else
              let request_id :=
                let rid := sTrim (J.pyStr (payload.getD "request_id" (J.str "")))
                if rid ≠ "" then rid else "appr-" ++ NEW_UUID
              let record := J.obj
                [("request_id", J.str request_id), ("intent_being_guarded", J.str guarded),
                 ("changes", J.arr changeItems), ("status", J.str "pending"),
                 ("requested_at", J.str NOW_ISO), ("resolved_at", J.null),
                 ("decision", J.null), ("decision_note", J.str "")]
              let requests := match state.getD "requests" (J.obj []) with
                | J.obj kvs => J.obj kvs
                | _ => J.obj []
              let newState := state.set "requests" (requests.set request_id record)
              match makeResponse "approval.requested" record msgId none with
              | Except.ok resp => Except.ok (resp, newState)
              | Except.error e => Except.error e
        | _ =>
            Except.ok (makeError E_BAD_MESSAGE "changes must be non-empty list" msgId false
              none, state)
  else if intent == some (J.str "approval.resolve") then
    if !payload.isObj then
      Except.ok (makeError E_BAD_MESSAGE "payload must be object" msgId false none, state)
    else
      let request_id := sTrim (J.pyStr (payload.getD "request_id" (J.str "")))
      let decision := sLower (sTrim (J.pyStr (payload.getD "decision" (J.str ""))))
      if request_id = "" then
        Except.ok (makeError E_BAD_MESSAGE "request_id is required" msgId false none, state)
      else if decision ≠ "approved" ∧ decision ≠ "denied" then
        Except.ok (makeError E_BAD_MESSAGE "decision must be approved|denied" msgId false none,
          state)
      else
        match getApprovalRequest state request_id with
        | none =>
            Except.ok (makeError E_NO_ROUTE ("approval request not found: " ++ request_id)
              msgId false none, state)
        | some record =>
            if !record.truthy then
              Except.ok (makeError E_NO_ROUTE ("approval request not found: " ++ request_id)
                msgId false none, state)
            else
              let updated := ((((record.set "status" (J.str decision)).set
                "decision" (J.str decision)).set "resolved_at" (J.str NOW_ISO)).set
                "decision_note" (J.str (J.pyStr (payload.getD "decision_note" (J.str ""))))).set
                "decided_by" (J.str (J.pyStr (payload.getD "decided_by" (J.str "owner"))))
              let requests := match state.getD "requests" (J.obj []) with
                | J.obj kvs => J.obj kvs
                | _ => J.obj []
              let newState := state.set "requests" (requests.set request_id updated)
              let responsePayload := updated.set "confirmation" (J.obj
                [("required", J.bool true), ("status", J.str decision),
                 ("request_id", J.str request_id)])
              match makeResponse "approval.resolved" responsePayload msgId none with
              | Except.ok resp => Except.ok (resp, newState)
              | Except.error e => Except.error e
  else
    Except.ok (makeError E_NO_ROUTE "Unsupported intent" msgId false none, state)

/-! ## Async pipeline, Proof-of-Concept-3

Worker state machine from src/Proof-of-Concept-3/workers/echo_worker/worker.py
and the router's result handler from
src/Proof-of-Concept-3/router/router_service.py.  The Redis store and the
broker publications are explicit state; JSON (de)serialisation of cached
values round-trips and is elided.  The Ollama chat upstream is an oracle
function; its `Except.error` case is an exception raised during the call. -/

/-- Worker identity (`WORKER_NODE_ID` default). -/
def WORKER_NODE_ID : String := "terminal.echo"

/-- `MAX_ATTEMPTS` default. -/
def WORKER_MAX_ATTEMPTS : Int := 3

/-- Exchange names from shared/bdp.py. -/
def EX_CAPABILITY : String := "bdp.capability"

/-- The fanout log exchange. -/
def EX_LOG : String := "bdp.log"

/-- The dead-letter exchange. -/
def EX_DLQ : String := "bdp.dlq"

/-- Replace-or-append on a string-keyed association list (Python dict / Redis
key update semantics). -/
def setAssoc (kvs : List (String × J)) (k : String) (x : J) : List (String × J) :=
  match kvs with
  | [] => [(k, x)]
  | (k0, v0) :: rest =>
      if k0 == k then (k0, x) :: rest else (k0, v0) :: setAssoc rest k x

/-- The Redis control-plane state per the PoC-3 data plane: plain keys
(idempotency, side-effect, cached responses), the per-message event lists and
the per-message status hashes. -/
structure RedisState where
  kv : List (String × J)
  events : List (String × String × J)
  statuses : List (String × J)

/-- An empty Redis store. -/
def RedisState.empty : RedisState :=
  { kv := [], events := [], statuses := [] }

/-- `rdb.get`. -/
def RedisState.get (st : RedisState) (k : String) : Option J :=
  (st.kv.find? (fun kv => kv.1 == k)).map (fun kv => kv.2)

/-- `rdb.set(k, v)`. -/
def RedisState.setKey (st : RedisState) (k : String) (v : J) : RedisState :=
  { st with kv := setAssoc st.kv k v }

/-- `rdb.set(k, v, nx=True)`: true and set when the key was absent. -/
def RedisState.setNx (st : RedisState) (k : String) (v : J) : Bool × RedisState :=
  match st.get k with
  | some _ => (false, st)
  | none => (true, st.setKey k v)

/-- `redis_append_event`. -/
def RedisState.appendEvent (st : RedisState) (message_id event : String) (details : J) :
    RedisState :=
  { st with events := st.events ++ [(message_id, event, details)] }

/-- `redis_set_status`: merge the given fields into the status hash of the
message (Redis `hset` updates the given fields and keeps the others). -/
def RedisState.setStatus (st : RedisState) (message_id state : String)
    (extra : List (String × J)) : RedisState :=
  let current : List (String × J) :=
    match (st.statuses.find? (fun kv => kv.1 == message_id)).map (fun kv => kv.2) with
    | some (J.obj kvs) => kvs
    | _ => []
  let base := setAssoc (setAssoc (setAssoc current "message_id" (J.str message_id))
    "state" (J.str state)) "updated_at" (J.str NOW_ISO)
  let merged := extra.foldl (fun acc kv => setAssoc acc kv.1 kv.2) base
  { st with statuses := setAssoc st.statuses message_id (J.obj merged) }

/-- Broker publications and result posts performed by a worker run. -/
structure WorkerEffects where
  published : List (String × String × J)
  logs : List (String × String × J)
  results : List J

/-- No effects yet. -/
def WorkerEffects.empty : WorkerEffects :=
  { published := [], logs := [], results := [] }

/-- `publish_log`: one fanout log message. -/
def publishLog (eff : WorkerEffects) (message_id event : String) (details : J) :
    WorkerEffects :=
  { eff with logs := eff.logs ++ [(message_id, event, details)] }

/-- `send_result`: the HTTP callback body posted to the router. -/
def sendResult (eff : WorkerEffects) (message_id : String) (response : J) (attempt : Int)
    (dup dead : Bool) : WorkerEffects :=
  { eff with results := eff.results ++
      [J.obj [("message_id", J.str message_id), ("node_id", J.str WORKER_NODE_ID),
              ("response", response), ("attempt", J.num attempt),
              ("duplicate", J.bool dup), ("dead_lettered", J.bool dead)]] }

/-- `build_echo_response` from the echo worker. -/
def buildEchoResponse (message : J) : Except String J :=
  let text := J.pyStr ((message.getD "payload" (J.obj [])).getD "text" (J.str ""))
  let actor := ((message.getD "extensions" (J.obj [])).getD "identity" (J.obj [])).getD
    "actor_id" (J.str "unknown")
  let base : J := J.obj
    [("protocol_version", J.str PROTOCOL_VERSION),
     ("message_id", message.getD "message_id" J.null),
     ("intent", J.str "echo_response"),
     ("payload", J.obj [("text", J.str text), ("handled_by", J.str WORKER_NODE_ID),
       ("actor", actor)]),
     ("extensions", J.obj [])]
  let base2 :=
    match (messageExtensions message).lookup "identity" with
    | some idv => base.set "extensions" (J.obj [("identity", idv)])
    | none => base
  ensureTrace base2 (message.lookup "message_id") (some "terminal.echo.worker")

/-- `build_chat_response`, with the Ollama HTTP chat call as an oracle. -/
def buildChatResponse (ollama : J → Except String J) (message : J) : Except String J :=
  let ext := messageExtensions message
  let llm : J :=
    match ext.lookup "llm" with
    | some (J.obj kvs) => J.obj kvs
    | _ => J.obj []
  let text := J.pyStr ((message.getD "payload" (J.obj [])).getD "text" (J.str ""))
  let node := J.pyStr (llm.getD "node" (J.str "general"))
  let model := J.pyStr (llm.getD "model" (J.str "ministral-3:8b"))
  let node_id := J.pyStr (llm.getD "node_id" (J.str ("node.assistant." ++ node)))
  let defaultPrompt :=
    if node = "builder" then "You are the BrainDrive builder node. Provide implementation-first guidance."
    else "You are the BrainDrive general assistant node. Answer clearly and concisely."
  let system_prompt := J.pyStr (llm.getD "system_prompt" (J.str defaultPrompt))
  let req : J := J.obj
    [("model", J.str model),
     ("messages", J.arr
       [J.obj [("role", J.str "system"), ("content", J.str system_prompt)],
        J.obj [("role", J.str "user"), ("content", J.str text)]]),
     ("stream", J.bool false)]
  match ollama req with
  | Except.error e => Except.error e
  | Except.ok resp =>
      let content :=
        match resp with
        | J.obj _ =>
            match resp.lookup "message" with
            | some (J.obj mkvs) => J.pyStr ((J.obj mkvs).getD "content" (J.str ""))
            | _ => ""
        | _ => ""
      let base : J := J.obj
        [("protocol_version", J.str PROTOCOL_VERSION),
         ("message_id", message.getD "message_id" J.null),
         ("intent", J.str "chat_response"),
         ("payload", J.obj [("text", J.str content), ("handled_by", J.str WORKER_NODE_ID),
           ("node", J.str node), ("node_id", J.str node_id), ("model", J.str model)]),
         ("extensions", J.obj [])]
      let base2 :=
        match (messageExtensions message).lookup "identity" with
        | some idv => base.set "extensions" (J.obj [("identity", idv)])
        | none => base
      ensureTrace base2 (message.lookup "message_id") (some "terminal.echo.worker.chat")

/-- `process_delivery` of the echo worker: the full per-delivery state machine
(validation, idempotency gate, forced-error retry/DLQ handling, the
exactly-once side-effect commit and the work itself). -/
def processDelivery (ollama : J → Except String J) (envelope : J)
    (st : RedisState) (eff : WorkerEffects) : Except String (RedisState × WorkerEffects) :=
  let message := envelope.getD "message" J.null
  match pyInt (envelope.getD "attempt" (J.num 0)),
        pyInt (envelope.getD "max_attempts" (J.num WORKER_MAX_ATTEMPTS)) with
  | some attempt, some max_attempts =>
      if !message.isObj then Except.ok (st, eff)
      else
        let message_id := J.pyStr (message.getD "message_id" (J.str ""))
        if message_id = "" then Except.ok (st, eff)
        else
          let st := st.appendEvent message_id "worker_received"
            (J.obj [("node_id", J.str WORKER_NODE_ID), ("attempt", J.num attempt)])
          let eff := publishLog eff message_id "worker_received"
            (J.obj [("node_id", J.str WORKER_NODE_ID), ("attempt", J.num attempt)])
          let idempotency_key := "bdp:idempotency:" ++ WORKER_NODE_ID ++ ":" ++ message_id
          let side_effect_key := "bdp:side_effect:" ++ WORKER_NODE_ID ++ ":" ++ message_id
          let cached_response_key := "bdp:node_response:" ++ WORKER_NODE_ID ++ ":" ++ message_id
          if message.getD "protocol_version" J.null != J.str PROTOCOL_VERSION then
            let response := makeError E_UNSUPPORTED_PROTOCOL
              (WORKER_NODE_ID ++ " supports protocol " ++ PROTOCOL_VERSION)
              (some (J.str message_id)) false none
            let st := st.setKey cached_response_key response
            let eff := sendResult eff message_id response attempt false false
            Except.ok (st, eff)
          else
            let extensions := messageExtensions message
            if !extensions.hasKey "identity" then
              let response := makeError E_REQUIRED_EXTENSION_MISSING
                "Missing required extension(s): identity" (some (J.str message_id)) false
                (some (J.obj [("missing", J.arr [J.str "identity"])]))
              let st := st.setKey cached_response_key response
              let st := st.appendEvent message_id "worker_error"
                (J.obj [("node_id", J.str WORKER_NODE_ID),
                        ("code", J.str E_REQUIRED_EXTENSION_MISSING)])
              let eff := publishLog eff message_id "worker_error"
                (J.obj [("node_id", J.str WORKER_NODE_ID),
                        ("code", J.str E_REQUIRED_EXTENSION_MISSING)])
              let eff := sendResult eff message_id response attempt false false
              Except.ok (st, eff)
            else
              match message.getD "payload" (J.obj []) with
              | J.obj payloadKvs =>
                  let payload := J.obj payloadKvs
                  let force_error := (payload.getD "force_error" (J.bool false)).truthy
                  let dupCheck : Option (RedisState × WorkerEffects) :=
                    if force_error then none
                    else
                      let nx := st.setNx idempotency_key (J.str "1")
                      if nx.1 then none
                      else
                        let st := nx.2
                        let response :=
                          match st.get cached_response_key with
                          | some cached => cached
                          | none => makeError "E_NODE_ERROR"
                              ("Duplicate delivery but no cached response for " ++
                                WORKER_NODE_ID) (some (J.str message_id)) false none
                        let st := st.appendEvent message_id "duplicate_delivery"
                          (J.obj [("node_id", J.str WORKER_NODE_ID), ("attempt", J.num attempt)])
                        let eff := publishLog eff message_id "duplicate_delivery"
                          (J.obj [("node_id", J.str WORKER_NODE_ID), ("attempt", J.num attempt)])
                        let eff := sendResult eff message_id response attempt true false
                        some (st, eff)
                  match dupCheck with
                  | some out => Except.ok out
                  | none =>
                      let st := if force_error then st else (st.setNx idempotency_key (J.str "1")).2
                      if force_error then
                        let next_attempt := attempt + 1
                        if next_attempt < max_attempts then
                          let retry_envelope := J.obj
                            [("message", message), ("node_id", J.str WORKER_NODE_ID),
                             ("routing_key", J.str "echo"), ("attempt", J.num next_attempt),
                             ("max_attempts", J.num max_attempts)]
                          let eff := { eff with published := eff.published ++
                            [(EX_CAPABILITY, "echo", retry_envelope)] }
                          let st := st.appendEvent message_id "retry_scheduled"
                            (J.obj [("node_id", J.str WORKER_NODE_ID),
                                    ("attempt", J.num next_attempt)])
                          let eff := publishLog eff message_id "retry_scheduled"
                            (J.obj [("node_id", J.str WORKER_NODE_ID),
                                    ("attempt", J.num next_attempt)])
                          Except.ok (st, eff)
                        else
                          let response := makeError E_NODE_TIMEOUT
                            (WORKER_NODE_ID ++ " exceeded max attempts")
                            (some (J.str message_id)) true
                            (some (J.obj [("node_id", J.str WORKER_NODE_ID),
                              ("attempt", J.num next_attempt)]))
                          let dead_letter_entry := J.obj
                            [("message", message), ("node_id", J.str WORKER_NODE_ID),
                             ("attempt", J.num next_attempt), ("dead_lettered", J.bool true),
                             ("error", response)]
                          let eff := { eff with published := eff.published ++
                            [(EX_DLQ, "echo", dead_letter_entry)] }
                          let st := st.appendEvent message_id "worker_dead_lettered"
                            (J.obj [("node_id", J.str WORKER_NODE_ID),
                                    ("attempt", J.num next_attempt)])
                          let eff := publishLog eff message_id "worker_dead_lettered"
                            (J.obj [("node_id", J.str WORKER_NODE_ID),
                                    ("attempt", J.num next_attempt)])
                          let st := st.setKey cached_response_key response
                          let eff := sendResult eff message_id response next_attempt false true
                          Except.ok (st, eff)
                      else
                        let st := st.setKey side_effect_key (J.str "1")
                        let intentStr := J.pyStr (message.getD "intent" (J.str ""))
                        let work : J × RedisState × WorkerEffects :=
                          if intentStr = "chat" then
                            match buildChatResponse ollama message with
                            | Except.ok resp => (resp, st, eff)
                            | Except.error exc =>
                                let response := makeError "E_NODE_UNAVAILABLE"
                                  ("LLM processing failed: " ++ exc)
                                  (some (J.str message_id)) true
                                  (some (J.obj [("error", J.str exc),
                                    ("ollama_base_url", J.str "http://localhost:11434")]))
                                let st := st.appendEvent message_id "worker_error"
                                  (J.obj [("node_id", J.str WORKER_NODE_ID),
                                          ("code", J.str "E_NODE_UNAVAILABLE")])
                                let eff := publishLog eff message_id "worker_error"
                                  (J.obj [("node_id", J.str WORKER_NODE_ID),
                                          ("code", J.str "E_NODE_UNAVAILABLE")])
                                (response, st, eff)
                          else if intentStr = "echo" then
                            match buildEchoResponse message with
                            | Except.ok resp => (resp, st, eff)
                            | Except.error exc =>
                                let response := makeError "E_NODE_UNAVAILABLE"
                                  ("LLM processing failed: " ++ exc)
                                  (some (J.str message_id)) true
                                  (some (J.obj [("error", J.str exc),
                                    ("ollama_base_url", J.str "http://localhost:11434")]))
                                let st := st.appendEvent message_id "worker_error"
                                  (J.obj [("node_id", J.str WORKER_NODE_ID),
                                          ("code", J.str "E_NODE_UNAVAILABLE")])
                                let eff := publishLog eff message_id "worker_error"
                                  (J.obj [("node_id", J.str WORKER_NODE_ID),
                                          ("code", J.str "E_NODE_UNAVAILABLE")])
                                (response, st, eff)
                          else
                            let response := makeError "E_NO_ROUTE"
                              ("Unsupported intent for worker: " ++ intentStr)
                              (some (J.str message_id)) false none
                            let st := st.appendEvent message_id "worker_error"
                              (J.obj [("node_id", J.str WORKER_NODE_ID),
                                      ("code", J.str "E_NO_ROUTE")])
                            let eff := publishLog eff message_id "worker_error"
                              (J.obj [("node_id", J.str WORKER_NODE_ID),
                                      ("code", J.str "E_NO_ROUTE")])
                            (response, st, eff)
                        let response := work.1
                        let st := work.2.1
                        let eff := work.2.2
                        let st := st.setKey cached_response_key response
                        let st := st.appendEvent message_id "worker_completed"
                          (J.obj [("node_id", J.str WORKER_NODE_ID), ("attempt", J.num attempt),
                                  ("intent", response.getD "intent" J.null)])
                        let eff := publishLog eff message_id "worker_completed"
                          (J.obj [("node_id", J.str WORKER_NODE_ID), ("attempt", J.num attempt),
                                  ("intent", response.getD "intent" J.null)])
                        let eff := sendResult eff message_id response attempt false false
                        Except.ok (st, eff)
              | _ => Except.error "AttributeError: payload has no get"
  | _, _ => Except.error "ValueError: attempt counters"

/-- `looks_like_bdp` from Proof-of-Concept-3 shared/bdp.py (its own
implementation, used by the router's result handler). -/
def poc3LooksLikeBdp (m : J) : Bool :=
  match m with
  | J.obj _ =>
      (m.getD "protocol_version" J.null).isStr &&
      (m.getD "message_id" J.null).isStr &&
      (m.getD "intent" J.null).isStr &&
      (m.getD "payload" J.null).isObj &&
      (!m.hasKey "extensions" || m.getD "extensions" J.null == J.null ||
        (m.getD "extensions" J.null).isObj)
  | _ => false

/-- `RouterHandler._handle_worker_result` from the PoC-3 router service: the
status of the message becomes `completed`, `error` or `dlq` depending on the
response intent and the dead-letter flag. -/
def handleWorkerResult (body : J) (st : RedisState) : Except String RedisState :=
  let message_id := J.pyStr (body.getD "message_id" (J.str ""))
  let node_id := J.pyStr (body.getD "node_id" (J.str "unknown"))
  let response0 := body.getD "response" J.null
  let dead_lettered := (body.getD "dead_lettered" (J.bool false)).truthy
  let duplicate := (body.getD "duplicate" (J.bool false)).truthy
  match pyInt (body.getD "attempt" (J.num 0)) with
  | none => Except.error "ValueError: attempt"
  | some attempt =>
      if message_id = "" then Except.ok st
      else
        let response :=
          if !poc3LooksLikeBdp response0 then
            makeError "E_NODE_ERROR" ("Worker returned invalid BDP response: " ++ node_id)
              (some (J.str message_id)) false
              (some (J.obj [("node_id", J.str node_id)]))
          else response0
        let state :=
          if response.getD "intent" J.null == J.str "error" then
            if dead_lettered then "dlq" else "error"
          else "completed"
        let st := st.setStatus message_id state
          [("node_id", J.str node_id), ("response", response),
           ("details", J.obj [("attempt", J.num attempt), ("duplicate", J.bool duplicate),
             ("dead_lettered", J.bool dead_lettered)])]
        let st := st.appendEvent message_id "worker_result"
          (J.obj [("node_id", J.str node_id), ("attempt", J.num attempt),
                  ("duplicate", J.bool duplicate), ("dead_lettered", J.bool dead_lettered),
                  ("response_intent", response.getD "intent" J.null)])
        Except.ok st

/-! ## Support lemmas on orderings and the stable sort -/

theorem then_eq_lt {x y : Ordering} :
    x.then y = Ordering.lt ↔ x = Ordering.lt ∨ (x = Ordering.eq ∧ y = Ordering.lt) := by
  cases x <;> simp [Ordering.then]

theorem then_eq_eq {x y : Ordering} :
    x.then y = Ordering.eq ↔ x = Ordering.eq ∧ y = Ordering.eq := by
  cases x <;> simp [Ordering.then]

theorem then_eq_gt {x y : Ordering} :
    x.then y = Ordering.gt ↔ x = Ordering.gt ∨ (x = Ordering.eq ∧ y = Ordering.gt) := by
  cases x <;> simp [Ordering.then]

theorem cmpI_eq_lt {a b : Int} : cmpI a b = Ordering.lt ↔ a < b := by
  unfold cmpI
  split
  · simpa using ‹a < b›
  · split <;> simp_all

theorem cmpI_eq_eq {a b : Int} : cmpI a b = Ordering.eq ↔ a = b := by
  unfold cmpI
  split
  · constructor
    · intro h
      cases h
    · intro h
      omega
  · split <;> simp_all

theorem cmpI_eq_gt {a b : Int} : cmpI a b = Ordering.gt ↔ b < a := by
  unfold cmpI
  split
  · constructor
    · intro h
      cases h
    · intro h
      omega
  · split
    · constructor
      · intro h
        cases h
      · intro h
        omega
    · constructor
      · intro _
        omega
      · intro _
        rfl

theorem cmpN_eq_lt {a b : Nat} : cmpN a b = Ordering.lt ↔ a < b := by
  unfold cmpN
  split
  · simpa using ‹a < b›
  · split <;> simp_all

theorem cmpN_eq_eq {a b : Nat} : cmpN a b = Ordering.eq ↔ a = b := by
  unfold cmpN
  split
  · constructor
    · intro h
      cases h
    · intro h
      omega
  · split <;> simp_all

theorem cmpN_eq_gt {a b : Nat} : cmpN a b = Ordering.gt ↔ b < a := by
  unfold cmpN
  split
  · constructor
    · intro h
      cases h
    · intro h
      omega
  · split
    · constructor
      · intro h
        cases h
      · intro h
        omega
    · constructor
      · intro _
        omega
      · intro _
        rfl

theorem charsCmp_eq_eq : ∀ {xs ys : List Char}, charsCmp xs ys = Ordering.eq ↔ xs = ys := by
  intro xs
  induction xs with
  | nil =>
      intro ys
      cases ys <;> simp [charsCmp]
  | cons a as_ ih =>
      intro ys
      cases ys with
      | nil => simp [charsCmp]
      | cons b bs =>
          simp only [charsCmp, then_eq_eq, cmpN_eq_eq, ih]
          constructor
          · rintro ⟨h1, h2⟩
            have hab : a = b := by
              refine Char.eq_of_val_eq (UInt32.toNat.inj ?_)
              exact h1
            simp [hab, h2]
          · rintro h
            injection h with h1 h2
            subst h1
            subst h2
            simp

theorem charsCmp_swap :
    ∀ {xs ys : List Char}, charsCmp xs ys = Ordering.lt ↔ charsCmp ys xs = Ordering.gt := by
  intro xs
  induction xs with
  | nil =>
      intro ys
      cases ys <;> simp [charsCmp]
  | cons a as_ ih =>
      intro ys
      cases ys with
      | nil => simp [charsCmp]
      | cons b bs =>
          simp only [charsCmp, then_eq_lt, then_eq_gt, cmpN_eq_lt, cmpN_eq_eq, cmpN_eq_gt, ih]
          constructor
          · rintro (h | ⟨h1, h2⟩)
            · exact Or.inl h
            · exact Or.inr ⟨h1.symm, h2⟩
          · rintro (h | ⟨h1, h2⟩)
            · exact Or.inl h
            · exact Or.inr ⟨h1.symm, h2⟩

theorem sCmp_eq_eq {a b : String} : sCmp a b = Ordering.eq ↔ a = b := by
  unfold sCmp
  rw [charsCmp_eq_eq]
  constructor
  · intro h
    cases a
    cases b
    exact congrArg String.mk h
  · intro h
    simp [h]

theorem sCmp_swap {a b : String} : sCmp a b = Ordering.lt ↔ sCmp b a = Ordering.gt := by
  unfold sCmp
  exact charsCmp_swap

theorem ordering_trichotomy (o : Ordering) :
    o = Ordering.lt ∨ o = Ordering.eq ∨ o = Ordering.gt := by
  cases o <;> simp

theorem sortStable_pair (le : α → α → Bool) (x y : α) :
    sortStable le [x, y] = if le x y then [x, y] else [y, x] := by
  simp [sortStable, insertSorted]

/-! ## C4 support: the selection order -/

/-- Modelled from the spec sentence for the selection rule, for comparison
with the source's sort key: higher priority wins, then the higher
(major, minor, patch) version, and remaining ties go to the lexicographically
smaller node id. -/
def specNodeWinner (a b : NodeRecord) : NodeRecord :=
  let va := parseVersion a.descriptor.node_version
  let vb := parseVersion b.descriptor.node_version
  if a.descriptor.priority > b.descriptor.priority then a
  else if b.descriptor.priority > a.descriptor.priority then b
  else if va.1 > vb.1 ∨ (va.1 = vb.1 ∧ (va.2.1 > vb.2.1 ∨
    (va.2.1 = vb.2.1 ∧ va.2.2 > vb.2.2))) then a
  else if vb.1 > va.1 ∨ (vb.1 = va.1 ∧ (vb.2.1 > va.2.1 ∨
    (vb.2.1 = va.2.1 ∧ vb.2.2 > va.2.2))) then b
  else if sCmp a.descriptor.node_id b.descriptor.node_id = Ordering.lt then a else b

/-- The route sort key of a record. -/
def recKey (a : NodeRecord) : Int × Int × Int × Int × String :=
  nodeSortKey a.descriptor.priority a.descriptor.node_version a.descriptor.node_id

theorem sortKeyCmp_lt_iff {a b : NodeRecord} :
    sortKeyCmp (recKey a) (recKey b) = Ordering.lt ↔
      (b.descriptor.priority < a.descriptor.priority ∨
        (a.descriptor.priority = b.descriptor.priority ∧
          (((parseVersion b.descriptor.node_version).1 <
              (parseVersion a.descriptor.node_version).1) ∨
            ((parseVersion a.descriptor.node_version).1 =
                (parseVersion b.descriptor.node_version).1 ∧
              (((parseVersion b.descriptor.node_version).2.1 <
                  (parseVersion a.descriptor.node_version).2.1) ∨
                ((parseVersion a.descriptor.node_version).2.1 =
                    (parseVersion b.descriptor.node_version).2.1 ∧
                  (((parseVersion b.descriptor.node_version).2.2 <
                      (parseVersion a.descriptor.node_version).2.2) ∨
                    ((parseVersion a.descriptor.node_version).2.2 =
                        (parseVersion b.descriptor.node_version).2.2 ∧
                      sCmp a.descriptor.node_id b.descriptor.node_id =
                        Ordering.lt)))))))) := by
  unfold sortKeyCmp recKey nodeSortKey
  simp only [then_eq_lt, cmpI_eq_lt, cmpI_eq_eq, neg_lt_neg_iff, neg_inj]

theorem sortKeyCmp_swap {x y : Int × Int × Int × Int × String} :
    sortKeyCmp x y = Ordering.lt ↔ sortKeyCmp y x = Ordering.gt := by
  unfold sortKeyCmp
  simp only [then_eq_lt, then_eq_gt, cmpI_eq_lt, cmpI_eq_gt, cmpI_eq_eq, sCmp_swap]
  constructor
  · rintro (h | ⟨h1, (h | ⟨h2, (h | ⟨h3, (h | ⟨h4, h5⟩)⟩)⟩)⟩)
    · exact Or.inl h
    · exact Or.inr ⟨h1.symm, Or.inl h⟩
    · exact Or.inr ⟨h1.symm, Or.inr ⟨h2.symm, Or.inl h⟩⟩
    · exact Or.inr ⟨h1.symm, Or.inr ⟨h2.symm, Or.inr ⟨h3.symm, Or.inl h⟩⟩⟩
    · exact Or.inr ⟨h1.symm, Or.inr ⟨h2.symm, Or.inr ⟨h3.symm, Or.inr ⟨h4.symm, h5⟩⟩⟩⟩
  · rintro (h | ⟨h1, (h | ⟨h2, (h | ⟨h3, (h | ⟨h4, h5⟩)⟩)⟩)⟩)
    · exact Or.inl h
    · exact Or.inr ⟨h1.symm, Or.inl h⟩
    · exact Or.inr ⟨h1.symm, Or.inr ⟨h2.symm, Or.inl h⟩⟩
    · exact Or.inr ⟨h1.symm, Or.inr ⟨h2.symm, Or.inr ⟨h3.symm, Or.inl h⟩⟩⟩
    · exact Or.inr ⟨h1.symm, Or.inr ⟨h2.symm, Or.inr ⟨h3.symm, Or.inr ⟨h4.symm, h5⟩⟩⟩⟩

theorem sortKeyCmp_eq_eq {a b : NodeRecord} :
    sortKeyCmp (recKey a) (recKey b) = Ordering.eq →
      a.descriptor.node_id = b.descriptor.node_id := by
  intro h
  unfold sortKeyCmp recKey nodeSortKey at h
  simp only [then_eq_eq] at h
  exact sCmp_eq_eq.mp h.2.2.2.2

theorem specWinner_eq_of_lt {a b : NodeRecord}
    (h : sortKeyCmp (recKey a) (recKey b) = Ordering.lt) : specNodeWinner a b = a := by
  rw [sortKeyCmp_lt_iff] at h
  unfold specNodeWinner
  rcases h with h | ⟨h1, h⟩
  · rw [if_pos h]
  rcases h with h | ⟨h2, h⟩
  · rw [if_neg (by omega), if_neg (by omega), if_pos (by omega)]
  rcases h with h | ⟨h3, h⟩
  · rw [if_neg (by omega), if_neg (by omega), if_pos (by omega)]
  rcases h with h | ⟨h4, h5⟩
  · rw [if_neg (by omega), if_neg (by omega), if_pos (by omega)]
  · rw [if_neg (by omega), if_neg (by omega), if_neg (by omega), if_neg (by omega),
      if_pos h5]

theorem specWinner_eq_of_gt {a b : NodeRecord}
    (h : sortKeyCmp (recKey a) (recKey b) = Ordering.gt) : specNodeWinner a b = b := by
  rw [← sortKeyCmp_swap, sortKeyCmp_lt_iff] at h
  unfold specNodeWinner
  rcases h with h | ⟨h1, h⟩
  · rw [if_neg (by omega), if_pos (by omega)]
  rcases h with h | ⟨h2, h⟩
  · rw [if_neg (by omega), if_neg (by omega), if_neg (by omega), if_pos (by omega)]
  rcases h with h | ⟨h3, h⟩
  · rw [if_neg (by omega), if_neg (by omega), if_neg (by omega), if_pos (by omega)]
  rcases h with h | ⟨h4, h5⟩
  · rw [if_neg (by omega), if_neg (by omega), if_neg (by omega), if_pos (by omega)]
  · have hlt : sCmp b.descriptor.node_id a.descriptor.node_id = Ordering.lt := h5
    have hne : ¬ sCmp a.descriptor.node_id b.descriptor.node_id = Ordering.lt := by
      intro hcon
      have hgt := sCmp_swap.mp hcon
      rw [hlt] at hgt
      cases hgt
    rw [if_neg (by omega), if_neg (by omega), if_neg (by omega), if_neg (by omega),
      if_neg hne]

theorem find?_of_filter_eq_single {p : α → Bool} {l : List α} {x : α}
    (h : l.filter p = [x]) : l.find? p = some x := by
  induction l with
  | nil => simp at h
  | cons hd tl ih =>
      by_cases hp : p hd = true
      · rw [List.filter_cons_of_pos hp] at h
        injection h with h1 h2
        rw [List.find?_cons_of_pos _ hp, h1]
      · rw [List.filter_cons_of_neg (by simpa using hp)] at h
        rw [List.find?_cons_of_neg _ (by simpa using hp)]
        exact ih h

/-- C4: node selection is a deterministic total order.  For two eligible
records with distinct node ids the head of the sorted candidate list is the
winner dictated by (priority, version, node id) regardless of input order, and
`capability_metadata` resolves to the winner's capability. -/
theorem C4_selection_total_order (a b : NodeRecord)
    (hid : a.descriptor.node_id ≠ b.descriptor.node_id) :
    ((sortNodes [a, b]).head? = some (specNodeWinner a b) ∧
     (sortNodes [b, a]).head? = some (specNodeWinner a b)) ∧
    (specNodeWinner a b = a ∨ specNodeWinner a b = b) ∧
    (∀ (now : Int) (intent : String) (capA capB : CapabilityMetadata),
      a.descriptor.capabilities.filter (fun c => c.name == intent) = [capA] →
      b.descriptor.capabilities.filter (fun c => c.name == intent) = [capB] →
      now < a.expires_at_epoch → now < b.expires_at_epoch →
      ((specNodeWinner a b = a ∧ capabilityMetadata [a, b] now intent = some capA) ∨
       (specNodeWinner a b = b ∧ capabilityMetadata [a, b] now intent = some capB))) := by
  have hne : sortKeyCmp (recKey a) (recKey b) ≠ Ordering.eq := fun hc =>
    hid (sortKeyCmp_eq_eq hc)
  have hpair : ∀ x y : NodeRecord,
      sortNodes [x, y] = if sortKeyLe (recKey x) (recKey y) then [x, y] else [y, x] := by
    intro x y
    simp only [sortNodes, recKey]
    exact sortStable_pair _ x y
  have hcap : ∀ (now : Int) (intent : String) (capA capB : CapabilityMetadata),
      a.descriptor.capabilities.filter (fun c => c.name == intent) = [capA] →
      b.descriptor.capabilities.filter (fun c => c.name == intent) = [capB] →
      now < a.expires_at_epoch → now < b.expires_at_epoch →
      capabilityMetadata [a, b] now intent =
        some (if sortKeyLe (recKey a) (recKey b) then capA else capB) := by
    intro now intent capA capB hA hB hea heb
    unfold capabilityMetadata
    have hprune : pruneStale [a, b] now = [a, b] := by
      unfold pruneStale
      rw [List.filter_eq_self.mpr]
      intro r hr
      rcases List.mem_cons.mp hr with h | h
      · subst h
        simpa using by omega
      · simp only [List.mem_singleton] at h
        subst h
        simpa using by omega
    rw [hprune]
    simp only [List.flatMap_cons, List.flatMap_nil, List.append_nil, hA, hB,
      List.map_cons, List.map_nil, List.singleton_append]
    have : sortStable
        (fun x y : (Int × Int × Int × Int × String) × CapabilityMetadata =>
          sortKeyLe x.1 y.1)
        [(nodeSortKey a.descriptor.priority a.descriptor.node_version a.descriptor.node_id,
            capA),
         (nodeSortKey b.descriptor.priority b.descriptor.node_version b.descriptor.node_id,
            capB)] =
        if sortKeyLe (recKey a) (recKey b) then
          [(recKey a, capA), (recKey b, capB)]
        else [(recKey b, capB), (recKey a, capA)] := by
      simpa only [recKey] using sortStable_pair
        (fun x y : (Int × Int × Int × Int × String) × CapabilityMetadata =>
          sortKeyLe x.1 y.1)
        (recKey a, capA) (recKey b, capB)
    rw [this]
    by_cases hle : sortKeyLe (recKey a) (recKey b) = true
    · rw [if_pos hle, if_pos hle]
    · rw [if_neg hle, if_neg hle]
  rcases ordering_trichotomy (sortKeyCmp (recKey a) (recKey b)) with hcmp | hcmp | hcmp
  · have hwin := specWinner_eq_of_lt hcmp
    have hgt : sortKeyCmp (recKey b) (recKey a) = Ordering.gt := sortKeyCmp_swap.mp hcmp
    have hleab : sortKeyLe (recKey a) (recKey b) = true := by
      simp [sortKeyLe, hcmp]
    have hleba : sortKeyLe (recKey b) (recKey a) = false := by
      simp [sortKeyLe, hgt]
    refine ⟨⟨?_, ?_⟩, Or.inl hwin, ?_⟩
    · rw [hpair, if_pos hleab, hwin]
      rfl
    · rw [hpair, if_neg (by simp [hleba]), hwin]
      rfl
    · intro now intent capA capB hA hB hea heb
      left
      refine ⟨hwin, ?_⟩
      rw [hcap now intent capA capB hA hB hea heb, if_pos hleab]
  · exact absurd hcmp hne
  · have hwin := specWinner_eq_of_gt hcmp
    have hlt : sortKeyCmp (recKey b) (recKey a) = Ordering.lt := by
      rw [sortKeyCmp_swap]
      exact hcmp
    have hleab : sortKeyLe (recKey a) (recKey b) = false := by
      simp [sortKeyLe, hcmp]
    have hleba : sortKeyLe (recKey b) (recKey a) = true := by
      simp [sortKeyLe, hlt]
    refine ⟨⟨?_, ?_⟩, Or.inr hwin, ?_⟩
    · rw [hpair, if_neg (by simp [hleab]), hwin]
      rfl
    · rw [hpair, if_pos hleba, hwin]
      rfl
    · intro now intent capA capB hA hB hea heb
      right
      refine ⟨hwin, ?_⟩
      rw [hcap now intent capA capB hA hB hea heb, if_neg (by simp [hleab])]

/-- The shared capability used in the S6 selection scenario, on the "z" node. -/
def c4capZ : CapabilityMetadata :=
  { name := "chat.general", description := "chat", input_schema := J.obj [],
    risk_class := "read", required_extensions := [], approval_required := false,
    examples := ["hello"], idempotency := "idempotent", side_effect_scope := "none",
    capability_version := "0.1.0", provider := none }

/-- The same capability as published by the "a" node. -/
def c4capA : CapabilityMetadata :=
  { c4capZ with capability_version := "0.2.0" }

/-- S6 provider one: priority 200, version 1.0.0, id "z". -/
def c4recZ : NodeRecord :=
  { descriptor :=
      { node_id := "z", node_version := "1.0.0", endpoint_url := "inproc://z",
        supported_protocol_versions := [PROTOCOL_VERSION], capabilities := [c4capZ],
        requires := [], priority := 200, auth := [] },
    handler := none, lease_token := "lz", expires_at_epoch := 100,
    registered_at := "r", last_heartbeat_at := "h" }

/-- S6 provider two: priority 200, version 1.2.0, id "a". -/
def c4recA : NodeRecord :=
  { descriptor :=
      { node_id := "a", node_version := "1.2.0", endpoint_url := "inproc://a",
        supported_protocol_versions := [PROTOCOL_VERSION], capabilities := [c4capA],
        requires := [], priority := 200, auth := [] },
    handler := none, lease_token := "la", expires_at_epoch := 100,
    registered_at := "r", last_heartbeat_at := "h" }

/-- C4 witness: the spec's S6 scenario, (priority 200, version 1.0.0, id "z")
against (priority 200, version 1.2.0, id "a"): the winner is id "a" in both
orders, and the capability metadata resolves to the winner's capability. -/
theorem C4_selection_total_order_witness :
    (sortNodes [ c4recZ, c4recA ]).head?.map (fun r => r.descriptor.node_id) = some "a" ∧
    (sortNodes [ c4recA, c4recZ ]).head?.map (fun r => r.descriptor.node_id) = some "a" ∧
    capabilityMetadata [ c4recZ, c4recA ] 0 "chat.general" = some c4capA := by
  have h := C4_selection_total_order c4recZ c4recA (by decide)
  have hw : (specNodeWinner c4recZ c4recA).descriptor.node_id = "a" := by rfl
  refine ⟨?_, ?_, ?_⟩
  · rw [h.1.1]
    simp [hw]
  · rw [h.1.2]
    simp [hw]
  · have hcap := h.2.2 0 "chat.general" c4capZ c4capA (by decide) (by decide)
      (by decide) (by decide)
    rcases hcap with ⟨hwin, hc⟩ | ⟨hwin, hc⟩
    · rw [hwin] at hw
      exact absurd hw (by decide)
    · exact hc

/-! ## C5: the Persistence secret scrubber -/

/-- C5: every value written to disk through Persistence (append_log and
save_state, emit_event included) carries no raw secret: each mapping key whose
lowercased name contains one of the sensitive markers holds exactly the
redaction literal, at any nesting depth including inside lists, while the
structure, the keys and the non-sensitive leaves are preserved (the spec-side
relation `specScrubRel`). -/
theorem C5_persistence_scrubs (ops : List PersistOp) :
    (∀ p ∈ (runPersistOps PersistState.empty ops).logs, noRawSecret p.2 = true) ∧
    (∀ p ∈ (runPersistOps PersistState.empty ops).states, noRawSecret p.2 = true) ∧
    (∀ v : J, noRawSecret (scrubSensitive v) = true ∧
      specScrubRel v (scrubSensitive v) = true) := by
  have h0 : PersistOk PersistState.empty := by
    constructor
    · intro p hp
      simp [PersistState.empty] at hp
    · intro p hp
      simp [PersistState.empty] at hp
  have h := persistOk_run h0 ops
  exact ⟨h.1, h.2, fun v => ⟨noRawSecret_scrub v, specScrubRel_scrub v⟩⟩

/-- The operation list exercised by the C5 witness. -/
def c5ops : List PersistOp :=
  [PersistOp.appendLog "audit"
    (J.obj [("api_key", J.str "sk-live-1234"), ("note", J.str "hello")]),
   PersistOp.saveState "workflow_state"
    (J.obj [("settings", J.obj [("authorization", J.str "Bearer xyz")])])]

/-- C5 witness: appending a log line whose item holds an API key and saving a
state snapshot holding a bearer token leaves only redacted values on disk. -/
theorem C5_persistence_scrubs_witness :
    ("audit", J.obj [("api_key", J.str "<redacted>"), ("note", J.str "hello")]) ∈
      (runPersistOps PersistState.empty c5ops).logs ∧
    noRawSecret (J.obj [("api_key", J.str "<redacted>"), ("note", J.str "hello")]) = true ∧
    ("workflow_state",
      J.obj [("settings", J.obj [("authorization", J.str "<redacted>")])]) ∈
      (runPersistOps PersistState.empty c5ops).states :=
  ⟨by decide,
   (C5_persistence_scrubs c5ops).1
     ("audit", J.obj [("api_key", J.str "<redacted>"), ("note", J.str "hello")]) (by decide),
   by decide⟩

/-! ## Lookup and update lemmas on J objects -/

theorem lookup_setEntries_self (kvs : List (String × J)) (k : String) (v : J) :
    (J.obj (J.setEntries kvs k v)).lookup k = some v := by
  induction kvs with
  | nil => simp [J.setEntries, J.lookup]
  | cons hd tl ih =>
      by_cases hk : (hd.1 == k) = true
      · simp [J.setEntries, hk, J.lookup, List.find?]
      · simp only [J.setEntries, hk, Bool.false_eq_true, if_false]
        simp only [J.lookup, List.find?, hk] at ih ⊢
        exact ih

theorem lookup_setEntries_other (kvs : List (String × J)) (k k' : String) (v : J)
    (h : k' ≠ k) :
    (J.obj (J.setEntries kvs k v)).lookup k' = (J.obj kvs).lookup k' := by
  induction kvs with
  | nil =>
      simp only [J.setEntries, J.lookup, List.find?]
      have : (k == k') = false := by
        simp [BEq.comm]
        exact fun hc => h hc.symm
      simp [this]
  | cons hd tl ih =>
      by_cases hk : (hd.1 == k) = true
      · have hk2 : hd.1 = k := by simpa using hk
        simp only [J.setEntries, hk, if_true]
        simp only [J.lookup, List.find?]
        have : (hd.1 == k') = false := by
          simp [hk2]
          exact fun hc => h hc.symm
        simp [this]
      · simp only [J.setEntries, hk, Bool.false_eq_true, if_false]
        simp only [J.lookup, List.find?] at ih ⊢
        by_cases hk' : (hd.1 == k') = true
        · simp [hk']
        · simp only [hk', Bool.false_eq_true, if_false]
          exact ih

theorem lookup_set_self (kvs : List (String × J)) (k : String) (v : J) :
    ((J.obj kvs).set k v).lookup k = some v := by
  simp only [J.set]
  exact lookup_setEntries_self kvs k v

theorem lookup_set_other (kvs : List (String × J)) (k k' : String) (v : J) (h : k' ≠ k) :
    ((J.obj kvs).set k v).lookup k' = (J.obj kvs).lookup k' := by
  simp only [J.set]
  exact lookup_setEntries_other kvs k k' v h

/-! ## C6: heartbeat after lease expiry -/

/-- A registry record whose lease expired at epoch 10. -/
def c6rec : NodeRecord :=
  { descriptor :=
      { node_id := "n1", node_version := "0.1.0", endpoint_url := "inproc://n1",
        supported_protocol_versions := [PROTOCOL_VERSION], capabilities := [c4capZ],
        requires := [], priority := 100, auth := [] },
    handler := none, lease_token := "L", expires_at_epoch := 10,
    registered_at := "r", last_heartbeat_at := "h" }

/-- C6 counterexample: at time 20 the lease of `c6rec` is expired
(`expires_at ≤ now`), yet a heartbeat with the correct lease token succeeds
with `ok:true` and no error code, because `heartbeat` looks the record up
without pruning: the record is not destroyed merely by its expiry time
passing. -/
theorem C6_counterexample :
    c6rec.expires_at_epoch ≤ 20 ∧
    (heartbeat [c6rec] 20 15 "n1" "L").1.getD "ok" J.null = J.bool true ∧
    (heartbeat [c6rec] 20 15 "n1" "L").1.lookup "code" = none ∧
    (heartbeat [c6rec] 20 15 "n1" "L").2.map (fun r => r.expires_at_epoch) = [35] := by
  refine ⟨by decide, ?_, ?_, ?_⟩
  · rfl
  · rfl
  · rfl

/-- C6 as amended: the record is destroyed by a prune, not by expiry itself.
Once `prune_stale` has run at a time past the expiry of every record carrying
the node id (as every registry read does), a subsequent heartbeat returns
`ok:false` with code `E_NODE_NOT_REGISTERED`. -/
theorem C6_heartbeat_after_prune (records : RegistryRecords) (t now ttl : Int)
    (node_id lease_token : String)
    (hall : ∀ r ∈ records, r.descriptor.node_id = node_id → r.expires_at_epoch ≤ t) :
    heartbeat (pruneStale records t) now ttl node_id lease_token =
      (J.obj [("ok", J.bool false), ("error", J.str "node not registered"),
              ("code", J.str E_NODE_NOT_REGISTERED)], pruneStale records t) := by
  have hfind : findRecord (pruneStale records t) node_id = none := by
    rw [findRecord, List.find?_eq_none]
    intro r hr
    have hmem := List.mem_filter.mp hr
    intro hbeq
    have hid : r.descriptor.node_id = node_id := by simpa using hbeq
    have hexp := hall r hmem.1 hid
    have : ¬(r.expires_at_epoch ≤ t) := by simpa using hmem.2
    exact this hexp
  unfold heartbeat
  rw [hfind]

/-- C6 witness: pruning at time 20 destroys the expired record, after which
the heartbeat is rejected with `E_NODE_NOT_REGISTERED`. -/
theorem C6_heartbeat_after_prune_witness :
    heartbeat (pruneStale [c6rec] 20) 20 15 "n1" "L" =
      (J.obj [("ok", J.bool false), ("error", J.str "node not registered"),
              ("code", J.str E_NODE_NOT_REGISTERED)], pruneStale [c6rec] 20) :=
  C6_heartbeat_after_prune [c6rec] 20 20 15 "n1" "L" (by
    intro r hr hid
    simp only [List.mem_singleton] at hr
    subst hr
    decide)

/-! ## C10: approval.resolve overwrites any existing record -/

theorem makeResponse_ok (intent : String) (payload : J) (parent : Option J) :
    ∃ resp, makeResponse intent payload parent none = Except.ok resp ∧
      resp.lookup "intent" = some (J.str intent) ∧
      resp.lookup "payload" = some payload := by
  cases parent with
  | none =>
      refine ⟨_, rfl, ?_, ?_⟩ <;> simp [makeResponse, J.lookup]
  | some p =>
      by_cases hp : p.truthy = true
      · refine ⟨J.obj [("protocol_version", J.str PROTOCOL_VERSION),
          ("message_id", J.str NEW_UUID), ("intent", J.str intent), ("payload", payload),
          ("extensions", J.obj [("trace", J.obj [("parent_message_id", p),
            ("depth", J.num 1), ("path", J.arr [])])])], ?_, ?_, ?_⟩
        · simp [makeResponse, ensureTrace, ensureExtensions, setdefaultJ, pyOr, hp,
            J.lookup, J.set, J.setEntries, J.getD, pyInt]
        · simp [J.lookup]
        · simp [J.lookup]
      · refine ⟨J.obj [("protocol_version", J.str PROTOCOL_VERSION),
          ("message_id", J.str NEW_UUID), ("intent", J.str intent),
          ("payload", payload)], ?_, ?_, ?_⟩
        · simp [makeResponse, hp]
        · simp [J.lookup]
        · simp [J.lookup]

/-- Objects stay objects under `J.set`. -/
theorem set_isObj {o : J} (h : o.isObj = true) (k : String) (v : J) :
    (o.set k v).isObj = true := by
  cases o <;> simp [J.set, J.isObj] at h ⊢

theorem lookup_set_self2 {o : J} (h : o.isObj = true) (k : String) (v : J) :
    (o.set k v).lookup k = some v := by
  cases o <;> try simp [J.isObj] at h
  exact lookup_setEntries_self _ k v

theorem lookup_set_other2 {o : J} (h : o.isObj = true) {k k' : String} (v : J)
    (hne : k' ≠ k) : (o.set k v).lookup k' = o.lookup k' := by
  cases o <;> try simp [J.isObj] at h
  exact lookup_setEntries_other _ k k' v hne

/-- C10: `approval.resolve` does not require the target record to be pending.
For any existing record that passes the source's `if not record:` truthiness
guard (i.e. any non-empty record — every record `approval.request` creates),
whatever its current status (approved, denied or pending), a resolve request
with a decision in the set {approved, denied} overwrites status, decision and
resolved_at, and returns an `approval.resolved` response echoing the new
decision in both the record body and the confirmation block. -/
theorem C10_resolve_overwrites (state message : J) (pkvs : List (String × J))
    (rid d : String) (record : J)
    (hIntent : message.lookup "intent" = some (J.str "approval.resolve"))
    (hPay : message.getD "payload" (J.obj []) = J.obj pkvs)
    (hRid : (J.obj pkvs).getD "request_id" (J.str "") = J.str rid)
    (hRidT : sTrim rid = rid) (hRidNe : rid ≠ "")
    (hDec : (J.obj pkvs).getD "decision" (J.str "") = J.str d)
    (hD : d = "approved" ∨ d = "denied")
    (hRec : getApprovalRequest state rid = some record)
    (hRT : record.truthy = true) :
    ∃ resp state2, approvalHandle state message = Except.ok (resp, state2) ∧
      resp.lookup "intent" = some (J.str "approval.resolved") ∧
      (∃ rp, resp.lookup "payload" = some rp ∧
        rp.lookup "status" = some (J.str d) ∧
        rp.lookup "decision" = some (J.str d) ∧
        rp.lookup "resolved_at" = some (J.str NOW_ISO) ∧
        (∃ conf, rp.lookup "confirmation" = some conf ∧
          conf.lookup "status" = some (J.str d) ∧
          conf.lookup "request_id" = some (J.str rid))) ∧
      (∃ rec2, getApprovalRequest state2 rid = some rec2 ∧
        rec2.lookup "status" = some (J.str d) ∧
        rec2.lookup "decision" = some (J.str d) ∧
        rec2.lookup "resolved_at" = some (J.str NOW_ISO)) := by
  obtain ⟨skvs, reqKvs, rkvs, hstate, hreq, hl, hrecord⟩ :
      ∃ skvs reqKvs rkvs, state = J.obj skvs ∧
        (J.obj skvs).lookup "requests" = some (J.obj reqKvs) ∧
        (J.obj reqKvs).lookup rid = some (J.obj rkvs) ∧ record = J.obj rkvs := by
    unfold getApprovalRequest at hRec
    cases state with
    | obj skvs =>
        cases hq : (J.obj skvs).lookup "requests" with
        | none =>
            simp only [J.getD, hq, Option.getD_none] at hRec
            simp [J.lookup] at hRec
        | some rv =>
            simp only [J.getD, hq, Option.getD_some] at hRec
            cases rv with
            | obj reqKvs =>
                have hRec2 : (match (J.obj reqKvs).lookup rid with
                  | some (J.obj item) => some (J.obj item)
                  | _ => none) = some record := hRec
                cases hl : (J.obj reqKvs).lookup rid with
                | none =>
                    rw [hl] at hRec2
                    cases hRec2
                | some r =>
                    rw [hl] at hRec2
                    cases r with
                    | obj ikvs =>
                        refine ⟨skvs, reqKvs, ikvs, rfl, hq, hl, ?_⟩
                        injection hRec2 with h
                        exact h.symm
                    | null => cases hRec2
                    | bool b => cases hRec2
                    | num n => cases hRec2
                    | str s => cases hRec2
                    | arr xs => cases hRec2
            | null => cases hRec
            | bool b => cases hRec
            | num n => cases hRec
            | str s => cases hRec
            | arr xs => cases hRec
    | null => simp [J.getD, J.lookup] at hRec
    | bool b => simp [J.getD, J.lookup] at hRec
    | num n => simp [J.getD, J.lookup] at hRec
    | str s => simp [J.getD, J.lookup] at hRec
    | arr xs => simp [J.getD, J.lookup] at hRec
  subst hstate
  subst hrecord
  have hreqD : (J.obj skvs).getD "requests" (J.obj []) = J.obj reqKvs := by
    simp [J.getD, hreq]
  have hdl : sLower (sTrim d) = d := by
    rcases hD with hd | hd <;> subst hd <;> decide
  have hguard : ¬(d ≠ "approved" ∧ d ≠ "denied") := by
    rcases hD with hd | hd <;> simp [hd]
  obtain ⟨resp, hmk, hint, hpayl⟩ := makeResponse_ok "approval.resolved"
    (((((((J.obj rkvs).set "status" (J.str d)).set "decision" (J.str d)).set
      "resolved_at" (J.str NOW_ISO)).set "decision_note"
        (J.str (J.pyStr ((J.obj pkvs).getD "decision_note" (J.str ""))))).set
      "decided_by" (J.str (J.pyStr ((J.obj pkvs).getD "decided_by" (J.str "owner"))))).set
      "confirmation" (J.obj [("required", J.bool true), ("status", J.str d),
        ("request_id", J.str rid)]))
    (message.lookup "message_id")
  have hhandle : approvalHandle (J.obj skvs) message = Except.ok (resp,
      (J.obj skvs).set "requests" ((J.obj reqKvs).set rid
        ((((((J.obj rkvs).set "status" (J.str d)).set "decision" (J.str d)).set
          "resolved_at" (J.str NOW_ISO)).set "decision_note"
            (J.str (J.pyStr ((J.obj pkvs).getD "decision_note" (J.str ""))))).set
          "decided_by" (J.str (J.pyStr ((J.obj pkvs).getD "decided_by" (J.str "owner"))))))) := by
    have hg1 : ((some (J.str "approval.resolve") == some (J.str "approval.request"))) =
        false := by decide
    have hg2 : ((some (J.str "approval.resolve") == some (J.str "approval.resolve"))) =
        true := by decide
    have hps1 : J.pyStr (J.str rid) = rid := rfl
    have hps2 : J.pyStr (J.str d) = d := rfl
    unfold approvalHandle
    simp only [hIntent, hg1, hg2, hPay, J.isObj, hRid, hDec, hps1, hps2, hRidT, hdl, hreqD,
      Bool.false_eq_true, Bool.not_true, Bool.not_false, if_false, if_true]
    rw [if_neg hRidNe, if_neg hguard, hRec]
    simp only []
    rw [if_neg (by simp [hRT])]
    simp only [hmk]
  refine ⟨resp, _, hhandle, hint, ?_, ?_⟩
  · have o0 : (J.obj rkvs).isObj = true := rfl
    have o1 := set_isObj o0 "status" (J.str d)
    have o2 := set_isObj o1 "decision" (J.str d)
    have o3 := set_isObj o2 "resolved_at" (J.str NOW_ISO)
    have o4 := set_isObj o3 "decision_note"
      (J.str (J.pyStr ((J.obj pkvs).getD "decision_note" (J.str ""))))
    have o5 := set_isObj o4 "decided_by"
      (J.str (J.pyStr ((J.obj pkvs).getD "decided_by" (J.str "owner"))))
    refine ⟨_, hpayl, ?_, ?_, ?_, ?_⟩
    · rw [lookup_set_other2 o5 _ (by decide), lookup_set_other2 o4 _ (by decide),
        lookup_set_other2 o3 _ (by decide), lookup_set_other2 o2 _ (by decide),
        lookup_set_other2 o1 _ (by decide)]
      exact lookup_set_self2 o0 "status" (J.str d)
    · rw [lookup_set_other2 o5 _ (by decide), lookup_set_other2 o4 _ (by decide),
        lookup_set_other2 o3 _ (by decide), lookup_set_other2 o2 _ (by decide)]
      exact lookup_set_self2 o1 "decision" (J.str d)
    · rw [lookup_set_other2 o5 _ (by decide), lookup_set_other2 o4 _ (by decide),
        lookup_set_other2 o3 _ (by decide)]
      exact lookup_set_self2 o2 "resolved_at" (J.str NOW_ISO)
    · refine ⟨_, lookup_set_self2 o5 "confirmation" _, ?_, ?_⟩ <;> simp [J.lookup]
  · have o0 : (J.obj rkvs).isObj = true := rfl
    have o1 := set_isObj o0 "status" (J.str d)
    have o2 := set_isObj o1 "decision" (J.str d)
    have o3 := set_isObj o2 "resolved_at" (J.str NOW_ISO)
    have o4 := set_isObj o3 "decision_note"
      (J.str (J.pyStr ((J.obj pkvs).getD "decision_note" (J.str ""))))
    have hupdObj : ((((((J.obj rkvs).set "status" (J.str d)).set "decision" (J.str d)).set
        "resolved_at" (J.str NOW_ISO)).set "decision_note"
          (J.str (J.pyStr ((J.obj pkvs).getD "decision_note" (J.str ""))))).set
        "decided_by" (J.str (J.pyStr ((J.obj pkvs).getD "decided_by" (J.str "owner"))))) =
        J.obj (J.setEntries
          (J.setEntries (J.setEntries (J.setEntries (J.setEntries rkvs "status" (J.str d))
            "decision" (J.str d)) "resolved_at" (J.str NOW_ISO)) "decision_note"
              (J.str (J.pyStr ((J.obj pkvs).getD "decision_note" (J.str "")))))
          "decided_by" (J.str (J.pyStr ((J.obj pkvs).getD "decided_by" (J.str "owner"))))) :=
      rfl
    refine ⟨J.obj (J.setEntries
        (J.setEntries (J.setEntries (J.setEntries (J.setEntries rkvs "status" (J.str d))
          "decision" (J.str d)) "resolved_at" (J.str NOW_ISO)) "decision_note"
            (J.str (J.pyStr ((J.obj pkvs).getD "decision_note" (J.str "")))))
        "decided_by" (J.str (J.pyStr ((J.obj pkvs).getD "decided_by" (J.str "owner"))))),
      ?_, ?_, ?_, ?_⟩
    · unfold getApprovalRequest
      have hs2 : ((J.obj skvs).set "requests" ((J.obj reqKvs).set rid
          ((((((J.obj rkvs).set "status" (J.str d)).set "decision" (J.str d)).set
            "resolved_at" (J.str NOW_ISO)).set "decision_note"
              (J.str (J.pyStr ((J.obj pkvs).getD "decision_note" (J.str ""))))).set
            "decided_by"
              (J.str (J.pyStr ((J.obj pkvs).getD "decided_by" (J.str "owner"))))))).getD
          "requests" (J.obj []) = ((J.obj reqKvs).set rid
          ((((((J.obj rkvs).set "status" (J.str d)).set "decision" (J.str d)).set
            "resolved_at" (J.str NOW_ISO)).set "decision_note"
              (J.str (J.pyStr ((J.obj pkvs).getD "decision_note" (J.str ""))))).set
            "decided_by"
              (J.str (J.pyStr ((J.obj pkvs).getD "decided_by" (J.str "owner")))))) := by
        simp [J.getD, J.set, lookup_setEntries_self]
      rw [hs2, hupdObj]
      simp only [J.set]
      rw [lookup_setEntries_self]
    · rw [lookup_setEntries_other _ _ _ _ (by decide),
        lookup_setEntries_other _ _ _ _ (by decide),
        lookup_setEntries_other _ _ _ _ (by decide),
        lookup_setEntries_other _ _ _ _ (by decide)]
      exact lookup_setEntries_self rkvs "status" (J.str d)
    · rw [lookup_setEntries_other _ _ _ _ (by decide),
        lookup_setEntries_other _ _ _ _ (by decide),
        lookup_setEntries_other _ _ _ _ (by decide)]
      exact lookup_setEntries_self _ "decision" (J.str d)
    · rw [lookup_setEntries_other _ _ _ _ (by decide),
        lookup_setEntries_other _ _ _ _ (by decide)]
      exact lookup_setEntries_self _ "resolved_at" (J.str NOW_ISO)

/-- The approvals state used by the C10 witness: request appr-1 was already
resolved as approved. -/
def c10state : J :=
  J.obj [("requests", J.obj [("appr-1", J.obj
    [("request_id", J.str "appr-1"), ("intent_being_guarded", J.str "memory.write"),
     ("changes", J.arr [J.str "notes.md"]), ("status", J.str "approved"),
     ("requested_at", J.str NOW_ISO), ("resolved_at", J.str NOW_ISO),
     ("decision", J.str "approved"), ("decision_note", J.str "")])])]

/-- The resolve message used by the C10 witness: flip appr-1 to denied. -/
def c10msg : J :=
  J.obj [("protocol_version", J.str PROTOCOL_VERSION), ("message_id", J.str "m-c10"),
    ("intent", J.str "approval.resolve"),
    ("payload", J.obj [("request_id", J.str "appr-1"), ("decision", J.str "denied")])]

/-- C10 witness: a request that is already approved is flipped to denied by a
later resolve; the response and the stored record both echo the new
decision. -/
theorem C10_resolve_overwrites_witness :
    ∃ resp state2, approvalHandle c10state c10msg = Except.ok (resp, state2) ∧
      resp.lookup "intent" = some (J.str "approval.resolved") ∧
      (∃ rp, resp.lookup "payload" = some rp ∧
        rp.lookup "status" = some (J.str "denied") ∧
        rp.lookup "decision" = some (J.str "denied") ∧
        rp.lookup "resolved_at" = some (J.str NOW_ISO) ∧
        (∃ conf, rp.lookup "confirmation" = some conf ∧
          conf.lookup "status" = some (J.str "denied") ∧
          conf.lookup "request_id" = some (J.str "appr-1"))) ∧
      (∃ rec2, getApprovalRequest state2 "appr-1" = some rec2 ∧
        rec2.lookup "status" = some (J.str "denied") ∧
        rec2.lookup "decision" = some (J.str "denied") ∧
        rec2.lookup "resolved_at" = some (J.str NOW_ISO)) :=
  C10_resolve_overwrites c10state c10msg
    [("request_id", J.str "appr-1"), ("decision", J.str "denied")] "appr-1" "denied"
    (J.obj [("request_id", J.str "appr-1"), ("intent_being_guarded", J.str "memory.write"),
      ("changes", J.arr [J.str "notes.md"]), ("status", J.str "approved"),
      ("requested_at", J.str NOW_ISO), ("resolved_at", J.str NOW_ISO),
      ("decision", J.str "approved"), ("decision_note", J.str "")])
    (by decide) (by decide) (by decide) (by decide) (by decide) (by decide)
    (Or.inr rfl) (by decide) (by decide)

/-! ## Trace and stamping lemmas for the route loop -/

/-- The trace path of a message, as the claims read it. -/
def tracePathOf (m : J) : Option J :=
  ((messageExtensions m).getD "trace" (J.obj [])).lookup "path"

/-- The trace block of a message. -/
def traceOf (m : J) : Option J :=
  (messageExtensions m).lookup "trace"

/-- The llm block of a message. -/
def llmOf (m : J) : Option J :=
  (messageExtensions m).lookup "llm"

theorem setEntries_ne_nil (kvs : List (String × J)) (k : String) (v : J) :
    J.setEntries kvs k v ≠ [] := by
  cases kvs with
  | nil => simp [J.setEntries]
  | cons hd tl =>
      by_cases hk : (hd.1 == k) = true <;> simp [J.setEntries, hk]

theorem messageExtensions_set {kvs : List (String × J)} {ext : J} {m : J}
    (hm : m = (J.obj kvs).set "extensions" ext) (hne : ext.isObj = true)
    (hnonempty : ext != J.obj []) :
    messageExtensions m = ext := by
  subst hm
  cases ext <;> try simp [J.isObj] at hne
  rename_i extKvs
  have hx : extKvs ≠ [] := by
    intro hc
    subst hc
    simp at hnonempty
  unfold messageExtensions
  rw [J.getD, lookup_set_self2 (show (J.obj kvs).isObj = true from rfl)]
  simp only [Option.getD_some, pyOr, J.truthy]
  rw [if_pos (by simpa using hx)]

theorem setdefaultJ_snd_isObj {o : J} (h : o.isObj = true) (k : String) (d : J) :
    (setdefaultJ o k d).2.isObj = true := by
  unfold setdefaultJ
  cases hl : o.lookup k with
  | none => simpa using set_isObj h k d
  | some v => simpa using h

theorem lookup_some_isObj {x : J} {k : String} {v : J} (h : x.lookup k = some v) :
    x.isObj = true := by
  cases x <;> simp [J.lookup, J.isObj] at h ⊢

theorem set_bne_empty {o : J} (h : o.isObj = true) (k : String) (v : J) :
    (o.set k v != J.obj []) = true := by
  cases o <;> simp [J.isObj] at h ⊢
  rename_i kvs
  simp [J.set, bne_iff_ne]
  intro hc
  exact absurd hc (setEntries_ne_nil kvs k v)

/-- The success shape of `ensure_trace`: the result's extensions carry a trace
block whose path gained the hop at its end and whose depth is an integer. -/
theorem ensureTrace_ok_shape {m : J} {mid : Option J} {hop : String} {m2 : J}
    (hok : ensureTrace m mid (some hop) = Except.ok m2) (hhop : hop ≠ "") :
    ∃ T : J, traceOf m2 = some T ∧ T.isObj = true ∧
      (∃ xs : List J, T.lookup "path" = some (J.arr (xs ++ [J.str hop]))) ∧
      (∃ d : Int, T.lookup "depth" = some (J.num d)) := by
  unfold ensureTrace at hok
  simp only [if_pos hhop] at hok
  generalize hgen : ensureExtensions m = m1 at hok
  split at hok
  case h_2 => simp at hok
  case h_1 extV extKvs hext =>
    split at hok
    case h_2 => simp at hok
    case h_1 tdV traceKvs htd =>
      split at hok
      case h_1 => simp at hok
      case h_2 dep d hdep =>
        split at hok
        case h_2 => simp at hok
        case h_1 pv xs hpath =>
          injection hok with hok2
          have hm1o : m1.isObj = true := lookup_some_isObj hext
          cases m1 with
          | null => simp [J.isObj] at hm1o
          | bool b => simp [J.isObj] at hm1o
          | num n => simp [J.isObj] at hm1o
          | str s2 => simp [J.isObj] at hm1o
          | arr a => simp [J.isObj] at hm1o
          | obj m1kvs =>
            have htd2o : (setdefaultJ (J.obj extKvs) "trace"
                (J.obj [("parent_message_id",
                  pyOr (mid.getD J.null) ((J.obj m1kvs).getD "message_id" J.null)),
                  ("depth", J.num 0), ("path", J.arr [])])).2.isObj = true :=
              setdefaultJ_snd_isObj (show (J.obj extKvs).isObj = true from rfl) _ _
            have ht1o := setdefaultJ_snd_isObj (show (J.obj traceKvs).isObj = true from rfl)
              "parent_message_id"
              (pyOr (mid.getD J.null) ((J.obj m1kvs).getD "message_id" J.null))
            have ht2o := setdefaultJ_snd_isObj ht1o "depth" (J.num 0)
            have ht3o := setdefaultJ_snd_isObj ht2o "path" (J.arr [])
            have ht4o := set_isObj ht3o "depth" (J.num (d + 1))
            refine ⟨_, ?_, set_isObj ht4o "path" (J.arr (xs ++ [J.str hop])), ⟨xs,
              lookup_set_self2 ht4o _ _⟩, ⟨d + 1, ?_⟩⟩
            · unfold traceOf
              have hE := @messageExtensions_set m1kvs
                ((setdefaultJ (J.obj extKvs) "trace"
                  (J.obj [("parent_message_id",
                    pyOr (mid.getD J.null) ((J.obj m1kvs).getD "message_id" J.null)),
                    ("depth", J.num 0), ("path", J.arr [])])).2.set "trace"
                  (((setdefaultJ (setdefaultJ (setdefaultJ (J.obj traceKvs)
                    "parent_message_id" (pyOr (mid.getD J.null)
                      ((J.obj m1kvs).getD "message_id" J.null))).2
                    "depth" (J.num 0)).2 "path" (J.arr [])).2.set "depth"
                      (J.num (d + 1))).set "path" (J.arr (xs ++ [J.str hop]))))
                m2 hok2.symm (set_isObj htd2o _ _) (set_bne_empty htd2o _ _)
              rw [hE]
              exact lookup_set_self2 htd2o _ _
            · rw [lookup_set_other2 ht4o _ (by decide)]
              exact lookup_set_self2 ht3o _ _

theorem traceOf_some_shape {m : J} {T : J} (h : traceOf m = some T) :
    ∃ ekvs : List (String × J), m.lookup "extensions" = some (J.obj ekvs) ∧ ekvs ≠ [] ∧
      (J.obj ekvs).lookup "trace" = some T := by
  unfold traceOf messageExtensions at h
  cases hE : m.lookup "extensions" with
  | none =>
      rw [J.getD, hE] at h
      simp [pyOr, J.truthy, J.lookup] at h
  | some E =>
      rw [J.getD, hE, Option.getD_some] at h
      by_cases htr : E.truthy = true
      · rw [pyOr, if_pos htr] at h
        have hEo : E.isObj = true := lookup_some_isObj h
        cases E <;> simp [J.isObj] at hEo
        rename_i ekvs
        refine ⟨ekvs, rfl, ?_, h⟩
        intro hc
        subst hc
        simp [J.truthy] at htr
      · rw [pyOr, if_neg htr] at h
        simp [J.lookup] at h

/-- The success shape of the provider stamping: the trace block is untouched
and the llm block carries the four resolved fields. -/
theorem stampLlm_shape {traced out2 : J} {sel : LLMSelection} {T : J}
    (hT : traceOf traced = some T)
    (hst : stampLlm traced sel = Except.ok out2) :
    traceOf out2 = some T ∧
    ∃ L : J, llmOf out2 = some L ∧
      L.lookup "provider" = some (J.str sel.provider) ∧
      L.lookup "model" = some (J.str sel.model) ∧
      L.lookup "provider_source" = some (J.str sel.provider_source) ∧
      L.lookup "model_source" = some (J.str sel.model_source) := by
  obtain ⟨ekvs, hE, hEne, hTr⟩ := traceOf_some_shape hT
  have hto : traced.isObj = true := lookup_some_isObj hE
  unfold stampLlm at hst
  rw [show setdefaultJ traced "extensions" (J.obj []) = (J.obj ekvs, traced) by
    unfold setdefaultJ
    rw [hE]] at hst
  simp only [] at hst
  split at hst
  case h_2 => simp at hst
  case h_1 llmV llmKvs hllm =>
    injection hst with hst2
    have hl0o : (J.obj llmKvs).isObj = true := rfl
    have hl1o := set_isObj hl0o "provider" (J.str sel.provider)
    have hl2o := set_isObj hl1o "model" (J.str sel.model)
    have hl3o := set_isObj hl2o "provider_source" (J.str sel.provider_source)
    have hl4o := set_isObj hl3o "model_source" (J.str sel.model_source)
    have hsd2o : (setdefaultJ (J.obj ekvs) "llm" (J.obj [])).2.isObj = true :=
      setdefaultJ_snd_isObj (show (J.obj ekvs).isObj = true from rfl) "llm" (J.obj [])
    have hE2 : messageExtensions out2 = (setdefaultJ (J.obj ekvs) "llm" (J.obj [])).2.set
        "llm" ((((J.obj llmKvs).set "provider" (J.str sel.provider)).set "model"
          (J.str sel.model)).set "provider_source" (J.str sel.provider_source) |>.set
          "model_source" (J.str sel.model_source)) := by
      cases traced <;> simp [J.isObj] at hto
      rename_i tkvs
      exact @messageExtensions_set tkvs _ out2 hst2.symm (set_isObj hsd2o _ _)
        (set_bne_empty hsd2o _ _)
    constructor
    · unfold traceOf
      rw [hE2, lookup_set_other2 hsd2o _ (by decide)]
      have : (setdefaultJ (J.obj ekvs) "llm" (J.obj [])).2.lookup "trace" =
          (J.obj ekvs).lookup "trace" := by
        unfold setdefaultJ
        cases hlk : (J.obj ekvs).lookup "llm" with
        | none =>
            simp only []
            exact lookup_set_other2 (show (J.obj ekvs).isObj = true from rfl) _ (by decide)
        | some v => simp only []
      rw [this, hTr]
    · refine ⟨(((J.obj llmKvs).set "provider" (J.str sel.provider)).set "model"
          (J.str sel.model)).set "provider_source" (J.str sel.provider_source) |>.set
          "model_source" (J.str sel.model_source), ?_, ?_, ?_, ?_, ?_⟩
      · unfold llmOf
        rw [hE2]
        exact lookup_set_self2 hsd2o _ _
      · rw [lookup_set_other2 hl3o _ (by decide), lookup_set_other2 hl2o _ (by decide),
          lookup_set_other2 hl1o _ (by decide)]
        exact lookup_set_self2 hl0o _ _
      · rw [lookup_set_other2 hl3o _ (by decide), lookup_set_other2 hl2o _ (by decide)]
        exact lookup_set_self2 hl1o _ _
      · rw [lookup_set_other2 hl3o _ (by decide)]
        exact lookup_set_self2 hl2o _ _
      · exact lookup_set_self2 hl3o _ _


/-- A nonempty filtered list comes from a nonempty list. -/
theorem filter_isEmpty_false {α : Type} {p : α → Bool} {l : List α}
    (h : (l.filter p).isEmpty = false) : l.isEmpty = false := by
  cases l with
  | nil => simp [List.filter] at h
  | cons a t => rfl

/-- The shape of every outbound message built inside the candidate loop:
`ensure_trace` with hop "router.core", then the llm stamping when a
disclosure was resolved. -/
def OutboundShape (message : J) (msgId : Option J) (disclosure : Option LLMSelection)
    (out : J) : Prop :=
  ∃ traced, ensureTrace message msgId (some "router.core") = Except.ok traced ∧
    match disclosure with
    | none => out = traced
    | some sel => stampLlm traced sel = Except.ok out

/-- Every invocation recorded by the candidate loop either predates the loop or
carries an outbound message of the loop shape. -/
theorem tryCandidates_invocations
    {httpPost : String → J → Lib → Except String J × Lib} {message : J} {msgId : Option J}
    {intent : String} {disclosure : Option LLMSelection} :
    ∀ {recs : List NodeRecord} {log : RouteLog} {res : Option J × RouteLog},
      tryCandidates httpPost message msgId intent disclosure recs log = Except.ok res →
      ∀ inv ∈ res.2.invocations, inv ∈ log.invocations ∨
        OutboundShape message msgId disclosure inv.outbound := by
  intro recs
  induction recs with
  | nil =>
      intro log res h inv hmem
      unfold tryCandidates at h
      injection h with h2
      subst h2
      exact Or.inl hmem
  | cons rec rest ih =>
      intro log res h inv hmem
      unfold tryCandidates at h
      simp only [] at h
      split at h
      case h_1 => simp at h
      case h_2 traced heq =>
        split at h
        case h_1 => simp at h
        case h_2 outbound hst =>
          have hshape : OutboundShape message msgId disclosure outbound := by
            refine ⟨traced, heq, ?_⟩
            cases disclosure with
            | none =>
                have hst2 : Except.ok (ε := String) traced = Except.ok outbound := hst
                injection hst2 with h2
                exact h2.symm
            | some sel => exact hst
          split at h
          case h_1 hnd =>
            split at h
            case isTrue =>
              rcases ih h inv hmem with hm | hs
              · exact Or.inl hm
              · exact Or.inr hs
            case isFalse =>
              split at h
              case h_1 down entry retry hcl =>
                rcases ih h inv hmem with hm | hs
                · rcases List.mem_append.mp hm with hm1 | hm2
                  · exact Or.inl hm1
                  · rw [List.mem_singleton] at hm2
                    exact Or.inr (by rw [hm2]; exact hshape)
                · exact Or.inr hs
              case h_2 response hcl =>
                injection h with h2
                subst h2
                rcases List.mem_append.mp hmem with hm1 | hm2
                · exact Or.inl hm1
                · rw [List.mem_singleton] at hm2
                  exact Or.inr (by rw [hm2]; exact hshape)
          case h_2 hnd hh =>
            split at h
            case h_1 down entry retry hcl =>
              rcases ih h inv hmem with hm | hs
              · rcases List.mem_append.mp hm with hm1 | hm2
                · exact Or.inl hm1
                · rw [List.mem_singleton] at hm2
                  exact Or.inr (by rw [hm2]; exact hshape)
              · exact Or.inr hs
            case h_2 response hcl =>
              injection h with h2
              subst h2
              rcases List.mem_append.mp hmem with hm1 | hm2
              · exact Or.inl hm1
              · rw [List.mem_singleton] at hm2
                exact Or.inr (by rw [hm2]; exact hshape)


/-! ## C1: confirmation gating -/

/-- A mutating capability guarded by approval, for the C1 scenarios. -/
def c1cap : CapabilityMetadata :=
  { name := "memory.write", description := "w", input_schema := J.obj [],
    risk_class := "mutate", required_extensions := [], approval_required := true,
    examples := ["x"], idempotency := "non_idempotent", side_effect_scope := "file",
    capability_version := "0.1.0", provider := none }

/-- The descriptor of the node claiming `memory.write`. -/
def c1desc : NodeDescriptor :=
  { node_id := "node.x", node_version := "1.0.0", endpoint_url := "inproc://x",
    supported_protocol_versions := ["0.1"], capabilities := [c1cap],
    requires := [], priority := 100, auth := [] }

/-- The response the in-process handler returns. -/
def c1resp : J := J.obj
  [("protocol_version", J.str "0.1"), ("message_id", J.str "r-1"),
   ("intent", J.str "memory.write.applied"), ("payload", J.obj [])]

/-- A registered node whose handler answers `c1resp` without touching the
library. -/
def c1rec : NodeRecord :=
  { descriptor := c1desc, handler := some (fun _ lib => (Except.ok c1resp, lib)),
    lease_token := "t", expires_at_epoch := 100, registered_at := "r",
    last_heartbeat_at := "h" }

/-- An empty config resolver (no env, no user config). -/
def c1cfg : ConfigResolver := { env := [], user_config := J.obj [] }

/-- A transport that always fails; the C1 node is in-process, so it is never
reached. -/
def c1http : String → J → Lib → Except String J × Lib :=
  fun _ _ lib => (Except.error "network", lib)

/-- A mutation whose confirmation status is the upper-case string "APPROVED",
which is not the string "approved". -/
def c1msgShout : J := J.obj
  [("protocol_version", J.str "0.1"), ("message_id", J.str "m-1"),
   ("intent", J.str "memory.write"), ("payload", J.obj []),
   ("extensions", J.obj [("confirmation", J.obj [("status", J.str "APPROVED")])])]

/-- A mutation whose confirmation status is "pending". -/
def c1msgPending : J := J.obj
  [("protocol_version", J.str "0.1"), ("message_id", J.str "m-2"),
   ("intent", J.str "memory.write"), ("payload", J.obj []),
   ("extensions", J.obj [("confirmation", J.obj [("status", J.str "pending")])])]

/-- C1 counterexample: the capability is declared with approval_required=true
and the message's `extensions.confirmation.status` is "APPROVED", which is not
the string "approved"; yet the router does not fail closed: the node handler is
invoked (one invocation, node marked healthy) and its response is returned,
because `_check_confirmation` lowercases the status before comparing. -/
theorem C1_counterexample :
    capabilityMetadata [c1rec] 0 "memory.write" = some c1cap ∧
    c1cap.approval_required = true ∧
    ((messageExtensions c1msgShout).getD "confirmation" J.null).getD "status" J.null
      = J.str "APPROVED" ∧
    J.str "APPROVED" ≠ J.str "approved" ∧
    (route c1cfg c1http [c1rec] 0 none c1msgShout).toOption.map
      (fun p => (p.1 == c1resp, p.2.served, p.2.invocations.length, p.2.healthUpdates))
      = some (true, some "node.x", 1, [("node.x", true)]) := by
  refine ⟨by decide, rfl, by decide, by decide, by decide⟩

/-- C1 (amended): for a capability whose canonical metadata declares
approval_required=true, routing a message whose lowercased stringified
`extensions.confirmation.status` is not "approved" returns the
E_CONFIRMATION_REQUIRED error envelope with the empty effect log over the
starting library state: no node handler is invoked, no event is emitted, no
health is updated and the library is untouched. -/
theorem C1_approval_gate_fails_closed
    (cfg : ConfigResolver) (httpPost : String → J → Lib → Except String J × Lib)
    (records : RegistryRecords) (now : Int) (lib : Lib) (message : J) (intent : String)
    (meta : CapabilityMetadata)
    (hval : validateCore message = none)
    (hpv : message.lookup "protocol_version" = some (J.str PROTOCOL_VERSION))
    (hint : message.lookup "intent" = some (J.str intent))
    (hel : ((eligibleNodes records now intent PROTOCOL_VERSION).filter (fun rec =>
      ((requiredExtensionsFor rec intent).filter (fun req =>
        !(messageExtensions message).hasKey req)).isEmpty)).isEmpty = false)
    (hmeta : capabilityMetadata records now intent = some meta)
    (happ : meta.approval_required = true)
    (hstatus : confirmationStatusLower message ≠ "approved") :
    route cfg httpPost records now lib message =
      Except.ok (makeError E_CONFIRMATION_REQUIRED
        "Approval required before applying changes." (message.lookup "message_id")
        false none, RouteLog.start lib) := by
  have hcc : checkConfirmation message true = some (makeError E_CONFIRMATION_REQUIRED
      "Approval required before applying changes." (message.lookup "message_id")
      false none) := by
    unfold checkConfirmation
    rw [if_neg (by simp), if_pos hstatus]
  have hc : (eligibleNodes records now intent PROTOCOL_VERSION).isEmpty = false :=
    filter_isEmpty_false hel
  unfold route
  simp only [hval, hpv, hint]
  unfold routeValidated
  simp only []
  rw [if_neg (by simp)]
  rw [if_neg (by simp [hc])]
  rw [if_neg (by simp [hel])]
  simp only [hmeta, happ, hcc]

/-- C1 witness: routing the pending-confirmation mutation at the guarded node
yields exactly the confirmation error over the empty effect log. -/
theorem C1_approval_gate_fails_closed_witness :
    route c1cfg c1http [c1rec] 0 none c1msgPending =
      Except.ok (makeError E_CONFIRMATION_REQUIRED
        "Approval required before applying changes." (c1msgPending.lookup "message_id")
        false none, RouteLog.start none) :=
  C1_approval_gate_fails_closed c1cfg c1http [c1rec] 0 none c1msgPending "memory.write"
    c1cap (by decide) (by decide) (by decide) (by decide) (by decide) rfl (by decide)


/-! ## C9: trace propagation -/

/-- A read-only chat capability for the C9 scenarios. -/
def c9cap : CapabilityMetadata :=
  { name := "util.chat", description := "c", input_schema := J.obj [],
    risk_class := "read", required_extensions := [], approval_required := false,
    examples := ["x"], idempotency := "idempotent", side_effect_scope := "none",
    capability_version := "0.1.0", provider := none }

/-- The descriptor of the chat node. -/
def c9desc : NodeDescriptor :=
  { node_id := "node.chat", node_version := "1.0.0", endpoint_url := "inproc://chat",
    supported_protocol_versions := ["0.1"], capabilities := [c9cap],
    requires := [], priority := 100, auth := [] }

/-- A chat-style node: like `chat_general`, its handler builds the response
through `make_response`, which attaches a fresh trace (depth 1, empty path)
instead of extending the request trace. -/
def c9rec : NodeRecord :=
  { descriptor := c9desc,
    handler := some (fun m lib =>
      (makeResponse "util.chat.completed" (J.obj [("text", J.str "hi")])
        (m.lookup "message_id") none, lib)),
    lease_token := "t", expires_at_epoch := 100, registered_at := "r",
    last_heartbeat_at := "h" }

/-- The request routed in the C9 scenarios. -/
def c9msg : J := J.obj
  [("protocol_version", J.str "0.1"), ("message_id", J.str "m-9"),
   ("intent", J.str "util.chat"), ("payload", J.obj [])]

/-- C9 counterexample: the request is dispatched to `node.chat` (one
invocation, served), yet the returned response carries the fresh trace built by
`make_response`: its path is the empty list — containing neither "router.core"
nor the selected node id — and its depth is 1, not at least 2.  The router
never re-traces the response it returns. -/
theorem C9_counterexample :
    (route c1cfg c1http [c9rec] 0 none c9msg).toOption.map
      (fun p => (p.2.served, p.2.invocations.length, traceOf p.1))
      = some (some "node.chat", 1,
          some (J.obj [("parent_message_id", J.str "m-9"), ("depth", J.num 1),
            ("path", J.arr [])])) ∧
    ¬ (2 : Int) ≤ 1 :=
  ⟨by decide, by decide⟩

/-- C9 (amended): what the trace contract actually guarantees is on the
request side of the hop: every invocation recorded by the candidate loop sends
the node an outbound message whose trace block exists, whose path ends with
the hop "router.core", and whose depth is an integer.  The node's response is
a fresh envelope and inherits none of this. -/
theorem C9_outbound_trace_hop
    (httpPost : String → J → Lib → Except String J × Lib) (message : J) (msgId : Option J)
    (intent : String) (disclosure : Option LLMSelection) (recs : List NodeRecord) (lib : Lib)
    (res : Option J × RouteLog)
    (h : tryCandidates httpPost message msgId intent disclosure recs (RouteLog.start lib)
      = Except.ok res) :
    ∀ inv ∈ res.2.invocations, ∃ T : J, traceOf inv.outbound = some T ∧
      (∃ xs : List J, T.lookup "path" = some (J.arr (xs ++ [J.str "router.core"]))) ∧
      (∃ d : Int, T.lookup "depth" = some (J.num d)) := by
  intro inv hmem
  rcases tryCandidates_invocations h inv hmem with hm | hs
  · simp [RouteLog.start] at hm
  · obtain ⟨traced, htr, hrest⟩ := hs
    obtain ⟨T, hT, hTo, hpath, hdepth⟩ := ensureTrace_ok_shape htr (by decide)
    cases disclosure with
    | none =>
        have hout : inv.outbound = traced := hrest
        rw [hout]
        exact ⟨T, hT, hpath, hdepth⟩
    | some sel =>
        have hst : stampLlm traced sel = Except.ok inv.outbound := hrest
        obtain ⟨hT2, _⟩ := stampLlm_shape hT hst
        exact ⟨T, hT2, hpath, hdepth⟩

/-- The concrete loop result of the C9 scenario. -/
def c9res : Option J × RouteLog :=
  (tryCandidates c1http c9msg (some (J.str "m-9")) "util.chat" none [c9rec]
    (RouteLog.start none)).toOption.getD (none, RouteLog.start none)

/-- Its single recorded invocation. -/
def c9inv : Invocation :=
  match c9res.2.invocations with
  | i :: _ => i
  | [] => { node_id := "", outbound := J.null, beforeFp := none, libPre := none,
            libPost := none }

/-- C9 witness: the invocation recorded when routing `c9msg` carries an
outbound trace whose path ends with "router.core". -/
theorem C9_outbound_trace_hop_witness :
    ∃ T : J, traceOf c9inv.outbound = some T ∧
      (∃ xs : List J, T.lookup "path" = some (J.arr (xs ++ [J.str "router.core"]))) ∧
      (∃ d : Int, T.lookup "depth" = some (J.num d)) :=
  C9_outbound_trace_hop c1http c9msg (some (J.str "m-9")) "util.chat" none [c9rec] none
    c9res rfl c9inv (by decide)


/-! ## C8: provider pinning -/

/-- C8: the provider/model precedence of `select_llm` with its source tags,
the provider filter of `_filter_for_provider`, and the stamping of the
resolved disclosure onto every outbound message of the candidate loop:
(1) a valid request override wins with tag "request override";
(2) a valid user-config default provider wins next with tag "user config";
(3) otherwise a valid (lowercased, trimmed) environment value wins with tag
".env"; (4) otherwise the built-in "openrouter" fallback with tag "fallback";
(5) a nonempty request model override wins with tag "request override";
(6) a successful provider filter returns exactly `select_llm`'s choice and
retains only nodes whose capability provider tag equals the resolved provider;
(7) every invocation of the loop then carries the four resolved llm fields in
the outbound `extensions.llm` block. -/
theorem C8_provider_pinning (c : ConfigResolver) :
    (∀ kvs p, (J.obj kvs).lookup "provider" = some (J.str p) → p ∈ MODEL_PROVIDERS →
      (selectLlm c (some (J.obj kvs))).provider = p ∧
      (selectLlm c (some (J.obj kvs))).provider_source = "request override") ∧
    (∀ s, (llmCfg c).lookup "default_provider" = some (J.str s) → s ∈ MODEL_PROVIDERS →
      defaultProvider c = (s, "user config")) ∧
    ((∀ s, (llmCfg c).lookup "default_provider" = some (J.str s) → s ∉ MODEL_PROVIDERS) →
      sLower (sTrim (envGet c.env "BRAINDRIVE_DEFAULT_PROVIDER" "openrouter"))
        ∈ MODEL_PROVIDERS →
      defaultProvider c =
        (sLower (sTrim (envGet c.env "BRAINDRIVE_DEFAULT_PROVIDER" "openrouter")), ".env")) ∧
    ((∀ s, (llmCfg c).lookup "default_provider" = some (J.str s) → s ∉ MODEL_PROVIDERS) →
      sLower (sTrim (envGet c.env "BRAINDRIVE_DEFAULT_PROVIDER" "openrouter"))
        ∉ MODEL_PROVIDERS →
      defaultProvider c = (MODEL_PROVIDER_OPENROUTER, "fallback")) ∧
    (∀ kvs m, (J.obj kvs).lookup "model" = some (J.str m) → sTrim m ≠ "" →
      (selectLlm c (some (J.obj kvs))).model = sTrim m ∧
      (selectLlm c (some (J.obj kvs))).model_source = "request override") ∧
    (∀ nodes intent message filtered sel,
      filterForProvider c nodes intent message = (filtered, none, some sel) →
      sel = selectLlm c ((messageExtensions message).lookup "llm") ∧
      ∀ rec ∈ filtered, ∃ cap, metadataFor rec intent = some cap ∧
        cap.provider = some sel.provider) ∧
    (∀ httpPost message msgId intent sel recs lib res,
      tryCandidates httpPost message msgId intent (some sel) recs (RouteLog.start lib)
        = Except.ok res →
      ∀ inv ∈ res.2.invocations, ∃ L : J, llmOf inv.outbound = some L ∧
        L.lookup "provider" = some (J.str sel.provider) ∧
        L.lookup "model" = some (J.str sel.model) ∧
        L.lookup "provider_source" = some (J.str sel.provider_source) ∧
        L.lookup "model_source" = some (J.str sel.model_source)) := by
  refine ⟨?_, ?_, ?_, ?_, ?_, ?_, ?_⟩
  · intro kvs p hp hmem
    unfold selectLlm
    simp only [hp, if_pos hmem]
    exact ⟨trivial, trivial⟩
  · intro s hs hmem
    unfold defaultProvider
    simp only [hs, if_pos hmem]
  · intro hcfg henv
    unfold defaultProvider
    cases hc : (llmCfg c).lookup "default_provider" with
    | none => simp only [if_pos henv]
    | some v =>
        cases v with
        | str s =>
            have hnot := hcfg s hc
            simp only [if_neg hnot, if_pos henv]
        | null => simp only [if_pos henv]
        | bool b => simp only [if_pos henv]
        | num n => simp only [if_pos henv]
        | arr a => simp only [if_pos henv]
        | obj o => simp only [if_pos henv]
  · intro hcfg henv
    unfold defaultProvider
    cases hc : (llmCfg c).lookup "default_provider" with
    | none => simp only [if_neg henv]
    | some v =>
        cases v with
        | str s =>
            have hnot := hcfg s hc
            simp only [if_neg hnot, if_neg henv]
        | null => simp only [if_neg henv]
        | bool b => simp only [if_neg henv]
        | num n => simp only [if_neg henv]
        | arr a => simp only [if_neg henv]
        | obj o => simp only [if_neg henv]
  · intro kvs m hm hne
    unfold selectLlm
    simp only [hm, if_pos hne]
    exact ⟨trivial, trivial⟩
  · intro nodes intent message filtered sel hfil
    unfold filterForProvider at hfil
    split at hfil
    · injection hfil with h1 h2
      injection h2 with h2 h3
      simp at h3
    · simp only [] at hfil
      split at hfil
      · injection hfil with h1 h2
        injection h2 with h2 h3
        simp at h2
      · split at hfil
        · injection hfil with h1 h2
          injection h2 with h2 h3
          simp at h2
        · split at hfil
          case h_1 req hreq =>
            injection hfil with h1 h2
            injection h2 with h2 h3
            simp at h2
          case h_2 hreq =>
            split at hfil
            · injection hfil with h1 h2
              injection h2 with h2 h3
              simp at h2
            · injection hfil with h1 h2
              injection h2 with h2 h3
              injection h3 with h3
              subst h3
              constructor
              · rfl
              · intro rec hrec
                subst h1
                have hp := List.of_mem_filter hrec
                cases hmf : metadataFor rec intent with
                | none => rw [hmf] at hp; simp at hp
                | some cap =>
                    rw [hmf] at hp
                    simp only [] at hp
                    exact ⟨cap, rfl, eq_of_beq hp⟩
  · intro httpPost message msgId intent sel recs lib res h inv hmem
    rcases tryCandidates_invocations h inv hmem with hm | hs
    · simp [RouteLog.start] at hm
    · obtain ⟨traced, htr, hst⟩ := hs
      obtain ⟨T, hT, hTo, hpath, hdepth⟩ := ensureTrace_ok_shape htr (by decide)
      have hst2 : stampLlm traced sel = Except.ok inv.outbound := hst
      obtain ⟨hT2, L, hL, hp, hmo, hps, hms⟩ := stampLlm_shape hT hst2
      exact ⟨L, hL, hp, hmo, hps, hms⟩

/-- The config of the C8 scenario: openrouter is the environment default, and
ollama is reachable. -/
def c8cfg : ConfigResolver :=
  { env := [("BRAINDRIVE_DEFAULT_PROVIDER", "openrouter"),
            ("BRAINDRIVE_OLLAMA_BASE_URL", "http://localhost:11434"),
            ("BRAINDRIVE_OLLAMA_DEFAULT_MODEL", "llama3")],
    user_config := J.obj [] }

/-- The request llm override entries. -/
def c8extKvs : List (String × J) :=
  [("provider", J.str "ollama"), ("model", J.str "llama3")]

/-- The request llm override block. -/
def c8ext : J := J.obj c8extKvs

/-- The selection the override should resolve to. -/
def c8sel : LLMSelection :=
  { provider := "ollama", model := "llama3",
    provider_source := "request override", model_source := "request override" }

/-- A `model.chat.complete` request pinning ollama while the default is
openrouter. -/
def c8msg : J := J.obj
  [("protocol_version", J.str "0.1"), ("message_id", J.str "m-8"),
   ("intent", J.str "model.chat.complete"), ("payload", J.obj [("messages", J.arr [])]),
   ("extensions", J.obj [("llm", c8ext)])]

/-- The ollama-tagged chat capability. -/
def c8cap : CapabilityMetadata :=
  { name := "model.chat.complete", description := "chat", input_schema := J.obj [],
    risk_class := "read", required_extensions := [], approval_required := false,
    examples := ["x"], idempotency := "idempotent", side_effect_scope := "none",
    capability_version := "0.1.0", provider := some "ollama" }

/-- The descriptor of the ollama node. -/
def c8desc : NodeDescriptor :=
  { node_id := "node.ollama", node_version := "1.0.0", endpoint_url := "inproc://ollama",
    supported_protocol_versions := ["0.1"], capabilities := [c8cap],
    requires := [], priority := 100, auth := [] }

/-- The ollama node's canned response. -/
def c8resp : J := J.obj
  [("protocol_version", J.str "0.1"), ("message_id", J.str "r-8"),
   ("intent", J.str "model.chat.completed"),
   ("payload", J.obj [("provider", J.str "ollama")])]

/-- The registered ollama node. -/
def c8rec : NodeRecord :=
  { descriptor := c8desc, handler := some (fun _ lib => (Except.ok c8resp, lib)),
    lease_token := "t", expires_at_epoch := 100, registered_at := "r",
    last_heartbeat_at := "h" }

/-- The concrete loop result of the C8 scenario. -/
def c8res : Option J × RouteLog :=
  (tryCandidates c1http c8msg (some (J.str "m-8")) "model.chat.complete" (some c8sel)
    [c8rec] (RouteLog.start none)).toOption.getD (none, RouteLog.start none)

/-- Its single recorded invocation. -/
def c8inv : Invocation :=
  match c8res.2.invocations with
  | i :: _ => i
  | [] => { node_id := "", outbound := J.null, beforeFp := none, libPre := none,
            libPost := none }

/-- C8 witness: the ollama override resolves to ("ollama", "request override")
while the environment default is openrouter; the filter retains exactly the
ollama-tagged node; and the outbound message of the recorded invocation is
stamped with the four resolved llm fields. -/
theorem C8_provider_pinning_witness :
    ((selectLlm c8cfg (some c8ext)).provider = "ollama" ∧
     (selectLlm c8cfg (some c8ext)).provider_source = "request override") ∧
    defaultProvider c8cfg = ("openrouter", ".env") ∧
    ((selectLlm c8cfg (some c8ext)).model = "llama3" ∧
     (selectLlm c8cfg (some c8ext)).model_source = "request override") ∧
    (c8sel = selectLlm c8cfg ((messageExtensions c8msg).lookup "llm") ∧
     ∀ rec ∈ [c8rec], ∃ cap, metadataFor rec "model.chat.complete" = some cap ∧
       cap.provider = some c8sel.provider) ∧
    (∃ L : J, llmOf c8inv.outbound = some L ∧
      L.lookup "provider" = some (J.str c8sel.provider) ∧
      L.lookup "model" = some (J.str c8sel.model) ∧
      L.lookup "provider_source" = some (J.str c8sel.provider_source) ∧
      L.lookup "model_source" = some (J.str c8sel.model_source)) := by
  have h := C8_provider_pinning c8cfg
  refine ⟨h.1 c8extKvs "ollama" (by decide) (by decide), ?_, ?_, ?_, ?_⟩
  · exact h.2.2.1
      (by
        intro s hs
        rw [show (llmCfg c8cfg).lookup "default_provider" = none from rfl] at hs
        cases hs)
      (by decide)
  · exact h.2.2.2.2.1 c8extKvs "llama3" (by decide) (by decide)
  · exact h.2.2.2.2.2.1 [c8rec] "model.chat.complete" c8msg [c8rec] c8sel rfl
  · exact h.2.2.2.2.2.2 c1http c8msg (some (J.str "m-8")) "model.chat.complete" c8sel
      [c8rec] none c8res rfl c8inv (by decide)


/-! ## C3: filesystem fingerprint guard -/

/-- The fingerprint of the C3 library root. -/
def c3fp : Fp := [("notes.md", 10, 1)]

/-- The C3 library root: one file. -/
def c3lib : Lib := some c3fp

/-- A read-only capability with no declared side-effect scope. -/
def c3cap : CapabilityMetadata :=
  { name := "library.read", description := "r", input_schema := J.obj [],
    risk_class := "read", required_extensions := [], approval_required := false,
    examples := ["x"], idempotency := "idempotent", side_effect_scope := "none",
    capability_version := "0.1.0", provider := none }

/-- The descriptor of the library node. -/
def c3desc : NodeDescriptor :=
  { node_id := "node.lib", node_version := "1.0.0", endpoint_url := "inproc://lib",
    supported_protocol_versions := ["0.1"], capabilities := [c3cap],
    requires := [], priority := 100, auth := [] }

/-- A valid BDP response for the read. -/
def c3resp : J := J.obj
  [("protocol_version", J.str "0.1"), ("message_id", J.str "r-3"),
   ("intent", J.str "library.read.result"), ("payload", J.obj [])]

/-- A misbehaving read-only node that deletes the library root: after its call
the root no longer exists, so the after-fingerprint is None. -/
def c3recDel : NodeRecord :=
  { descriptor := c3desc, handler := some (fun _ _ => (Except.ok c3resp, none)),
    lease_token := "t", expires_at_epoch := 100, registered_at := "r",
    last_heartbeat_at := "h" }

/-- A misbehaving read-only node that modifies the file, so the
after-fingerprint exists but differs. -/
def c3recMut : NodeRecord :=
  { descriptor := c3desc,
    handler := some (fun _ _ => (Except.ok c3resp, some [("notes.md", 99, 2)])),
    lease_token := "t", expires_at_epoch := 100, registered_at := "r",
    last_heartbeat_at := "h" }

/-- The read request of the C3 scenarios. -/
def c3msg : J := J.obj
  [("protocol_version", J.str "0.1"), ("message_id", J.str "m-3"),
   ("intent", J.str "library.read"), ("payload", J.obj [])]

/-- C3 counterexample: on a risk_class="read" / side_effect_scope="none"
capability, the node deletes the whole library root during the call; the
before-fingerprint was taken (some c3fp) and the after-fingerprint (none)
differs from it, yet the router returns the node's response and marks the node
healthy, because the guard only fires when the after-fingerprint is not None
(`after_fp is not None and after_fp != before_fp`). -/
theorem C3_counterexample :
    c3cap.risk_class = "read" ∧ c3cap.side_effect_scope = "none" ∧
    (route c1cfg c1http [c3recDel] 0 c3lib c3msg).toOption.map
      (fun p => (p.1 == c3resp, p.2.served,
        p.2.invocations.map (fun i => (i.beforeFp, fingerprintLibrary i.libPost)),
        p.2.healthUpdates))
      = some (true, some "node.lib", [(some c3fp, none)], [("node.lib", true)]) ∧
    (none : Option Fp) ≠ some c3fp :=
  ⟨rfl, rfl, rfl, by decide⟩

/-- C3 (amended): (1) whenever the loop body serves a response that had a
before-fingerprint, the after-fingerprint is either None (the root vanished —
this divergence is NOT caught) or equal to the before-fingerprint; (2) when the
after-fingerprint exists and differs, the call is skipped as
"undeclared_side_effect" with the node marked unhealthy and the response is not
returned; (3) when the loop exhausts all candidates with no retryable error and
an undeclared_side_effect attempt on record, the route surfaces E_NODE_ERROR
for undeclared side effects. -/
theorem C3_fingerprint_guard :
    (∀ nid (b : Fp) (r : Except String J) (libAfter : Lib) (resp : J),
      classifyCall nid (some b) r libAfter = CallOutcome.serve resp →
      fingerprintLibrary libAfter = none ∨ fingerprintLibrary libAfter = some b) ∧
    (∀ nid (b : Fp) (resp : J) (libAfter : Lib),
      looksLikeBdp resp = true →
      fingerprintLibrary libAfter ≠ none → fingerprintLibrary libAfter ≠ some b →
      classifyCall nid (some b) (Except.ok resp) libAfter =
        CallOutcome.skip true
          (J.obj [("node_id", J.str nid), ("result", J.str "undeclared_side_effect")])
          none) ∧
    (∀ (cfg : ConfigResolver) (httpPost : String → J → Lib → Except String J × Lib)
      (records : RegistryRecords) (now : Int) (lib : Lib) (message : J) (intent : String)
      (filtered : List NodeRecord) (disclosure : Option LLMSelection) (log : RouteLog),
      ((eligibleNodes records now intent PROTOCOL_VERSION).filter (fun rec =>
        ((requiredExtensionsFor rec intent).filter (fun req =>
          !(messageExtensions message).hasKey req)).isEmpty)).isEmpty = false →
      checkConfirmation message
        (match capabilityMetadata records now intent with
         | some meta => meta.approval_required
         | none => false) = none →
      filterForProvider cfg ((eligibleNodes records now intent PROTOCOL_VERSION).filter
        (fun rec => ((requiredExtensionsFor rec intent).filter (fun req =>
          !(messageExtensions message).hasKey req)).isEmpty)) intent message
        = (filtered, none, disclosure) →
      tryCandidates httpPost message (message.lookup "message_id") intent disclosure
        (sortNodes filtered) (RouteLog.start lib) = Except.ok (none, log) →
      log.retryables = [] →
      log.attempted.any (fun a =>
        a.getD "result" J.null == J.str "undeclared_side_effect") = true →
      routeValidated cfg httpPost records now lib message PROTOCOL_VERSION intent =
        Except.ok (makeError E_NODE_ERROR
          "Execution failed due to undeclared side effects in read-only capability."
          (message.lookup "message_id") false
          (some (J.obj [("attempted", J.arr log.attempted)])), log)) := by
  refine ⟨?_, ?_, ?_⟩
  · intro nid b r libAfter resp h
    by_cases hA : fingerprintLibrary libAfter = none
    · exact Or.inl hA
    by_cases hB : fingerprintLibrary libAfter = some b
    · exact Or.inr hB
    exfalso
    unfold classifyCall at h
    cases r with
    | error e => exact CallOutcome.noConfusion h
    | ok response =>
        simp only [] at h
        have hd : (decide (fingerprintLibrary libAfter ≠ none) &&
            decide (fingerprintLibrary libAfter ≠ some b)) = true := by
          simp [hA, hB]
        by_cases hbdp : looksLikeBdp response = true
        · rw [if_neg (by simp [hbdp]), if_pos hd] at h
          exact CallOutcome.noConfusion h
        · rw [if_pos (by simp [Bool.not_eq_true] at hbdp ⊢; exact hbdp)] at h
          exact CallOutcome.noConfusion h
  · intro nid b resp libAfter hbdp hA hB
    unfold classifyCall
    simp only []
    have hd : (decide (fingerprintLibrary libAfter ≠ none) &&
        decide (fingerprintLibrary libAfter ≠ some b)) = true := by
      simp [hA, hB]
    rw [if_neg (by simp [hbdp]), if_pos hd]
  · intro cfg httpPost records now lib message intent filtered disclosure log
      hel hconf hfil htry hret hatt
    have hc : (eligibleNodes records now intent PROTOCOL_VERSION).isEmpty = false :=
      filter_isEmpty_false hel
    have hne : log.attempted.isEmpty = false := by
      cases hl : log.attempted with
      | nil => rw [hl] at hatt; simp at hatt
      | cons a t => rfl
    unfold routeValidated
    simp only []
    rw [if_neg (by simp)]
    rw [if_neg (by simp [hc])]
    rw [if_neg (by simp [hel])]
    simp only [hconf, hfil, htry, hret]
    rw [if_pos (by simp [hne]), if_pos hatt]

/-- The eligible-and-complete candidate list of the C3 divergence scenario. -/
def c3filtered : List NodeRecord :=
  (eligibleNodes [c3recMut] 0 "library.read" PROTOCOL_VERSION).filter (fun rec =>
    ((requiredExtensionsFor rec "library.read").filter (fun req =>
      !(messageExtensions c3msg).hasKey req)).isEmpty)

/-- The loop run of the C3 divergence scenario. -/
def c3try : Except String (Option J × RouteLog) :=
  tryCandidates c1http c3msg (c3msg.lookup "message_id") "library.read" none
    (sortNodes c3filtered) (RouteLog.start c3lib)

/-- Its final effect log. -/
def c3log : RouteLog := (c3try.toOption.getD (none, RouteLog.start c3lib)).2

/-- C3 witness: the root-deleting serve is only guaranteed after-none-or-equal;
the file-modifying call is skipped as undeclared_side_effect; and the full
route over the modifying node surfaces E_NODE_ERROR. -/
theorem C3_fingerprint_guard_witness :
    (fingerprintLibrary (none : Lib) = none ∨ fingerprintLibrary (none : Lib) = some c3fp) ∧
    classifyCall "node.lib" (some c3fp) (Except.ok c3resp) (some [("notes.md", 99, 2)]) =
      CallOutcome.skip true
        (J.obj [("node_id", J.str "node.lib"),
                ("result", J.str "undeclared_side_effect")]) none ∧
    routeValidated c1cfg c1http [c3recMut] 0 c3lib c3msg PROTOCOL_VERSION "library.read" =
      Except.ok (makeError E_NODE_ERROR
        "Execution failed due to undeclared side effects in read-only capability."
        (c3msg.lookup "message_id") false
        (some (J.obj [("attempted", J.arr c3log.attempted)])), c3log) :=
  ⟨C3_fingerprint_guard.1 "node.lib" c3fp (Except.ok c3resp) none c3resp rfl,
   C3_fingerprint_guard.2.1 "node.lib" c3fp c3resp (some [("notes.md", 99, 2)])
     (by decide) (by decide) (by decide),
   C3_fingerprint_guard.2.2 c1cfg c1http [c3recMut] 0 c3lib c3msg "library.read"
     c3filtered none c3log (by decide) (by decide) rfl rfl rfl (by decide)⟩

/-! ## C2: idempotent side effects in the async pipeline -/


/-- Reading back the key just written. -/
theorem get_setKey_self (st : RedisState) (k : String) (v : J) :
    (st.setKey k v).get k = some v := by
  unfold RedisState.get RedisState.setKey
  simp only []
  induction st.kv with
  | nil => simp [setAssoc, List.find?]
  | cons hd tl ih =>
      by_cases h : (hd.1 == k) = true
      · simp [setAssoc, h, List.find?]
      · simp only [setAssoc, h, if_false, Bool.false_eq_true]
        simp [List.find?, h] at ih ⊢
        exact ih

/-- Writing one key leaves lookups of other keys unchanged. -/
theorem find_setAssoc_other (kvs : List (String × J)) {k k' : String} (h : k' ≠ k)
    (v : J) :
    (setAssoc kvs k v).find? (fun kv => kv.1 == k') = kvs.find? (fun kv => kv.1 == k') := by
  induction kvs with
  | nil =>
      simp [setAssoc, List.find?, beq_false_of_ne (Ne.symm h)]
  | cons hd tl ih =>
      rcases hd with ⟨k0, v0⟩
      by_cases hh : (k0 == k) = true
      · have hk : k0 = k := eq_of_beq hh
        subst hk
        simp [setAssoc, List.find?, beq_false_of_ne (Ne.symm h)]
      · simp only [setAssoc, hh, Bool.false_eq_true, if_false]
        cases hk' : (k0 == k') with
        | true => simp [List.find?, hk']
        | false => simp [List.find?, hk', ih]

/-- `set` on one Redis key does not disturb another key. -/
theorem get_setKey_other (st : RedisState) {k k' : String} (h : k' ≠ k) (v : J) :
    (st.setKey k v).get k' = st.get k' := by
  unfold RedisState.get RedisState.setKey
  simp only []
  rw [find_setAssoc_other st.kv h v]

/-- `get` only depends on the key-value portion of the store. -/
theorem get_congr {st st' : RedisState} (h : st'.kv = st.kv) (k : String) :
    st'.get k = st.get k := by
  unfold RedisState.get
  rw [h]



/-- A duplicate delivery (idempotency key already present): the store's keys
are untouched, one duplicate_delivery event is appended and the result is
posted with duplicate=true carrying the cached response (or the synthesized
E_NODE_ERROR when none is cached). -/
theorem processDelivery_duplicate
    (ollama : J → Except String J) (envelope : J) (st : RedisState) (eff : WorkerEffects)
    {mkvs payloadKvs : List (String × J)} {attempt max_attempts : Int}
    {message_id : String} {v : J}
    (hatt : pyInt (envelope.getD "attempt" (J.num 0)) = some attempt)
    (hmax : pyInt (envelope.getD "max_attempts" (J.num WORKER_MAX_ATTEMPTS))
      = some max_attempts)
    (hmsg : envelope.getD "message" J.null = J.obj mkvs)
    (hid : J.pyStr ((J.obj mkvs).getD "message_id" (J.str "")) = message_id)
    (hne : message_id ≠ "")
    (hpv : (J.obj mkvs).getD "protocol_version" J.null = J.str PROTOCOL_VERSION)
    (hidn : (messageExtensions (J.obj mkvs)).hasKey "identity" = true)
    (hpay : (J.obj mkvs).getD "payload" (J.obj []) = J.obj payloadKvs)
    (hfe : ((J.obj payloadKvs).getD "force_error" (J.bool false)).truthy = false)
    (hdup : st.get ("bdp:idempotency:" ++ WORKER_NODE_ID ++ ":" ++ message_id) = some v) :
    processDelivery ollama envelope st eff = Except.ok
      (((st.appendEvent message_id "worker_received"
          (J.obj [("node_id", J.str WORKER_NODE_ID), ("attempt", J.num attempt)])).appendEvent
        message_id "duplicate_delivery"
          (J.obj [("node_id", J.str WORKER_NODE_ID), ("attempt", J.num attempt)])),
       sendResult (publishLog (publishLog eff message_id "worker_received"
          (J.obj [("node_id", J.str WORKER_NODE_ID), ("attempt", J.num attempt)]))
          message_id "duplicate_delivery"
          (J.obj [("node_id", J.str WORKER_NODE_ID), ("attempt", J.num attempt)]))
         message_id
         (match st.get ("bdp:node_response:" ++ WORKER_NODE_ID ++ ":" ++ message_id) with
          | some cached => cached
          | none => makeError "E_NODE_ERROR"
              ("Duplicate delivery but no cached response for " ++ WORKER_NODE_ID)
              (some (J.str message_id)) false none)
         attempt true false) := by
  have hdup' : (st.appendEvent message_id "worker_received"
      (J.obj [("node_id", J.str WORKER_NODE_ID), ("attempt", J.num attempt)])).get
        ("bdp:idempotency:" ++ WORKER_NODE_ID ++ ":" ++ message_id) = some v := by
    rw [get_congr rfl]
    exact hdup
  have hcget : (st.appendEvent message_id "worker_received"
      (J.obj [("node_id", J.str WORKER_NODE_ID), ("attempt", J.num attempt)])).get
        ("bdp:node_response:" ++ WORKER_NODE_ID ++ ":" ++ message_id) =
      st.get ("bdp:node_response:" ++ WORKER_NODE_ID ++ ":" ++ message_id) :=
    get_congr rfl _
  unfold processDelivery
  simp only [hatt, hmax, hmsg, hpay, hid]
  simp only [J.isObj, Bool.not_true, Bool.false_eq_true, if_false]
  rw [if_neg hne]
  simp only [hpv, bne_self_eq_false, Bool.false_eq_true, if_false]
  simp only [hidn, Bool.not_true, Bool.false_eq_true, if_false]
  simp only [hfe, Bool.false_eq_true, if_false]
  simp only [RedisState.setNx, hdup', hcget]
  simp only [Bool.false_eq_true, if_false]



/-- String concatenation is injective on the left. -/
theorem string_append_right_inj {a b c : String} (h : a ++ c = b ++ c) : a = b := by
  have h2 : a.data ++ c.data = b.data ++ c.data := by
    have h1 := congrArg String.data h
    simpa using h1
  have h3 := List.append_cancel_right h2
  cases a
  cases b
  exact congrArg String.mk h3

/-- The three per-message Redis keys of the worker are pairwise distinct. -/
theorem bdp_keys_ne (id : String) :
    ("bdp:idempotency:" ++ WORKER_NODE_ID ++ ":" ++ id ≠
     "bdp:side_effect:" ++ WORKER_NODE_ID ++ ":" ++ id) ∧
    ("bdp:idempotency:" ++ WORKER_NODE_ID ++ ":" ++ id ≠
     "bdp:node_response:" ++ WORKER_NODE_ID ++ ":" ++ id) ∧
    ("bdp:side_effect:" ++ WORKER_NODE_ID ++ ":" ++ id ≠
     "bdp:node_response:" ++ WORKER_NODE_ID ++ ":" ++ id) := by
  refine ⟨fun h => ?_, fun h => ?_, fun h => ?_⟩ <;>
    exact absurd (string_append_right_inj h) (by decide)

/-- First delivery of a valid echo envelope: the worker wins the idempotency
SETNX, performs the work once, sets the side-effect key to "1", caches the
response and posts the result with duplicate=false. -/
theorem processDelivery_first
    (ollama : J → Except String J) (envelope : J) (st : RedisState) (eff : WorkerEffects)
    {mkvs payloadKvs : List (String × J)} {attempt max_attempts : Int}
    {message_id : String} {resp : J}
    (hatt : pyInt (envelope.getD "attempt" (J.num 0)) = some attempt)
    (hmax : pyInt (envelope.getD "max_attempts" (J.num WORKER_MAX_ATTEMPTS))
      = some max_attempts)
    (hmsg : envelope.getD "message" J.null = J.obj mkvs)
    (hid : J.pyStr ((J.obj mkvs).getD "message_id" (J.str "")) = message_id)
    (hne : message_id ≠ "")
    (hpv : (J.obj mkvs).getD "protocol_version" J.null = J.str PROTOCOL_VERSION)
    (hidn : (messageExtensions (J.obj mkvs)).hasKey "identity" = true)
    (hpay : (J.obj mkvs).getD "payload" (J.obj []) = J.obj payloadKvs)
    (hfe : ((J.obj payloadKvs).getD "force_error" (J.bool false)).truthy = false)
    (hint : J.pyStr ((J.obj mkvs).getD "intent" (J.str "")) = "echo")
    (hecho : buildEchoResponse (J.obj mkvs) = Except.ok resp)
    (hnew : st.get ("bdp:idempotency:" ++ WORKER_NODE_ID ++ ":" ++ message_id) = none) :
    processDelivery ollama envelope st eff = Except.ok
      (((((st.appendEvent message_id "worker_received"
            (J.obj [("node_id", J.str WORKER_NODE_ID), ("attempt", J.num attempt)])).setKey
          ("bdp:idempotency:" ++ WORKER_NODE_ID ++ ":" ++ message_id) (J.str "1")).setKey
          ("bdp:side_effect:" ++ WORKER_NODE_ID ++ ":" ++ message_id) (J.str "1")).setKey
          ("bdp:node_response:" ++ WORKER_NODE_ID ++ ":" ++ message_id) resp).appendEvent
          message_id "worker_completed"
          (J.obj [("node_id", J.str WORKER_NODE_ID), ("attempt", J.num attempt),
                  ("intent", resp.getD "intent" J.null)]),
       sendResult (publishLog (publishLog eff message_id "worker_received"
            (J.obj [("node_id", J.str WORKER_NODE_ID), ("attempt", J.num attempt)]))
          message_id "worker_completed"
          (J.obj [("node_id", J.str WORKER_NODE_ID), ("attempt", J.num attempt),
                  ("intent", resp.getD "intent" J.null)]))
         message_id resp attempt false false) := by
  have hnew' : (st.appendEvent message_id "worker_received"
      (J.obj [("node_id", J.str WORKER_NODE_ID), ("attempt", J.num attempt)])).get
        ("bdp:idempotency:" ++ WORKER_NODE_ID ++ ":" ++ message_id) = none := by
    rw [get_congr rfl]
    exact hnew
  unfold processDelivery
  simp only [hatt, hmax, hmsg, hpay, hid]
  simp only [J.isObj, Bool.not_true, Bool.false_eq_true, if_false]
  rw [if_neg hne]
  simp only [hpv, bne_self_eq_false, Bool.false_eq_true, if_false]
  simp only [hidn, Bool.not_true, Bool.false_eq_true, if_false]
  simp only [hfe, Bool.false_eq_true, if_false]
  simp only [RedisState.setNx, hnew']
  simp only [eq_self_iff_true, if_true, hint]
  rw [if_neg (by decide)]
  simp only [hecho]



/-- `n` consecutive deliveries of the same envelope. -/
def deliverTimes (ollama : J → Except String J) (envelope : J) :
    Nat → RedisState × WorkerEffects → Except String (RedisState × WorkerEffects)
  | 0, se => Except.ok se
  | n + 1, se =>
      match processDelivery ollama envelope se.1 se.2 with
      | Except.error e => Except.error e
      | Except.ok se2 => deliverTimes ollama envelope n se2

/-- Once the idempotency key is present, any number of further deliveries
leaves the key-value store unchanged. -/
theorem deliverTimes_duplicates
    (ollama : J → Except String J) (envelope : J)
    {mkvs payloadKvs : List (String × J)} {attempt max_attempts : Int}
    {message_id : String}
    (hatt : pyInt (envelope.getD "attempt" (J.num 0)) = some attempt)
    (hmax : pyInt (envelope.getD "max_attempts" (J.num WORKER_MAX_ATTEMPTS))
      = some max_attempts)
    (hmsg : envelope.getD "message" J.null = J.obj mkvs)
    (hid : J.pyStr ((J.obj mkvs).getD "message_id" (J.str "")) = message_id)
    (hne : message_id ≠ "")
    (hpv : (J.obj mkvs).getD "protocol_version" J.null = J.str PROTOCOL_VERSION)
    (hidn : (messageExtensions (J.obj mkvs)).hasKey "identity" = true)
    (hpay : (J.obj mkvs).getD "payload" (J.obj []) = J.obj payloadKvs)
    (hfe : ((J.obj payloadKvs).getD "force_error" (J.bool false)).truthy = false) :
    ∀ (n : Nat) (st : RedisState) (eff : WorkerEffects) (v : J),
      st.get ("bdp:idempotency:" ++ WORKER_NODE_ID ++ ":" ++ message_id) = some v →
      ∃ st' eff', deliverTimes ollama envelope n (st, eff) = Except.ok (st', eff') ∧
        st'.kv = st.kv := by
  intro n
  induction n with
  | zero =>
      intro st eff v hv
      exact ⟨st, eff, rfl, rfl⟩
  | succ n ih =>
      intro st eff v hv
      have hstep := processDelivery_duplicate ollama envelope st eff hatt hmax hmsg hid
        hne hpv hidn hpay hfe hv
      obtain ⟨st', eff', hrun, hkv⟩ := ih
        ((st.appendEvent message_id "worker_received"
          (J.obj [("node_id", J.str WORKER_NODE_ID), ("attempt", J.num attempt)])).appendEvent
          message_id "duplicate_delivery"
          (J.obj [("node_id", J.str WORKER_NODE_ID), ("attempt", J.num attempt)]))
        (sendResult (publishLog (publishLog eff message_id "worker_received"
            (J.obj [("node_id", J.str WORKER_NODE_ID), ("attempt", J.num attempt)]))
            message_id "duplicate_delivery"
            (J.obj [("node_id", J.str WORKER_NODE_ID), ("attempt", J.num attempt)]))
          message_id
          (match st.get ("bdp:node_response:" ++ WORKER_NODE_ID ++ ":" ++ message_id) with
           | some cached => cached
           | none => makeError "E_NODE_ERROR"
               ("Duplicate delivery but no cached response for " ++ WORKER_NODE_ID)
               (some (J.str message_id)) false none)
          attempt true false)
        v (by rw [get_congr rfl]; exact hv)
      refine ⟨st', eff', ?_, ?_⟩
      · unfold deliverTimes
        rw [hstep]
        exact hrun
      · exact hkv.trans rfl



/-- C2: for a valid echo envelope, (1) the first delivery — the one that wins
set-if-absent on the idempotency key — performs the work, sets
bdp:side_effect:<node>:<id> to "1", caches the response and posts
duplicate=false; (2) every duplicate delivery leaves the key-value store
(including the side-effect key) untouched, appends a duplicate_delivery event
and posts duplicate=true with the cached response or a synthesized
E_NODE_ERROR; (3) hence after any number n+1 of deliveries the side-effect key
equals "1". -/
theorem C2_idempotent_side_effect
    (ollama : J → Except String J) (envelope : J) (st : RedisState) (eff : WorkerEffects)
    {mkvs payloadKvs : List (String × J)} {attempt max_attempts : Int}
    {message_id : String} {resp : J}
    (hatt : pyInt (envelope.getD "attempt" (J.num 0)) = some attempt)
    (hmax : pyInt (envelope.getD "max_attempts" (J.num WORKER_MAX_ATTEMPTS))
      = some max_attempts)
    (hmsg : envelope.getD "message" J.null = J.obj mkvs)
    (hid : J.pyStr ((J.obj mkvs).getD "message_id" (J.str "")) = message_id)
    (hne : message_id ≠ "")
    (hpv : (J.obj mkvs).getD "protocol_version" J.null = J.str PROTOCOL_VERSION)
    (hidn : (messageExtensions (J.obj mkvs)).hasKey "identity" = true)
    (hpay : (J.obj mkvs).getD "payload" (J.obj []) = J.obj payloadKvs)
    (hfe : ((J.obj payloadKvs).getD "force_error" (J.bool false)).truthy = false)
    (hint : J.pyStr ((J.obj mkvs).getD "intent" (J.str "")) = "echo")
    (hecho : buildEchoResponse (J.obj mkvs) = Except.ok resp) :
    (st.get ("bdp:idempotency:" ++ WORKER_NODE_ID ++ ":" ++ message_id) = none →
      ∃ st' eff', processDelivery ollama envelope st eff = Except.ok (st', eff') ∧
        st'.get ("bdp:side_effect:" ++ WORKER_NODE_ID ++ ":" ++ message_id)
          = some (J.str "1") ∧
        st'.get ("bdp:idempotency:" ++ WORKER_NODE_ID ++ ":" ++ message_id)
          = some (J.str "1") ∧
        st'.get ("bdp:node_response:" ++ WORKER_NODE_ID ++ ":" ++ message_id) = some resp ∧
        eff'.results = eff.results ++
          [J.obj [("message_id", J.str message_id), ("node_id", J.str WORKER_NODE_ID),
                  ("response", resp), ("attempt", J.num attempt),
                  ("duplicate", J.bool false), ("dead_lettered", J.bool false)]]) ∧
    (∀ v, st.get ("bdp:idempotency:" ++ WORKER_NODE_ID ++ ":" ++ message_id) = some v →
      ∃ st' eff' resp', processDelivery ollama envelope st eff = Except.ok (st', eff') ∧
        st'.kv = st.kv ∧
        st'.events = st.events ++
          [(message_id, "worker_received",
            J.obj [("node_id", J.str WORKER_NODE_ID), ("attempt", J.num attempt)]),
           (message_id, "duplicate_delivery",
            J.obj [("node_id", J.str WORKER_NODE_ID), ("attempt", J.num attempt)])] ∧
        eff'.results = eff.results ++
          [J.obj [("message_id", J.str message_id), ("node_id", J.str WORKER_NODE_ID),
                  ("response", resp'), ("attempt", J.num attempt),
                  ("duplicate", J.bool true), ("dead_lettered", J.bool false)]] ∧
        (st.get ("bdp:node_response:" ++ WORKER_NODE_ID ++ ":" ++ message_id) = some resp' ∨
         (st.get ("bdp:node_response:" ++ WORKER_NODE_ID ++ ":" ++ message_id) = none ∧
          resp' = makeError "E_NODE_ERROR"
            ("Duplicate delivery but no cached response for " ++ WORKER_NODE_ID)
            (some (J.str message_id)) false none))) ∧
    (∀ n : Nat, st.get ("bdp:idempotency:" ++ WORKER_NODE_ID ++ ":" ++ message_id) = none →
      ∃ st' eff', deliverTimes ollama envelope (n + 1) (st, eff) = Except.ok (st', eff') ∧
        st'.get ("bdp:side_effect:" ++ WORKER_NODE_ID ++ ":" ++ message_id)
          = some (J.str "1") ∧
        st'.get ("bdp:idempotency:" ++ WORKER_NODE_ID ++ ":" ++ message_id)
          = some (J.str "1")) := by
  have main1 : st.get ("bdp:idempotency:" ++ WORKER_NODE_ID ++ ":" ++ message_id) = none →
      ∃ st' eff', processDelivery ollama envelope st eff = Except.ok (st', eff') ∧
        st'.get ("bdp:side_effect:" ++ WORKER_NODE_ID ++ ":" ++ message_id)
          = some (J.str "1") ∧
        st'.get ("bdp:idempotency:" ++ WORKER_NODE_ID ++ ":" ++ message_id)
          = some (J.str "1") ∧
        st'.get ("bdp:node_response:" ++ WORKER_NODE_ID ++ ":" ++ message_id) = some resp ∧
        eff'.results = eff.results ++
          [J.obj [("message_id", J.str message_id), ("node_id", J.str WORKER_NODE_ID),
                  ("response", resp), ("attempt", J.num attempt),
                  ("duplicate", J.bool false), ("dead_lettered", J.bool false)]] := by
    intro hfresh
    have hstep := processDelivery_first ollama envelope st eff hatt hmax hmsg hid hne hpv
      hidn hpay hfe hint hecho hfresh
    refine ⟨_, _, hstep, ?_, ?_, ?_, rfl⟩
    · rw [get_congr (show (((((st.appendEvent message_id "worker_received"
          (J.obj [("node_id", J.str WORKER_NODE_ID), ("attempt", J.num attempt)])).setKey
          ("bdp:idempotency:" ++ WORKER_NODE_ID ++ ":" ++ message_id) (J.str "1")).setKey
          ("bdp:side_effect:" ++ WORKER_NODE_ID ++ ":" ++ message_id) (J.str "1")).setKey
          ("bdp:node_response:" ++ WORKER_NODE_ID ++ ":" ++ message_id) resp).appendEvent
          message_id "worker_completed"
          (J.obj [("node_id", J.str WORKER_NODE_ID), ("attempt", J.num attempt),
                  ("intent", resp.getD "intent" J.null)])).kv =
        ((((st.appendEvent message_id "worker_received"
          (J.obj [("node_id", J.str WORKER_NODE_ID), ("attempt", J.num attempt)])).setKey
          ("bdp:idempotency:" ++ WORKER_NODE_ID ++ ":" ++ message_id) (J.str "1")).setKey
          ("bdp:side_effect:" ++ WORKER_NODE_ID ++ ":" ++ message_id) (J.str "1")).setKey
          ("bdp:node_response:" ++ WORKER_NODE_ID ++ ":" ++ message_id) resp).kv from rfl)]
      rw [get_setKey_other _ (bdp_keys_ne message_id).2.2]
      exact get_setKey_self _ _ _
    · rw [get_congr (show (((((st.appendEvent message_id "worker_received"
          (J.obj [("node_id", J.str WORKER_NODE_ID), ("attempt", J.num attempt)])).setKey
          ("bdp:idempotency:" ++ WORKER_NODE_ID ++ ":" ++ message_id) (J.str "1")).setKey
          ("bdp:side_effect:" ++ WORKER_NODE_ID ++ ":" ++ message_id) (J.str "1")).setKey
          ("bdp:node_response:" ++ WORKER_NODE_ID ++ ":" ++ message_id) resp).appendEvent
          message_id "worker_completed"
          (J.obj [("node_id", J.str WORKER_NODE_ID), ("attempt", J.num attempt),
                  ("intent", resp.getD "intent" J.null)])).kv =
        ((((st.appendEvent message_id "worker_received"
          (J.obj [("node_id", J.str WORKER_NODE_ID), ("attempt", J.num attempt)])).setKey
          ("bdp:idempotency:" ++ WORKER_NODE_ID ++ ":" ++ message_id) (J.str "1")).setKey
          ("bdp:side_effect:" ++ WORKER_NODE_ID ++ ":" ++ message_id) (J.str "1")).setKey
          ("bdp:node_response:" ++ WORKER_NODE_ID ++ ":" ++ message_id) resp).kv from rfl)]
      rw [get_setKey_other _ (bdp_keys_ne message_id).2.1]
      rw [get_setKey_other _ (bdp_keys_ne message_id).1]
      exact get_setKey_self _ _ _
    · rw [get_congr (show (((((st.appendEvent message_id "worker_received"
          (J.obj [("node_id", J.str WORKER_NODE_ID), ("attempt", J.num attempt)])).setKey
          ("bdp:idempotency:" ++ WORKER_NODE_ID ++ ":" ++ message_id) (J.str "1")).setKey
          ("bdp:side_effect:" ++ WORKER_NODE_ID ++ ":" ++ message_id) (J.str "1")).setKey
          ("bdp:node_response:" ++ WORKER_NODE_ID ++ ":" ++ message_id) resp).appendEvent
          message_id "worker_completed"
          (J.obj [("node_id", J.str WORKER_NODE_ID), ("attempt", J.num attempt),
                  ("intent", resp.getD "intent" J.null)])).kv =
        ((((st.appendEvent message_id "worker_received"
          (J.obj [("node_id", J.str WORKER_NODE_ID), ("attempt", J.num attempt)])).setKey
          ("bdp:idempotency:" ++ WORKER_NODE_ID ++ ":" ++ message_id) (J.str "1")).setKey
          ("bdp:side_effect:" ++ WORKER_NODE_ID ++ ":" ++ message_id) (J.str "1")).setKey
          ("bdp:node_response:" ++ WORKER_NODE_ID ++ ":" ++ message_id) resp).kv from rfl)]
      exact get_setKey_self _ _ _
  refine ⟨main1, ?_, ?_⟩
  · intro v hv
    have hstep := processDelivery_duplicate ollama envelope st eff hatt hmax hmsg hid
      hne hpv hidn hpay hfe hv
    refine ⟨_, _,
      (match st.get ("bdp:node_response:" ++ WORKER_NODE_ID ++ ":" ++ message_id) with
       | some cached => cached
       | none => makeError "E_NODE_ERROR"
           ("Duplicate delivery but no cached response for " ++ WORKER_NODE_ID)
           (some (J.str message_id)) false none),
      hstep, rfl, by simp [RedisState.appendEvent], rfl, ?_⟩
    cases hc : st.get ("bdp:node_response:" ++ WORKER_NODE_ID ++ ":" ++ message_id) with
    | some c => exact Or.inl rfl
    | none => exact Or.inr ⟨rfl, rfl⟩
  · intro n hfresh
    obtain ⟨st1, eff1, hstep1, hside1, hidem1, hcached1, hres1⟩ := main1 hfresh
    obtain ⟨st', eff', hrun, hkv⟩ := deliverTimes_duplicates ollama envelope hatt hmax
      hmsg hid hne hpv hidn hpay hfe n st1 eff1 (J.str "1") hidem1
    refine ⟨st', eff', ?_, ?_, ?_⟩
    · unfold deliverTimes
      rw [hstep1]
      exact hrun
    · rw [get_congr hkv]
      exact hside1
    · rw [get_congr hkv]
      exact hidem1



/-- The entries of the C2 echo message. -/
def c2msgKvs : List (String × J) :=
  [("protocol_version", J.str "0.1"), ("message_id", J.str "m-2w"),
   ("intent", J.str "echo"),
   ("payload", J.obj [("text", J.str "hello")]),
   ("extensions", J.obj [("identity", J.obj [("actor_id", J.str "owner")])])]

/-- The C2 echo message. -/
def c2msg : J := J.obj c2msgKvs

/-- The delivered envelope (attempt 0 of 3). -/
def c2env : J := J.obj
  [("message", c2msg), ("attempt", J.num 0), ("max_attempts", J.num 3)]

/-- The Ollama oracle is never consulted for echo. -/
def c2oracle : J → Except String J := fun _ => Except.error "no ollama"

/-- The response the echo build produces for `c2msg`. -/
def c2resp : J := (buildEchoResponse c2msg).toOption.getD J.null

/-- A store in which the idempotency key is already taken. -/
def c2dupStore : RedisState :=
  RedisState.empty.setKey ("bdp:idempotency:" ++ WORKER_NODE_ID ++ ":" ++ "m-2w")
    (J.str "1")

/-- C2 witness: concrete first delivery, duplicate delivery, and three
consecutive deliveries of the echo envelope. -/
theorem C2_idempotent_side_effect_witness :
    (∃ st' eff', processDelivery c2oracle c2env RedisState.empty WorkerEffects.empty
        = Except.ok (st', eff') ∧
      st'.get ("bdp:side_effect:" ++ WORKER_NODE_ID ++ ":" ++ "m-2w") = some (J.str "1") ∧
      st'.get ("bdp:idempotency:" ++ WORKER_NODE_ID ++ ":" ++ "m-2w") = some (J.str "1") ∧
      st'.get ("bdp:node_response:" ++ WORKER_NODE_ID ++ ":" ++ "m-2w") = some c2resp ∧
      eff'.results = WorkerEffects.empty.results ++
        [J.obj [("message_id", J.str "m-2w"), ("node_id", J.str WORKER_NODE_ID),
                ("response", c2resp), ("attempt", J.num 0),
                ("duplicate", J.bool false), ("dead_lettered", J.bool false)]]) ∧
    (∃ st' eff' resp', processDelivery c2oracle c2env c2dupStore WorkerEffects.empty
        = Except.ok (st', eff') ∧
      st'.kv = c2dupStore.kv ∧
      st'.events = c2dupStore.events ++
        [("m-2w", "worker_received",
          J.obj [("node_id", J.str WORKER_NODE_ID), ("attempt", J.num 0)]),
         ("m-2w", "duplicate_delivery",
          J.obj [("node_id", J.str WORKER_NODE_ID), ("attempt", J.num 0)])] ∧
      eff'.results = WorkerEffects.empty.results ++
        [J.obj [("message_id", J.str "m-2w"), ("node_id", J.str WORKER_NODE_ID),
                ("response", resp'), ("attempt", J.num 0),
                ("duplicate", J.bool true), ("dead_lettered", J.bool false)]] ∧
      (c2dupStore.get ("bdp:node_response:" ++ WORKER_NODE_ID ++ ":" ++ "m-2w")
          = some resp' ∨
       (c2dupStore.get ("bdp:node_response:" ++ WORKER_NODE_ID ++ ":" ++ "m-2w") = none ∧
        resp' = makeError "E_NODE_ERROR"
          ("Duplicate delivery but no cached response for " ++ WORKER_NODE_ID)
          (some (J.str "m-2w")) false none))) ∧
    (∃ st' eff', deliverTimes c2oracle c2env 3 (RedisState.empty, WorkerEffects.empty)
        = Except.ok (st', eff') ∧
      st'.get ("bdp:side_effect:" ++ WORKER_NODE_ID ++ ":" ++ "m-2w") = some (J.str "1") ∧
      st'.get ("bdp:idempotency:" ++ WORKER_NODE_ID ++ ":" ++ "m-2w")
        = some (J.str "1")) := by
  have hA := @C2_idempotent_side_effect c2oracle c2env RedisState.empty WorkerEffects.empty c2msgKvs
    [("text", J.str "hello")] 0 3 "m-2w" c2resp (by decide) (by decide) (by decide)
    (by decide) (by decide) (by decide) (by decide) (by decide) (by decide) (by decide) rfl
  have hB := @C2_idempotent_side_effect c2oracle c2env c2dupStore WorkerEffects.empty c2msgKvs
    [("text", J.str "hello")] 0 3 "m-2w" c2resp (by decide) (by decide) (by decide)
    (by decide) (by decide) (by decide) (by decide) (by decide) (by decide) (by decide) rfl
  exact ⟨hA.1 rfl, hB.2.1 (J.str "1") rfl, hA.2.2 2 rfl⟩


/-! ## C7: retries and the dead-letter queue -/


/-- C7: for a force_error envelope, (1) while attempt + 1 < max_attempts the
worker republishes the envelope to the capability exchange with the attempt
incremented and appends retry_scheduled, posting no result; (2) once attempts
are exhausted it publishes the error-augmented envelope to the DLQ exchange,
caches a terminal E_NODE_TIMEOUT error response, appends
worker_dead_lettered, and posts the result with dead_lettered=true; (3) the
router's result handler records the final state "dlq" for such a result. -/
theorem C7_retry_and_dlq
    (ollama : J → Except String J) (envelope : J) (st : RedisState) (eff : WorkerEffects)
    {mkvs payloadKvs : List (String × J)} {attempt max_attempts : Int}
    {message_id : String}
    (hatt : pyInt (envelope.getD "attempt" (J.num 0)) = some attempt)
    (hmax : pyInt (envelope.getD "max_attempts" (J.num WORKER_MAX_ATTEMPTS))
      = some max_attempts)
    (hmsg : envelope.getD "message" J.null = J.obj mkvs)
    (hid : J.pyStr ((J.obj mkvs).getD "message_id" (J.str "")) = message_id)
    (hne : message_id ≠ "")
    (hpv : (J.obj mkvs).getD "protocol_version" J.null = J.str PROTOCOL_VERSION)
    (hidn : (messageExtensions (J.obj mkvs)).hasKey "identity" = true)
    (hpay : (J.obj mkvs).getD "payload" (J.obj []) = J.obj payloadKvs)
    (hfe : ((J.obj payloadKvs).getD "force_error" (J.bool false)).truthy = true) :
    (attempt + 1 < max_attempts →
      ∃ st' eff', processDelivery ollama envelope st eff = Except.ok (st', eff') ∧
        eff'.published = eff.published ++
          [(EX_CAPABILITY, "echo", J.obj
            [("message", J.obj mkvs), ("node_id", J.str WORKER_NODE_ID),
             ("routing_key", J.str "echo"), ("attempt", J.num (attempt + 1)),
             ("max_attempts", J.num max_attempts)])] ∧
        st'.events = st.events ++
          [(message_id, "worker_received",
            J.obj [("node_id", J.str WORKER_NODE_ID), ("attempt", J.num attempt)]),
           (message_id, "retry_scheduled",
            J.obj [("node_id", J.str WORKER_NODE_ID), ("attempt", J.num (attempt + 1))])] ∧
        eff'.results = eff.results ∧ st'.kv = st.kv) ∧
    (¬ attempt + 1 < max_attempts →
      ∃ st' eff', processDelivery ollama envelope st eff = Except.ok (st', eff') ∧
        eff'.published = eff.published ++
          [(EX_DLQ, "echo", J.obj
            [("message", J.obj mkvs), ("node_id", J.str WORKER_NODE_ID),
             ("attempt", J.num (attempt + 1)), ("dead_lettered", J.bool true),
             ("error", makeError E_NODE_TIMEOUT (WORKER_NODE_ID ++ " exceeded max attempts")
               (some (J.str message_id)) true
               (some (J.obj [("node_id", J.str WORKER_NODE_ID),
                 ("attempt", J.num (attempt + 1))])))])] ∧
        st'.events = st.events ++
          [(message_id, "worker_received",
            J.obj [("node_id", J.str WORKER_NODE_ID), ("attempt", J.num attempt)]),
           (message_id, "worker_dead_lettered",
            J.obj [("node_id", J.str WORKER_NODE_ID), ("attempt", J.num (attempt + 1))])] ∧
        st'.get ("bdp:node_response:" ++ WORKER_NODE_ID ++ ":" ++ message_id)
          = some (makeError E_NODE_TIMEOUT (WORKER_NODE_ID ++ " exceeded max attempts")
              (some (J.str message_id)) true
              (some (J.obj [("node_id", J.str WORKER_NODE_ID),
                ("attempt", J.num (attempt + 1))]))) ∧
        eff'.results = eff.results ++
          [J.obj [("message_id", J.str message_id), ("node_id", J.str WORKER_NODE_ID),
                  ("response", makeError E_NODE_TIMEOUT
                    (WORKER_NODE_ID ++ " exceeded max attempts")
                    (some (J.str message_id)) true
                    (some (J.obj [("node_id", J.str WORKER_NODE_ID),
                      ("attempt", J.num (attempt + 1))]))),
                  ("attempt", J.num (attempt + 1)),
                  ("duplicate", J.bool false), ("dead_lettered", J.bool true)]] ∧
        (∃ err, ((makeError E_NODE_TIMEOUT (WORKER_NODE_ID ++ " exceeded max attempts")
            (some (J.str message_id)) true
            (some (J.obj [("node_id", J.str WORKER_NODE_ID),
              ("attempt", J.num (attempt + 1))]))).getD "payload" (J.obj [])).lookup "error"
            = some err ∧
          err.lookup "code" = some (J.str E_NODE_TIMEOUT) ∧
          err.lookup "retryable" = some (J.bool true))) ∧
    (∀ (body : J) (rst : RedisState) (resp : J) (battempt : Int) (bmid : String),
      pyInt (body.getD "attempt" (J.num 0)) = some battempt →
      J.pyStr (body.getD "message_id" (J.str "")) = bmid →
      bmid ≠ "" →
      body.getD "response" J.null = resp →
      poc3LooksLikeBdp resp = true →
      resp.getD "intent" J.null = J.str "error" →
      (body.getD "dead_lettered" (J.bool false)).truthy = true →
      handleWorkerResult body rst = Except.ok
        ((rst.setStatus bmid "dlq"
          [("node_id", J.str (J.pyStr (body.getD "node_id" (J.str "unknown")))),
           ("response", resp),
           ("details", J.obj [("attempt", J.num battempt),
             ("duplicate", J.bool ((body.getD "duplicate" (J.bool false)).truthy)),
             ("dead_lettered", J.bool true)])]).appendEvent bmid "worker_result"
          (J.obj [("node_id", J.str (J.pyStr (body.getD "node_id" (J.str "unknown")))),
                  ("attempt", J.num battempt),
                  ("duplicate", J.bool ((body.getD "duplicate" (J.bool false)).truthy)),
                  ("dead_lettered", J.bool true),
                  ("response_intent", J.str "error")]))) := by
  refine ⟨?_, ?_, ?_⟩
  · intro hlt
    unfold processDelivery
    simp only [hatt, hmax, hmsg, hpay, hid]
    simp only [J.isObj, Bool.not_true, Bool.false_eq_true, if_false]
    rw [if_neg hne]
    simp only [hpv, bne_self_eq_false, Bool.false_eq_true, if_false]
    simp only [hidn, Bool.not_true, Bool.false_eq_true, if_false]
    simp only [hfe, if_true]
    rw [if_pos hlt]
    exact ⟨_, _, rfl, rfl, by simp [RedisState.appendEvent], rfl, rfl⟩
  · intro hge
    unfold processDelivery
    simp only [hatt, hmax, hmsg, hpay, hid]
    simp only [J.isObj, Bool.not_true, Bool.false_eq_true, if_false]
    rw [if_neg hne]
    simp only [hpv, bne_self_eq_false, Bool.false_eq_true, if_false]
    simp only [hidn, Bool.not_true, Bool.false_eq_true, if_false]
    simp only [hfe, if_true]
    rw [if_neg hge]
    refine ⟨_, _, rfl, rfl, by simp [RedisState.appendEvent, RedisState.setKey], ?_, rfl, ?_⟩
    · exact get_setKey_self _ _ _
    · refine ⟨J.obj [("code", J.str E_NODE_TIMEOUT),
        ("message", J.str (WORKER_NODE_ID ++ " exceeded max attempts")),
        ("retryable", J.bool true),
        ("details", J.obj [("node_id", J.str WORKER_NODE_ID),
          ("attempt", J.num (attempt + 1))])], ?_, ?_, ?_⟩ <;>
        simp [makeError, J.getD, J.lookup]
  · intro body rst resp battempt bmid hattb hmid hbne hresp hbdp herr hdead
    unfold handleWorkerResult
    simp only [hattb, hmid, hresp, hdead]
    rw [if_neg hbne]
    simp only [hbdp, Bool.not_true, Bool.false_eq_true, if_false]
    simp only [herr, beq_self_eq_true, if_true]



/-- The entries of the failing C7 message. -/
def c7msgKvs : List (String × J) :=
  [("protocol_version", J.str "0.1"), ("message_id", J.str "m-7"),
   ("intent", J.str "echo"),
   ("payload", J.obj [("force_error", J.bool true)]),
   ("extensions", J.obj [("identity", J.obj [("actor_id", J.str "owner")])])]

/-- The C7 message whose payload forces a retryable failure. -/
def c7msg : J := J.obj c7msgKvs

/-- Its first delivery (attempt 0 of 3). -/
def c7env0 : J := J.obj
  [("message", c7msg), ("attempt", J.num 0), ("max_attempts", J.num 3)]

/-- Its third delivery (attempt 2 of 3): the last one. -/
def c7env2 : J := J.obj
  [("message", c7msg), ("attempt", J.num 2), ("max_attempts", J.num 3)]

/-- The terminal error the worker caches and posts after exhausting
attempts. -/
def c7dlqError : J := makeError E_NODE_TIMEOUT (WORKER_NODE_ID ++ " exceeded max attempts")
  (some (J.str "m-7")) true
  (some (J.obj [("node_id", J.str WORKER_NODE_ID), ("attempt", J.num 3)]))

/-- The result body the worker posts to the router on dead-lettering. -/
def c7body : J := J.obj
  [("message_id", J.str "m-7"), ("node_id", J.str WORKER_NODE_ID),
   ("response", c7dlqError), ("attempt", J.num 3),
   ("duplicate", J.bool false), ("dead_lettered", J.bool true)]

/-- C7 witness: the concrete retry on attempt 0, the dead-lettering on
attempt 2, and the router recording state "dlq" for the posted result. -/
theorem C7_retry_and_dlq_witness :
    (∃ st' eff', processDelivery c2oracle c7env0 RedisState.empty WorkerEffects.empty
        = Except.ok (st', eff') ∧
      eff'.published = WorkerEffects.empty.published ++
        [(EX_CAPABILITY, "echo", J.obj
          [("message", c7msg), ("node_id", J.str WORKER_NODE_ID),
           ("routing_key", J.str "echo"), ("attempt", J.num 1),
           ("max_attempts", J.num 3)])] ∧
      st'.events = RedisState.empty.events ++
        [("m-7", "worker_received",
          J.obj [("node_id", J.str WORKER_NODE_ID), ("attempt", J.num 0)]),
         ("m-7", "retry_scheduled",
          J.obj [("node_id", J.str WORKER_NODE_ID), ("attempt", J.num 1)])] ∧
      eff'.results = WorkerEffects.empty.results ∧ st'.kv = RedisState.empty.kv) ∧
    (∃ st' eff', processDelivery c2oracle c7env2 RedisState.empty WorkerEffects.empty
        = Except.ok (st', eff') ∧
      eff'.published = WorkerEffects.empty.published ++
        [(EX_DLQ, "echo", J.obj
          [("message", c7msg), ("node_id", J.str WORKER_NODE_ID),
           ("attempt", J.num 3), ("dead_lettered", J.bool true),
           ("error", c7dlqError)])] ∧
      st'.events = RedisState.empty.events ++
        [("m-7", "worker_received",
          J.obj [("node_id", J.str WORKER_NODE_ID), ("attempt", J.num 2)]),
         ("m-7", "worker_dead_lettered",
          J.obj [("node_id", J.str WORKER_NODE_ID), ("attempt", J.num 3)])] ∧
      st'.get ("bdp:node_response:" ++ WORKER_NODE_ID ++ ":" ++ "m-7") = some c7dlqError ∧
      eff'.results = WorkerEffects.empty.results ++
        [J.obj [("message_id", J.str "m-7"), ("node_id", J.str WORKER_NODE_ID),
                ("response", c7dlqError), ("attempt", J.num 3),
                ("duplicate", J.bool false), ("dead_lettered", J.bool true)]] ∧
      (∃ err, (c7dlqError.getD "payload" (J.obj [])).lookup "error" = some err ∧
        err.lookup "code" = some (J.str E_NODE_TIMEOUT) ∧
        err.lookup "retryable" = some (J.bool true))) ∧
    (∃ st', handleWorkerResult c7body RedisState.empty = Except.ok st' ∧
      (st'.statuses.find? (fun kv => kv.1 == "m-7")).map (fun kv =>
        (match kv.2 with
         | J.obj kvs => (J.obj kvs).lookup "state"
         | _ => none)) = some (some (J.str "dlq"))) := by
  have h0 := @C7_retry_and_dlq c2oracle c7env0 RedisState.empty WorkerEffects.empty c7msgKvs
    [("force_error", J.bool true)] 0 3 "m-7" (by decide) (by decide) (by decide) (by decide)
    (by decide) (by decide) (by decide) (by decide) (by decide)
  have h2 := @C7_retry_and_dlq c2oracle c7env2 RedisState.empty WorkerEffects.empty c7msgKvs
    [("force_error", J.bool true)] 2 3 "m-7" (by decide) (by decide) (by decide) (by decide)
    (by decide) (by decide) (by decide) (by decide) (by decide)
  refine ⟨h0.1 (by decide), h2.2.1 (by decide), ?_⟩
  refine ⟨_, h2.2.2 c7body RedisState.empty c7dlqError 3 "m-7" (by decide) (by decide)
    (by decide) (by decide) (by decide) (by decide) (by decide), ?_⟩
  decide


end BrainDrive

